import Mathlib

/-!
# psutil: open-file enumeration on Windows (`arch/windows/process_handles.c`)

A shallow embedding of `psutil_get_open_files` and its helpers.  The C code
talks to the Windows kernel, to the process heap and to the Python runtime;
every answer of those collaborators is taken from an explicit `Kernel` record,
so that a run of the C function becomes a pure function of the `Kernel`, of the
arguments and of the state of the module's global variables.

* NULL pointers and NULL handles are `Option.none`.
* `DWORD` and `ULONG` are natural numbers, reduced modulo `2 ^ 32` where the C
  arithmetic can overflow (`dwInfoSize *= 2`).
* `NTSTATUS` is a signed integer (`LONG`).
* The two unbounded `do ... while` loops take a `fuel` argument; `none` means the
  fuel ran out before the loop left.
* Every API call and every write to the shared worker context is appended to
  `State.trace`; the heap and the duplicated handles are explicit state.
* The worker thread runs while the caller waits on `g_hEvtFinish` (line 83) and
  in the interval between a timed-out wait and `SuspendThread` (lines 83-87).
  The signalled state of the auto-reset event `g_hEvtFinish` is part of the
  state: a worker that finishes in that interval leaves the event signalled,
  and the next wait then returns at once, before the worker has run.  The round
  of the worker that this attempt has set off is then still due; the next wait
  that finds the event not signalled runs it, and `psutil_wait_thread` applied
  to a later state gives what it does when the worker is scheduled there.
-/

namespace ProcessHandles

/-! ## Types and constants of the Windows SDK headers -/

/-- A non-NULL handle value. -/
abbrev HANDLE := Nat

/-- Unsigned 32-bit value. -/
abbrev DWORD := Nat

/-- Signed 32-bit status code (`LONG`). -/
abbrev NTSTATUS := Int

/-- Value `((NTSTATUS)0xC0000004L)` of ntstatus.h, as a signed 32-bit integer. -/
def STATUS_INFO_LENGTH_MISMATCH : NTSTATUS := -1073741820

/-- Macro `NT_SUCCESS(Status)` of the SDK: `((NTSTATUS)(Status)) >= 0`. -/
def NT_SUCCESS (status : NTSTATUS) : Bool := decide (0 ≤ status)

/-- Wait result: the object was signalled. -/
def WAIT_OBJECT_0 : DWORD := 0

/-- Wait result: the time-out interval elapsed. -/
def WAIT_TIMEOUT : DWORD := 258

/-- Wait result: the wait itself failed. -/
def WAIT_FAILED : DWORD := 0xFFFFFFFF

/-- Maximal path length of windef.h. -/
def MAX_PATH : Nat := 260

/-- Size in bytes of a `WCHAR`. -/
def sizeof_WCHAR : Nat := 2

/-- Source line 26: `#define NTQO_TIMEOUT 100`. -/
def NTQO_TIMEOUT : Nat := 100

/-- The counted string `UNICODE_STRING`: `Length` is in bytes, `Buffer` holds the
UTF-16 code units. -/
structure UNICODE_STRING where
  Length : Nat
  Buffer : List Nat
deriving DecidableEq, Repr

/-- A freshly zeroed `UNICODE_STRING` (what `HEAP_ZERO_MEMORY` leaves). -/
def UNICODE_STRING.zero : UNICODE_STRING := ⟨0, []⟩

/-- The fields of `SYSTEM_HANDLE_TABLE_ENTRY_INFO_EX` the function reads. -/
structure SYSTEM_HANDLE_TABLE_ENTRY_INFO_EX where
  UniqueProcessId : Nat
  HandleValue : Nat
deriving DecidableEq, Repr

/-- A Python `str` object built by `PyUnicode_FromWideChar`. -/
abbrev PyStr := List Nat

/-- The value `PyUnicode_FromWideChar(u.Buffer, u.Length / 2)` builds. -/
def PyUnicode_FromWideChar (u : UNICODE_STRING) : PyStr := u.Buffer.take (u.Length / 2)

/-- A last-error code left by a failed Win32 call; it is never zero. -/
structure ErrorCode where
  code : DWORD
  nonzero : code ≠ 0

/-- Outcome of `CreateThread`. -/
inductive ThreadResult where
  | created (h : HANDLE)
  | failed (err : ErrorCode)

/-- What the worker does once it is signalled and the caller waits for it. -/
inductive WorkerReply where
  /-- `NtQueryObject` returns before the wait gives up: the status, the returned
  length and what was written into the name buffer. -/
  | finished (status : NTSTATUS) (returnLength : Nat) (name : UNICODE_STRING)
  /-- The worker is still inside `NtQueryObject` when the caller suspends it. -/
  | hung
  /-- The wait gives up, and `NtQueryObject` returns after that but before
  `SuspendThread` takes effect. -/
  | late (status : NTSTATUS) (returnLength : Nat) (name : UNICODE_STRING)
  /-- The wait on `g_hEvtFinish` itself fails; the worker has not returned. -/
  | waitFailed
deriving DecidableEq, Repr

/-- Every answer of the operating system, the heap and the Python runtime during
one call.  Calls made inside the handle loop are indexed by the loop index `i`,
those inside the name retry loop also by the attempt number `j`. -/
structure Kernel where
  /-- Result of the first `CreateEvent` (line 37). -/
  createEventStart : Option HANDLE
  /-- Result of the second `CreateEvent` (line 38). -/
  createEventFinish : Option HANDLE
  /-- Whether `PyList_New(0)` returns a list. -/
  pyListNew : Bool
  /-- Whether the `n`-th snapshot buffer of the given size can be allocated. -/
  heapAllocInfo : Nat → Nat → Bool
  /-- Status of the `n`-th `NtQuerySystemInformation` given the buffer size. -/
  ntQuerySystemInformation : Nat → Nat → NTSTATUS
  /-- The handle table a successful snapshot query leaves in the buffer. -/
  handles : List SYSTEM_HANDLE_TABLE_ENTRY_INFO_EX
  /-- Result of `DuplicateHandle` for record `i`, source process and handle value. -/
  duplicateHandle : Nat → HANDLE → Nat → Option HANDLE
  /-- Whether the name buffer of attempt `j` for record `i` can be allocated. -/
  heapAllocName : Nat → Nat → Nat → Bool
  /-- Result of `CreateThread` if it is called in attempt `j` for record `i`. -/
  createThread : Nat → Nat → ThreadResult
  /-- What the worker does when it runs its round in attempt `j` for record `i`,
  given the `g_hFile` and the `g_dwSize` it finds. -/
  ntQueryObject : Nat → Nat → Option HANDLE → Nat → WorkerReply
  /-- Whether `PyUnicode_FromWideChar` succeeds for record `i`. -/
  pyUnicodeFromWideChar : Nat → Bool
  /-- Whether `PyList_Append` succeeds for record `i`. -/
  pyListAppend : Nat → Bool

/-- The Python error indicator. -/
inductive PyErr where
  | windowsErr (code : Nat)
  | noMemory
  | ntStatus (status : NTSTATUS)
  | raisedByPython
deriving DecidableEq, Repr

/-- The variables of the shared worker context. -/
inductive Var where
  | g_hFile
  | g_pNameBuffer
  | g_dwSize
  | g_dwLength
  | g_status
deriving DecidableEq, Repr

/-- One observable step of a call. -/
inductive Event where
  | CreateEvent (r : Option HANDLE)
  | InitCriticalSection
  | EnterCriticalSection
  | LeaveCriticalSection
  | PyErrSet (e : PyErr)
  | PyListNew (ok : Bool)
  | HeapAlloc (size : Nat) (p : Option Nat)
  | HeapFree (p : Nat)
  | NtQuerySystemInformation (size : Nat) (status : NTSTATUS)
  | DuplicateHandle (i : Nat) (r : Option HANDLE)
  | CloseHandle (h : HANDLE)
  | write (v : Var)
  | CreateThread (i j : Nat) (r : Option HANDLE)
  | SetEventStart
  | SetEventFinish
  | NtQueryObject (i j : Nat) (size : Nat) (reply : WorkerReply)
  | WaitFinish (dwWait : DWORD)
  | SuspendThread (h : HANDLE)
  | TerminateThread (h : HANDLE)
  | WaitThread (h : HANDLE)
  | CloseThread (h : HANDLE)
  | PyUnicodeFromWideChar (i : Nat) (ok : Bool)
  | PyListAppend (i : Nat) (ok : Bool)
deriving DecidableEq, Repr

/-- The module's global variables (lines 15-24), the locals of
`psutil_get_open_files` (lines 101-110) and the resources of the process. -/
structure State where
  g_initialized : Bool
  g_status : NTSTATUS
  g_hFile : Option HANDLE
  g_hEvtStart : Option HANDLE
  g_hEvtFinish : Option HANDLE
  g_hThread : Option HANDLE
  /-- Allocation number of the block `g_pNameBuffer` points to. -/
  g_pNameBuffer : Option Nat
  g_dwSize : Nat
  g_dwLength : Nat
  pHandleInfo : Option Nat
  dwInfoSize : Nat
  error : Bool
  py_retlist : Option (List PyStr)
  /-- The `UNICODE_STRING` stored in the block `g_pNameBuffer` points to. -/
  nameBuffer : UNICODE_STRING
  /-- Python error indicator. -/
  pyErr : Option PyErr
  /-- Value `GetLastError()` returns. -/
  lastError : DWORD
  /-- Whether the auto-reset event `g_hEvtFinish` (line 38) is signalled. -/
  finishSignalled : Bool
  /-- Allocation numbers of the live heap blocks. -/
  heap : List Nat
  /-- Number of allocations made so far (the next allocation number). -/
  nextBlock : Nat
  /-- Duplicated handles that are open. -/
  dupHandles : List HANDLE
  /-- Number of frees of a block that is not live and of closes of a handle that
  is not open. -/
  faults : Nat
  trace : List Event
deriving DecidableEq, Repr

/-- The state when the module is loaded: the static initialisers of lines 15-24. -/
def State.initial : State where
  g_initialized := false
  g_status := 0
  g_hFile := none
  g_hEvtStart := none
  g_hEvtFinish := none
  g_hThread := none
  g_pNameBuffer := none
  g_dwSize := 0
  g_dwLength := 0
  pHandleInfo := none
  dwInfoSize := 0
  error := false
  py_retlist := none
  nameBuffer := UNICODE_STRING.zero
  pyErr := none
  lastError := 0
  finishSignalled := false
  heap := []
  nextBlock := 0
  dupHandles := []
  faults := 0
  trace := []

/-! ## Primitive steps -/

/-- Append one event to the trace. -/
def emit (e : Event) (s : State) : State := { s with trace := s.trace ++ [e] }

/-- Source line 27: `MALLOC_ZERO(x)` is `HeapAlloc(GetProcessHeap(), HEAP_ZERO_MEMORY, x)`.
Returns the number of the new block, or `none` when the heap refuses. -/
def MALLOC_ZERO (ok : Bool) (size : Nat) (s : State) : Option Nat × State :=
  if ok then
    (some s.nextBlock,
      { s with heap := s.nextBlock :: s.heap, nextBlock := s.nextBlock + 1,
               trace := s.trace ++ [Event.HeapAlloc size (some s.nextBlock)] })
  else (none, emit (Event.HeapAlloc size none) s)

/-- Modelled from the spec: the macro `FREE` of `_psutil_common.h`, which releases a
heap block ("release the buffer").  Freeing a block that is not live is counted
in `faults`. -/
def FREE (p : Nat) (s : State) : State :=
  { s with heap := s.heap.erase p,
           faults := if p ∈ s.heap then s.faults else s.faults + 1,
           trace := s.trace ++ [Event.HeapFree p] }

/-- Win32 `CloseHandle` on a duplicated handle.  Closing a handle that is not open
is counted in `faults`. -/
def CloseHandle (h : HANDLE) (s : State) : State :=
  { s with dupHandles := s.dupHandles.erase h,
           faults := if h ∈ s.dupHandles then s.faults else s.faults + 1,
           trace := s.trace ++ [Event.CloseHandle h] }

/-- Assignment to `g_hFile`. -/
def set_g_hFile (v : Option HANDLE) (s : State) : State :=
  { s with g_hFile := v, trace := s.trace ++ [Event.write Var.g_hFile] }

/-- Assignment to `g_pNameBuffer`. -/
def set_g_pNameBuffer (v : Option Nat) (s : State) : State :=
  { s with g_pNameBuffer := v, trace := s.trace ++ [Event.write Var.g_pNameBuffer] }

/-- Assignment to `g_dwSize`. -/
def set_g_dwSize (v : Nat) (s : State) : State :=
  { s with g_dwSize := v, trace := s.trace ++ [Event.write Var.g_dwSize] }

/-- Assignment to `g_dwLength`. -/
def set_g_dwLength (v : Nat) (s : State) : State :=
  { s with g_dwLength := v, trace := s.trace ++ [Event.write Var.g_dwLength] }

/-- Assignment to `g_status`. -/
def set_g_status (v : NTSTATUS) (s : State) : State :=
  { s with g_status := v, trace := s.trace ++ [Event.write Var.g_status] }

/-- Raise a Python exception. -/
def PyErr_Set (e : PyErr) (s : State) : State :=
  { s with pyErr := some e, trace := s.trace ++ [Event.PyErrSet e] }

/-! ## The functions of the source file -/

/-- Source lines 30-43. -/
def psutil_get_open_files_init (k : Kernel) (threaded : Bool) (s : State) : State :=
  if s.g_initialized then s
  else
    let s1 :=
      if threaded then
        let a := emit (Event.CreateEvent k.createEventStart)
          { s with g_hEvtStart := k.createEventStart }
        let b := emit (Event.CreateEvent k.createEventFinish)
          { a with g_hEvtFinish := k.createEventFinish }
        emit Event.InitCriticalSection b
      else s
    { s1 with g_initialized := true }

/-- Source lines 53-59 at the moment `NtQueryObject` returns in the worker: the
returned length is in `g_dwLength`, the name in the buffer, the status is stored
in `g_status`, and `SetEvent(g_hEvtFinish)` signals the event. -/
def worker_returns (status : NTSTATUS) (len : Nat) (name : UNICODE_STRING) (s : State) :
    State :=
  let a := set_g_dwLength len { s with nameBuffer := name }
  emit Event.SetEventFinish { (set_g_status status a) with finishSignalled := true }

/-- Source lines 46-61, the round of the worker's loop that `SetEvent(g_hEvtStart)`
sets off in attempt `j` for record `i`, up to the end of the caller's wait: the
worker calls `NtQueryObject` with the `g_hFile` and `g_dwSize` it finds; when
the call returns in time it stores the results and signals `g_hEvtFinish`,
otherwise it is still inside `NtQueryObject` and has written nothing. -/
def psutil_wait_thread (k : Kernel) (i j : Nat) (s : State) : State :=
  match k.ntQueryObject i j s.g_hFile s.g_dwSize with
  | WorkerReply.finished status len name =>
    worker_returns status len name
      (emit (Event.NtQueryObject i j s.g_dwSize (WorkerReply.finished status len name)) s)
  | r => emit (Event.NtQueryObject i j s.g_dwSize r) s

/-- Source line 83: `WaitForSingleObject(g_hEvtFinish, NTQO_TIMEOUT)` in attempt `j`
for record `i`, with what the worker does while the caller waits.  The event is
auto-reset (line 38, `bManualReset = FALSE`) and nothing else resets it.  If it
is already signalled the wait returns at once, before the worker has run;
otherwise the worker runs its round.  The wait returns `WAIT_OBJECT_0` exactly
when it finds the event signalled, and resets it then. -/
def WaitForSingleObject_finish (k : Kernel) (i j : Nat) (s : State) : DWORD × State :=
  let s1 := if s.finishSignalled then s else psutil_wait_thread k i j s
  if s1.finishSignalled then
    (WAIT_OBJECT_0, emit (Event.WaitFinish WAIT_OBJECT_0) { s1 with finishSignalled := false })
  else
    match k.ntQueryObject i j s.g_hFile s.g_dwSize with
    | WorkerReply.waitFailed => (WAIT_FAILED, emit (Event.WaitFinish WAIT_FAILED) s1)
    | _ => (WAIT_TIMEOUT, emit (Event.WaitFinish WAIT_TIMEOUT) s1)

/-- Source lines 83-87, the interval between the return of a timed-out wait and
`SuspendThread`: the worker is still running, and when its `NtQueryObject`
returns there it stores the results and signals `g_hEvtFinish` (lines 53-59);
no wait consumes that signal. -/
def worker_late (k : Kernel) (i j : Nat) (s : State) : State :=
  match k.ntQueryObject i j s.g_hFile s.g_dwSize with
  | WorkerReply.late status len name => worker_returns status len name s
  | _ => s

/-- Source lines 64-96.  Returns the value of `dwWait` (or of `GetLastError()`). -/
def psutil_create_thread (k : Kernel) (i j : Nat) (s : State) : DWORD × State :=
  let s1 :=
    match s.g_hThread with
    | none =>
      match k.createThread i j with
      | ThreadResult.created h =>
        emit (Event.CreateThread i j (some h)) { s with g_hThread := some h }
      | ThreadResult.failed err =>
        emit (Event.CreateThread i j none) { s with lastError := err.code }
    | some _ => s
  match s1.g_hThread with
  | none => (s1.lastError, s1)
  | some hThread =>
    let s2 := emit Event.SetEventStart s1
    let w := WaitForSingleObject_finish k i j s2
    if w.1 = WAIT_TIMEOUT then
      let s4 := worker_late k i j w.2
      let s5 := emit (Event.CloseThread hThread) (emit (Event.WaitThread hThread)
        (emit (Event.TerminateThread hThread) (emit (Event.SuspendThread hThread) s4)))
      (w.1, { s5 with g_hThread := none })
    else w

/-- How a loop is left. -/
inductive Exit where
  /-- The loop condition became false. -/
  | done
  /-- A `goto` left the loop. -/
  | jump
deriving DecidableEq, Repr

/-- Source lines 133-152, one round of the snapshot loop; `n` counts the rounds.
The result is the status of the query, or `none` for the `goto cleanup` of
line 146. -/
def snapshot_round (k : Kernel) (n : Nat) (s : State) : Option NTSTATUS × State :=
  let s1 :=
    match s.pHandleInfo with
    | some p => { (FREE p s) with pHandleInfo := none }
    | none => s
  let s2 := { s1 with dwInfoSize := (s1.dwInfoSize * 2) % 2 ^ 32 }
  match MALLOC_ZERO (k.heapAllocInfo n s2.dwInfoSize) s2.dwInfoSize s2 with
  | (none, s3) =>
    (none, { (PyErr_Set PyErr.noMemory { s3 with pHandleInfo := none }) with error := true })
  | (some p, s3) =>
    let status := k.ntQuerySystemInformation n s2.dwInfoSize
    (some status,
      emit (Event.NtQuerySystemInformation s2.dwInfoSize status) { s3 with pHandleInfo := some p })

/-- Source lines 132-152, the snapshot loop from round `n` on.  `Exit.jump` is the
`goto cleanup` of line 146; on `Exit.done` the status of the last query is
returned. -/
def snapshot_loop (k : Kernel) : Nat → Nat → State → Option (Exit × NTSTATUS × State)
  | 0, _, _ => none
  | fuel + 1, n, s =>
    match snapshot_round k n s with
    | (none, s1) => some (Exit.jump, 0, s1)
    | (some status, s1) =>
      if status = STATUS_INFO_LENGTH_MISMATCH then snapshot_loop k fuel (n + 1) s1
      else some (Exit.done, status, s1)

/-- Source line 198: `g_pNameBuffer = MALLOC_ZERO(g_dwSize)` in attempt `j` for
record `i`. -/
def alloc_name (k : Kernel) (i j : Nat) (s : State) : State :=
  match MALLOC_ZERO (k.heapAllocName i j s.g_dwSize) s.g_dwSize s with
  | (none, s1) => set_g_pNameBuffer none s1
  | (some p, s1) => set_g_pNameBuffer (some p) { s1 with nameBuffer := UNICODE_STRING.zero }

/-- Source lines 132-160: the snapshot loop followed by the test of the final
status.  `Exit.jump` is a `goto cleanup` (lines 146 and 159). -/
def snapshot (k : Kernel) (fuel : Nat) (s : State) : Option (Exit × State) :=
  match snapshot_loop k fuel 0 s with
  | none => none
  | some (Exit.jump, _, s1) => some (Exit.jump, s1)
  | some (Exit.done, status, s1) =>
    if !NT_SUCCESS status then
      some (Exit.jump, { (PyErr_Set (PyErr.ntStatus status) s1) with error := true })
    else some (Exit.done, s1)

/-- Source lines 185-189: release any previously allocated name buffer. -/
def release_name_buffer (s : State) : State :=
  match s.g_pNameBuffer with
  | some p => set_g_dwSize 0 (set_g_pNameBuffer none (FREE p s))
  | none => s

/-- Source lines 184-208, one attempt of the name retry loop: attempt `j` for
record `i`.  `Exit.jump` is a `goto loop_cleanup`, `Exit.done` means that the
loop condition of line 210 is reached. -/
def name_round (k : Kernel) (i j : Nat) (s : State) : Exit × State :=
  let s1 := release_name_buffer s
  if s1.g_dwLength = 0 then (Exit.jump, s1)
  else
    let s2 := set_g_dwSize s1.g_dwLength s1
    let s3 := if 0 < s2.g_dwSize then alloc_name k i j s2 else s2
    if 0 < s2.g_dwSize ∧ s3.g_pNameBuffer = none then (Exit.jump, s3)
    else
      let r := psutil_create_thread k i j s3
      (if r.1 ≠ WAIT_OBJECT_0 then Exit.jump else Exit.done, r.2)

/-- Source lines 183-210, the name retry loop for record `i` from attempt `j` on.
`Exit.jump` is a `goto loop_cleanup`. -/
def name_loop (k : Kernel) (i : Nat) : Nat → Nat → State → Option (Exit × State)
  | 0, _, _ => none
  | fuel + 1, j, s =>
    match name_round k i j s with
    | (Exit.jump, s1) => some (Exit.jump, s1)
    | (Exit.done, s1) =>
      if s1.g_status = STATUS_INFO_LENGTH_MISMATCH then name_loop k i fuel (j + 1) s1
      else some (Exit.done, s1)

/-- Source lines 231-241, the code at the label `loop_cleanup`. -/
def loop_cleanup (s : State) : State :=
  let s1 :=
    match s.g_pNameBuffer with
    | some p => FREE p s
    | none => s
  let s2 := set_g_dwLength 0 (set_g_dwSize 0 (set_g_pNameBuffer none s1))
  let s3 :=
    match s2.g_hFile with
    | some h => CloseHandle h s2
    | none => s2
  set_g_hFile none s3

/-- Source lines 212-229, what follows the retry loop when it is left normally:
the test of the final status, then "convert to PyUnicode and append it to the
return list".  Lines 217-219 read the name through `g_pNameBuffer`, which is
not NULL there: the retry loop is left normally only after a successful
allocation. -/
def convert_and_append (k : Kernel) (i : Nat) (s : State) : State :=
  if !NT_SUCCESS s.g_status then s
  else if 0 < s.nameBuffer.Length then
    let s1 := emit (Event.PyUnicodeFromWideChar i (k.pyUnicodeFromWideChar i)) s
    if !k.pyUnicodeFromWideChar i then
      { s1 with error := true, pyErr := some PyErr.raisedByPython }
    else
      let s2 := emit (Event.PyListAppend i (k.pyListAppend i)) s1
      if !k.pyListAppend i then
        { s2 with error := true, pyErr := some PyErr.raisedByPython }
      else
        let py_path := PyUnicode_FromWideChar s2.nameBuffer
        { s2 with py_retlist := s2.py_retlist.map (fun l => l ++ [py_path]) }
  else s

/-- Source lines 169-181 after a successful `DuplicateHandle` that returned `h`:
the handle is stored in `g_hFile` and `g_dwLength` gets the first guess. -/
def open_handle (i : Nat) (h : HANDLE) (s : State) : State :=
  let s1 := set_g_hFile (some h)
    (emit (Event.DuplicateHandle i (some h)) { s with dupHandles := h :: s.dupHandles })
  set_g_dwLength ((MAX_PATH + 1) * sizeof_WCHAR) s1

/-- Source lines 163-229, one round of the handle loop up to the label
`loop_cleanup`, for record `i`. -/
def loop_body (k : Kernel) (fuel : Nat) (dwPid : DWORD) (hProcess : HANDLE) (i : Nat)
    (hHandle : SYSTEM_HANDLE_TABLE_ENTRY_INFO_EX) (s : State) : Option State :=
  if hHandle.UniqueProcessId ≠ dwPid then some s
  else
    match k.duplicateHandle i hProcess hHandle.HandleValue with
    | none => some (emit (Event.DuplicateHandle i none) s)
    | some h =>
      match name_loop k i fuel 0 (open_handle i h s) with
      | none => none
      | some (Exit.jump, s1) => some s1
      | some (Exit.done, s1) => some (convert_and_append k i s1)

/-- Source lines 162-242, the handle loop from index `i` on over the remaining
records of the snapshot.  The C index is a `DWORD` and `NumberOfHandles` a
`ULONG_PTR`; a snapshot buffer of less than `2 ^ 32` bytes holds fewer than
`2 ^ 32` records, so the index does not wrap. -/
def handle_loop (k : Kernel) (fuel : Nat) (dwPid : DWORD) (hProcess : HANDLE) :
    Nat → List SYSTEM_HANDLE_TABLE_ENTRY_INFO_EX → State → Option State
  | _, [], s => some s
  | i, hHandle :: rest, s =>
    match loop_body k fuel dwPid hProcess i hHandle s with
    | none => none
    | some s1 => handle_loop k fuel dwPid hProcess (i + 1) rest (loop_cleanup s1)

/-- Source lines 244-265, the code at the label `cleanup`; returns `py_retlist`. -/
def cleanup (s : State) : Option (List PyStr) × State :=
  let s1 :=
    match s.g_pNameBuffer with
    | some p => FREE p s
    | none => s
  let s2 := set_g_dwLength 0 (set_g_dwSize 0 (set_g_pNameBuffer none s1))
  let s3 :=
    match s2.g_hFile with
    | some h => CloseHandle h s2
    | none => s2
  let s4 := set_g_hFile none s3
  let s5 :=
    match s4.pHandleInfo with
    | some p => FREE p s4
    | none => s4
  let s6 := { s5 with pHandleInfo := none }
  let s7 := if s6.error then { s6 with py_retlist := none } else s6
  (s7.py_retlist, emit Event.LeaveCriticalSection s7)

/-- Source line 126: `py_retlist = PyList_New(0)`. -/
def py_list_new (k : Kernel) (s : State) : State :=
  emit (Event.PyListNew k.pyListNew)
    { s with py_retlist := if k.pyListNew then some [] else none }

/-- Source lines 119-242: what runs between `EnterCriticalSection` and the label
`cleanup`. -/
def guarded (k : Kernel) (fuel : Nat) (dwPid : DWORD) (hProcess : HANDLE) (s : State) :
    Option State :=
  if s.g_hEvtStart = none ∨ s.g_hEvtFinish = none then
    some { (PyErr_Set (PyErr.windowsErr 0) s) with error := true }
  else
    let s1 := py_list_new k s
    if s1.py_retlist = none then
      some { s1 with error := true, pyErr := some PyErr.raisedByPython }
    else
      match snapshot k fuel s1 with
      | none => none
      | some (Exit.jump, s2) => some s2
      | some (Exit.done, s2) => handle_loop k fuel dwPid hProcess 0 k.handles s2

/-- Source lines 99-266.  The result is `none` when a loop does not leave within
`fuel` rounds; otherwise it is the returned `py_retlist` (`none` is NULL) and
the state the call leaves behind. -/
def psutil_get_open_files (k : Kernel) (fuel : Nat) (dwPid : DWORD) (hProcess : HANDLE)
    (s : State) : Option (Option (List PyStr) × State) :=
  let s0 := { s with pHandleInfo := none, dwInfoSize := 0x10000, error := false,
                     py_retlist := none }
  let s1 := if s0.g_initialized = false then psutil_get_open_files_init k true s0 else s0
  let s2 := emit Event.EnterCriticalSection s1
  match guarded k fuel dwPid hProcess s2 with
  | none => none
  | some s3 => some (cleanup s3)

/-! ## Observations on traces -/

/-- Buffer sizes of the `NtQuerySystemInformation` calls of a trace, in order. -/
def snapshotQueries (t : List Event) : List Nat :=
  t.filterMap (fun e => match e with
    | Event.NtQuerySystemInformation size _ => some size
    | _ => none)


/-! ## Concrete kernels -/

/-- A kernel whose handle table needs `2 ^ 31 + 1` bytes: the snapshot query reports
"too small" exactly when the buffer is smaller than that; every allocation
succeeds. -/
def kernelHuge : Kernel where
  createEventStart := some 1
  createEventFinish := some 2
  pyListNew := true
  heapAllocInfo := fun _ _ => true
  ntQuerySystemInformation := fun _ size =>
    if size < 2 ^ 31 + 1 then STATUS_INFO_LENGTH_MISMATCH else 0
  handles := []
  duplicateHandle := fun _ _ _ => none
  heapAllocName := fun _ _ _ => true
  createThread := fun _ _ => ThreadResult.created 3
  ntQueryObject := fun _ _ _ _ => WorkerReply.hung
  pyUnicodeFromWideChar := fun _ => true
  pyListAppend := fun _ => true

/-- The `NtQueryObject` calls of a trace, in order: record, attempt and buffer size. -/
def nameQueries (t : List Event) : List (Nat × Nat × Nat) :=
  t.filterMap (fun e => match e with
    | Event.NtQueryObject i j size _ => some (i, j, size)
    | _ => none)

/-- The `CreateThread` calls of a trace, in order: record and attempt. -/
def threadCreations (t : List Event) : List (Nat × Nat) :=
  t.filterMap (fun e => match e with
    | Event.CreateThread i j _ => some (i, j)
    | _ => none)

/-- What happens to the name buffer. -/
inductive Step where
  /-- A zeroed buffer of the given size is allocated. -/
  | alloc (size : Nat)
  /-- The worker is asked to query the name into a buffer of the given size. -/
  | query (size : Nat)
  /-- A buffer is freed. -/
  | free
deriving DecidableEq, Repr

/-- The name-buffer steps of a trace, in order: successful allocations, name
queries and frees. -/
def nameSteps (t : List Event) : List Step :=
  t.filterMap (fun e => match e with
    | Event.HeapAlloc size (some _) => some (Step.alloc size)
    | Event.NtQueryObject _ _ size _ => some (Step.query size)
    | Event.HeapFree _ => some Step.free
    | _ => none)

/-- The worker thread an attempt runs on: the existing one, or the one
`CreateThread` returns in attempt `j` for record `i`. -/
def workerFor (k : Kernel) (i j : Nat) (g_hThread : Option HANDLE) : Option HANDLE :=
  match g_hThread with
  | some t => some t
  | none =>
    match k.createThread i j with
    | ThreadResult.created t => some t
    | ThreadResult.failed _ => none

/-- The events of lines 68-75 when a worker is available. -/
def workerEvents (i j : Nat) (g_hThread : Option HANDLE) (t : HANDLE) : List Event :=
  match g_hThread with
  | some _ => []
  | none => [Event.CreateThread i j (some t)]

/-- The events of lines 185-189. -/
def releaseEvents (g_pNameBuffer : Option Nat) : List Event :=
  match g_pNameBuffer with
  | some p => [Event.HeapFree p, Event.write Var.g_pNameBuffer, Event.write Var.g_dwSize]
  | none => []

/-- A kernel with one handle of process 1234 whose name query answers "too small,
600 bytes needed" on every attempt, always within the timeout; everything else
succeeds. -/
def kernelRetryForever : Kernel where
  createEventStart := some 1
  createEventFinish := some 2
  pyListNew := true
  heapAllocInfo := fun _ _ => true
  ntQuerySystemInformation := fun _ _ => 0
  handles := [⟨1234, 4⟩]
  duplicateHandle := fun _ _ _ => some 100
  heapAllocName := fun _ _ _ => true
  createThread := fun _ _ => ThreadResult.created 3
  ntQueryObject := fun _ _ _ _ =>
    WorkerReply.finished STATUS_INFO_LENGTH_MISMATCH 600 UNICODE_STRING.zero
  pyUnicodeFromWideChar := fun _ => true
  pyListAppend := fun _ => true

/-- The state in which a first call under `kernelRetryForever` has just entered the
critical section (line 117). -/
def retryForeverEntered : State :=
  emit Event.EnterCriticalSection
    (psutil_get_open_files_init kernelRetryForever true
      { State.initial with dwInfoSize := 0x10000 })

/-- The free that is still due for the name buffer a state holds. -/
def pendingFree (s : State) : List Step :=
  match s.g_pNameBuffer with
  | some _ => [Step.free]
  | none => []

/-- The name-buffer steps the specification prescribes for one handle, from attempt
`j` with a buffer of `size` bytes on: a zeroed buffer of exactly `size` bytes is
allocated, the name is queried into it, the buffer is freed; when the reply is
"too small" with a reported length `L > 0` the next attempt follows with
exactly `L` bytes, and any other reply (a success status, another failure, a
timeout, a reported length of 0) ends the retries. -/
def Spec.retrySteps (k : Kernel) (i : Nat) (hFile : Option HANDLE) :
    Nat → Nat → Nat → List Step
  | 0, _, _ => []
  | fuel + 1, j, size =>
    Step.alloc size :: Step.query size :: Step.free ::
      match k.ntQueryObject i j hFile size with
      | WorkerReply.finished status L _ =>
        if status = STATUS_INFO_LENGTH_MISMATCH ∧ 0 < L then
          Spec.retrySteps k i hFile fuel (j + 1) L
        else []
      | _ => []

/-- The events of the code at the label `loop_cleanup` (lines 231-241), given the
`g_pNameBuffer` and the `g_hFile` it finds. -/
def cleanupEvents (p : Option Nat) (h : Option HANDLE) : List Event :=
  (match p with
    | some b => [Event.HeapFree b]
    | none => [])
  ++ [Event.write Var.g_pNameBuffer, Event.write Var.g_dwSize, Event.write Var.g_dwLength]
  ++ (match h with
    | some f => [Event.CloseHandle f]
    | none => [])
  ++ [Event.write Var.g_hFile]

/-- A kernel with one handle of process 1234: the first name query answers "too
small, 1000 bytes needed", and the heap then refuses the 1000-byte buffer. -/
def kernelAllocFails : Kernel where
  createEventStart := some 1
  createEventFinish := some 2
  pyListNew := true
  heapAllocInfo := fun _ _ => true
  ntQuerySystemInformation := fun _ _ => 0
  handles := [⟨1234, 4⟩]
  duplicateHandle := fun _ _ _ => some 100
  heapAllocName := fun _ j _ => decide (j = 0)
  createThread := fun _ _ => ThreadResult.created 3
  ntQueryObject := fun _ j _ _ =>
    if j = 0 then WorkerReply.finished STATUS_INFO_LENGTH_MISMATCH 1000 UNICODE_STRING.zero
    else WorkerReply.finished 0 1000 ⟨4, [92, 97]⟩
  pyUnicodeFromWideChar := fun _ => true
  pyListAppend := fun _ => true

/-- The last-error code `ERROR_NOT_ENOUGH_MEMORY`. -/
def ERROR_NOT_ENOUGH_MEMORY : ErrorCode := ⟨8, by decide⟩

/-- A kernel with one handle of process 1234 for which `CreateThread` fails with
`ERROR_NOT_ENOUGH_MEMORY`; everything else succeeds. -/
def kernelThreadFails : Kernel where
  createEventStart := some 1
  createEventFinish := some 2
  pyListNew := true
  heapAllocInfo := fun _ _ => true
  ntQuerySystemInformation := fun _ _ => 0
  handles := [⟨1234, 4⟩]
  duplicateHandle := fun _ _ _ => some 100
  heapAllocName := fun _ _ _ => true
  createThread := fun _ _ => ThreadResult.failed ERROR_NOT_ENOUGH_MEMORY
  ntQueryObject := fun _ _ _ _ => WorkerReply.finished 0 8 ⟨4, [92, 97]⟩
  pyUnicodeFromWideChar := fun _ => true
  pyListAppend := fun _ => true

/-- No event of the list enters or leaves the critical section. -/
def Quiet (d : List Event) : Prop :=
  ∀ e ∈ d, e ≠ Event.EnterCriticalSection ∧ e ≠ Event.LeaveCriticalSection

/-- The second state continues the trace of the first without entering or leaving
the critical section. -/
def Inside (s s' : State) : Prop := ∃ d, s'.trace = s.trace ++ d ∧ Quiet d

/-- The events that must lie inside the guarded region: the snapshot query,
`DuplicateHandle`, every write to the shared worker context, the signal to the
worker and what the worker does. -/
def Event.guarded : Event → Bool
  | Event.NtQuerySystemInformation _ _ => true
  | Event.DuplicateHandle _ _ => true
  | Event.write _ => true
  | Event.SetEventStart => true
  | Event.SetEventFinish => true
  | Event.NtQueryObject _ _ _ _ => true
  | _ => false

/-- The resources of a state between two rounds of the handle loop: no duplicated
handle and no name buffer are held, the open duplicated handles are `D`, `F`
faults were counted, and the heap is `H` plus the snapshot buffer, if any. -/
def Clean (H : List Nat) (D : List HANDLE) (F : Nat) (s : State) : Prop :=
  s.g_hFile = none ∧ s.g_pNameBuffer = none ∧ s.dupHandles = D ∧ s.faults = F ∧
  s.heap = (match s.pHandleInfo with
    | some p => p :: H
    | none => H)

/-- The resources of a state inside the name retry loop: the duplicated handle `h`
is held on top of `D`, `F` faults were counted, and the heap is `Hb` plus the
name buffer, if any. -/
def Holding (Hb : List Nat) (D : List HANDLE) (F : Nat) (h : HANDLE) (s : State) : Prop :=
  s.g_hFile = some h ∧ s.dupHandles = h :: D ∧ s.faults = F ∧
  s.heap = (match s.g_pNameBuffer with
    | some b => b :: Hb
    | none => Hb)

/-- One call: the kernel it runs against, the fuel and the two arguments. -/
structure Call where
  kernel : Kernel
  fuel : Nat
  dwPid : DWORD
  hProcess : HANDLE

/-- A sequence of calls, each starting in the state the previous one left. -/
def calls : List Call → State → Option State
  | [], s => some s
  | c :: rest, s =>
    match psutil_get_open_files c.kernel c.fuel c.dwPid c.hProcess s with
    | none => none
    | some r => calls rest r.2

/-! ## The specification of the returned list -/

/-- Whether an attempt has a worker to run on: one exists already, or
`CreateThread` succeeds in attempt `j` for record `i`. -/
def Spec.workerAvailable (k : Kernel) (i j : Nat) (worker : Bool) : Bool :=
  worker ||
    match k.createThread i j with
    | ThreadResult.created _ => true
    | ThreadResult.failed _ => false

/-- Condition (c) of the specification for record `i`, whose duplicate is `hFile`,
from attempt `j` with a buffer of `size` bytes on, `worker` telling whether a
worker thread exists: the name query completes within the timeout with a
success status after zero or more "too small" retries.  A query takes place
only when its buffer can be allocated and a worker is available.  The result
is the resolved `UNICODE_STRING`, if any, and whether a worker thread exists
afterwards (it does not after a timeout). -/
def Spec.resolve (k : Kernel) (i : Nat) (hFile : Option HANDLE) :
    Nat → Nat → Nat → Bool → Option UNICODE_STRING × Bool
  | 0, _, _, worker => (none, worker)
  | fuel + 1, j, size, worker =>
    if size = 0 then (none, worker)
    else if !k.heapAllocName i j size then (none, worker)
    else if !Spec.workerAvailable k i j worker then (none, worker)
    else
      match k.ntQueryObject i j hFile size with
      | WorkerReply.finished status L name =>
        if status = STATUS_INFO_LENGTH_MISMATCH then Spec.resolve k i hFile fuel (j + 1) L true
        else (if NT_SUCCESS status then some name else none, true)
      | WorkerReply.hung => (none, false)
      | WorkerReply.late _ _ _ => (none, false)
      | WorkerReply.waitFailed => (none, true)

/-- What record `i` contributes to the returned list according to the
specification, and whether a worker thread exists afterwards: one entry when
(a) the record belongs to `dwPid`, (b) `DuplicateHandle` succeeds, (c) the name
query resolves and (d) the resolved name has `Length > 0`; nothing otherwise. -/
def Spec.entry (k : Kernel) (dwPid : DWORD) (hProcess : HANDLE) (fuel : Nat) (i : Nat)
    (hHandle : SYSTEM_HANDLE_TABLE_ENTRY_INFO_EX) (worker : Bool) : List PyStr × Bool :=
  if hHandle.UniqueProcessId = dwPid then
    match k.duplicateHandle i hProcess hHandle.HandleValue with
    | none => ([], worker)
    | some h =>
      let q := Spec.resolve k i (some h) fuel 0 ((MAX_PATH + 1) * sizeof_WCHAR) worker
      (match q.1 with
        | some u => if 0 < u.Length then [PyUnicode_FromWideChar u] else []
        | none => [],
       q.2)
  else ([], worker)

/-- The list the specification prescribes for the records from index `i` on: the
entries of the records, in snapshot order. -/
def Spec.names (k : Kernel) (dwPid : DWORD) (hProcess : HANDLE) (fuel : Nat) :
    Nat → List SYSTEM_HANDLE_TABLE_ENTRY_INFO_EX → Bool → List PyStr
  | _, [], _ => []
  | i, hHandle :: rest, worker =>
    (Spec.entry k dwPid hProcess fuel i hHandle worker).1
      ++ Spec.names k dwPid hProcess fuel (i + 1) rest
          (Spec.entry k dwPid hProcess fuel i hHandle worker).2

/-- The heap and snapshot-query events of a trace, in order. -/
def snapshotSteps (t : List Event) : List Event :=
  t.filter (fun e => match e with
    | Event.HeapAlloc _ _ => true
    | Event.HeapFree _ => true
    | Event.NtQuerySystemInformation _ _ => true
    | _ => false)

/-- The free that is still due for the snapshot buffer a state holds. -/
def pendingInfo (s : State) : List Event :=
  match s.pHandleInfo with
  | some p => [Event.HeapFree p]
  | none => []

/-- No worker completes a name query after the wait for it has timed out: no reply
of the kernel is `late`. -/
def punctual (k : Kernel) : Prop :=
  ∀ i j h size status L name, k.ntQueryObject i j h size ≠ WorkerReply.late status L name

/-- Size in bytes of the snapshot buffer in round `n` (counted from 0): the initial
`0x10000` doubled `n + 1` times in 32-bit arithmetic. -/
def snapshotSize (n : Nat) : Nat := 0x10000 * 2 ^ (n + 1) % 2 ^ 32

/-- What the specification prescribes for attempt `a` (counted from 0) of the
snapshot loop, `block` being the number of the first block the loop allocates:
a zeroed buffer of `snapshotSize a` bytes is allocated, the query is issued
with it, and the buffer is freed before the next attempt. -/
def Spec.growthSteps (k : Kernel) (block a : Nat) : List Event :=
  [Event.HeapAlloc (snapshotSize a) (some (block + a)),
   Event.NtQuerySystemInformation (snapshotSize a)
     (k.ntQuerySystemInformation a (snapshotSize a)),
   Event.HeapFree (block + a)]

/-- The snapshot loop ends in round `n` at the latest: the buffer of that round
cannot be allocated, or the query of that round does not report "too small". -/
def snapshotEnds (k : Kernel) (n : Nat) : Prop :=
  k.heapAllocInfo n (snapshotSize n) = false ∨
  k.ntQuerySystemInformation n (snapshotSize n) ≠ STATUS_INFO_LENGTH_MISMATCH

/-- The UTF-16 code units of `\Device\HarddiskVolume1\file.txt` (64 bytes). -/
def fileName : UNICODE_STRING :=
  ⟨64, [92, 68, 101, 118, 105, 99, 101, 92, 72, 97, 114, 100, 100, 105, 115, 107, 86, 111,
    108, 117, 109, 101, 49, 92, 102, 105, 108, 101, 46, 116, 120, 116]⟩

/-- The end-to-end scenario of the specification, with a fourth handle: process
1234 owns a regular file whose name needs one "too small" retry (80 bytes), a
pipe whose name query hangs, and a second file that resolves at once; a handle
of process 99 lies in between.  The handle table needs `0x50000` bytes. -/
def kernelScenario : Kernel where
  createEventStart := some 11
  createEventFinish := some 12
  pyListNew := true
  heapAllocInfo := fun _ _ => true
  ntQuerySystemInformation := fun _ size =>
    if size < 0x50000 then STATUS_INFO_LENGTH_MISMATCH else 0
  handles := [⟨1234, 4⟩, ⟨1234, 8⟩, ⟨99, 4⟩, ⟨1234, 12⟩]
  duplicateHandle := fun _ _ v => some (100 + v)
  heapAllocName := fun _ _ _ => true
  createThread := fun i _ => ThreadResult.created (50 + i)
  ntQueryObject := fun i j _ _ =>
    if j = 0 then
      (if i = 0 then WorkerReply.finished STATUS_INFO_LENGTH_MISMATCH 80 UNICODE_STRING.zero
       else if i = 1 then WorkerReply.hung
       else WorkerReply.finished 0 80 fileName)
    else WorkerReply.finished 0 80 fileName
  pyUnicodeFromWideChar := fun _ => true
  pyListAppend := fun _ => true

/-- The state the scenario leaves behind when run in the initial state. -/
def scenarioFinal : State :=
  ((psutil_get_open_files kernelScenario 5 1234 77 State.initial).map Prod.snd).getD
    State.initial

/-- The state after the first round of the handle loop of the scenario, before
its `loop_cleanup`. -/
def scenarioRound : State :=
  (loop_body kernelScenario 5 1234 77 0 ⟨1234, 4⟩ State.initial).getD State.initial

/-- A kernel with two handles of process 1234 that both resolve to `fileName`;
`PyList_Append` fails for the first one. -/
def kernelAppendFails : Kernel where
  createEventStart := some 1
  createEventFinish := some 2
  pyListNew := true
  heapAllocInfo := fun _ _ => true
  ntQuerySystemInformation := fun _ _ => 0
  handles := [⟨1234, 4⟩, ⟨1234, 8⟩]
  duplicateHandle := fun _ _ v => some (100 + v)
  heapAllocName := fun _ _ _ => true
  createThread := fun _ _ => ThreadResult.created 3
  ntQueryObject := fun _ _ _ _ => WorkerReply.finished 0 80 fileName
  pyUnicodeFromWideChar := fun _ => true
  pyListAppend := fun i => decide (i ≠ 0)

/-- Value `((NTSTATUS)0xC0000008L)` of ntstatus.h, as a signed 32-bit integer. -/
def STATUS_INVALID_HANDLE : NTSTATUS := -1073741816

/-- A kernel with two handles of process 1234, a pipe and a regular file.  The name
query of the pipe returns successfully, but only after the wait for it has
timed out and before the worker is suspended; the name query of the file
answers at once with `fileName`, and a query with a NULL handle fails with
`STATUS_INVALID_HANDLE`.  Everything else succeeds. -/
def kernelLateFinish : Kernel where
  createEventStart := some 1
  createEventFinish := some 2
  pyListNew := true
  heapAllocInfo := fun _ _ => true
  ntQuerySystemInformation := fun _ _ => 0
  handles := [⟨1234, 4⟩, ⟨1234, 8⟩]
  duplicateHandle := fun _ _ v => some (100 + v)
  heapAllocName := fun _ _ _ => true
  createThread := fun i _ => ThreadResult.created (50 + i)
  ntQueryObject := fun i _ h _ =>
    if i = 0 then WorkerReply.late 0 80 fileName
    else if h = none then WorkerReply.finished STATUS_INVALID_HANDLE 0 UNICODE_STRING.zero
    else WorkerReply.finished 0 80 fileName
  pyUnicodeFromWideChar := fun _ => true
  pyListAppend := fun _ => true

/-- The state a first call under `kernelLateFinish` leaves behind. -/
def lateFinishFinal : State :=
  ((psutil_get_open_files kernelLateFinish 5 1234 77 State.initial).map Prod.snd).getD
    State.initial

/-- A kernel like `kernelLateFinish` whose late pipe query fails with
`STATUS_INVALID_HANDLE`. -/
def kernelLatePipe : Kernel where
  createEventStart := some 1
  createEventFinish := some 2
  pyListNew := true
  heapAllocInfo := fun _ _ => true
  ntQuerySystemInformation := fun _ _ => 0
  handles := [⟨1234, 4⟩, ⟨1234, 8⟩]
  duplicateHandle := fun _ _ v => some (100 + v)
  heapAllocName := fun _ _ _ => true
  createThread := fun i _ => ThreadResult.created (50 + i)
  ntQueryObject := fun i _ _ _ =>
    if i = 0 then WorkerReply.late STATUS_INVALID_HANDLE 0 UNICODE_STRING.zero
    else WorkerReply.finished 0 80 fileName
  pyUnicodeFromWideChar := fun _ => true
  pyListAppend := fun _ => true

/-- The state in which the handle loop under `kernelLatePipe` meets the file: the
pipe's round and its `loop_cleanup` are over. -/
def latePipeSecond : State :=
  ((loop_body kernelLatePipe 5 1234 77 0 ⟨1234, 4⟩
    { State.initial with py_retlist := some [] }).map loop_cleanup).getD State.initial

/-- The events of a trace that follow the first occurrence of `e`. -/
def eventsAfter (e : Event) (t : List Event) : List Event :=
  (t.dropWhile (fun x => decide (x ≠ e))).tail

/-- The `DuplicateHandle` calls of a trace, in order: record and result. -/
def duplications (t : List Event) : List (Nat × Option HANDLE) :=
  t.filterMap (fun e => match e with
    | Event.DuplicateHandle i r => some (i, r)
    | _ => none)

/-! ## The snapshot loop -/

theorem snapshotQueries_append (a b : List Event) :
    snapshotQueries (a ++ b) = snapshotQueries a ++ snapshotQueries b := by
  simp [snapshotQueries]

/-- A round of the snapshot loop in which the allocation fails. -/
theorem snapshot_round_nomem (k : Kernel) (n : Nat) (s : State)
    (h : k.heapAllocInfo n ((s.dwInfoSize * 2) % 2 ^ 32) = false) :
    ∃ s', snapshot_round k n s = (none, s') ∧ s'.error = true ∧
      s'.pyErr = some PyErr.noMemory ∧ s'.pHandleInfo = none ∧
      snapshotQueries s'.trace = snapshotQueries s.trace := by
  norm_num at h
  cases hp : s.pHandleInfo <;>
    simp [snapshot_round, hp, h, MALLOC_ZERO, FREE, emit, PyErr_Set, snapshotQueries]

/-- A round of the snapshot loop in which the allocation succeeds. -/
theorem snapshot_round_query (k : Kernel) (n : Nat) (s : State)
    (h : k.heapAllocInfo n ((s.dwInfoSize * 2) % 2 ^ 32) = true) :
    ∃ s', snapshot_round k n s
        = (some (k.ntQuerySystemInformation n ((s.dwInfoSize * 2) % 2 ^ 32)), s') ∧
      s'.error = s.error ∧ s'.pHandleInfo ≠ none ∧
      s'.dwInfoSize = (s.dwInfoSize * 2) % 2 ^ 32 ∧
      snapshotQueries s'.trace = snapshotQueries s.trace ++ [(s.dwInfoSize * 2) % 2 ^ 32] := by
  norm_num at h
  cases hp : s.pHandleInfo <;>
    simp [snapshot_round, hp, h, MALLOC_ZERO, FREE, emit, PyErr_Set, snapshotQueries]

theorem pow_double_mod (n : Nat) (h : n ≤ 14) : (2 ^ (16 + n) * 2) % 2 ^ 32 = 2 ^ (17 + n) := by
  have e : 2 ^ (16 + n) * 2 = 2 ^ (17 + n) := by
    rw [← pow_succ]; congr 1; omega
  rw [e]
  exact Nat.mod_eq_of_lt (Nat.pow_lt_pow_right (by norm_num) (by omega))

/-- The snapshot loop under a kernel that asks for `N ≤ 2 ^ 31` bytes, started in
round `n ≤ 14` with `dwInfoSize = 2 ^ (16 + n)`: it leaves after `m` queries. -/
theorem snapshot_loop_bounded (k : Kernel) (N : Nat) (hN : N ≤ 2 ^ 31)
    (hk : ∀ n size, k.ntQuerySystemInformation n size = STATUS_INFO_LENGTH_MISMATCH ↔ size < N) :
    ∀ (fuel n : Nat) (s : State), 15 ≤ n + fuel → n ≤ 14 → s.dwInfoSize = 2 ^ (16 + n) →
      ∃ e st s' m, snapshot_loop k fuel n s = some (e, st, s') ∧
        snapshotQueries s'.trace
          = snapshotQueries s.trace ++ (List.range m).map (fun a => 2 ^ (17 + n + a)) ∧
        (2 ≤ m → 2 ^ (15 + n + m) < N) ∧ n + m ≤ 15 ∧
        (e = Exit.jump → s'.error = true ∧ s'.pyErr = some PyErr.noMemory) ∧
        (e = Exit.done → st ≠ STATUS_INFO_LENGTH_MISMATCH ∧ s'.pHandleInfo ≠ none ∧
          s'.error = s.error) := by
  intro fuel
  induction fuel with
  | zero => intro n s h1 h2; omega
  | succ fuel ih =>
    intro n s h1 h2 hs
    have hsz : (s.dwInfoSize * 2) % 2 ^ 32 = 2 ^ (17 + n) := by rw [hs]; exact pow_double_mod n h2
    unfold snapshot_loop
    cases hal : k.heapAllocInfo n ((s.dwInfoSize * 2) % 2 ^ 32)
    · obtain ⟨s', e1, e2, e3, _, e5⟩ := snapshot_round_nomem k n s hal
      refine ⟨Exit.jump, 0, s', 0, ?_, ?_, ?_, ?_, ?_, ?_⟩
      · simp [e1]
      · simp [e5]
      · omega
      · omega
      · intro _; exact ⟨e2, e3⟩
      · intro h; cases h
    · obtain ⟨s', e1, e2, e3, e4, e5⟩ := snapshot_round_query k n s hal
      rw [hsz] at e1 e4 e5
      by_cases hm : k.ntQuerySystemInformation n (2 ^ (17 + n)) = STATUS_INFO_LENGTH_MISMATCH
      · have hlt : 2 ^ (17 + n) < N := (hk _ _).1 hm
        have hn : n ≤ 13 := by
          by_contra hc
          have : n = 14 := by omega
          subst this
          norm_num at hlt hN
          omega
        obtain ⟨e, st, s'', m, f1, f2, f3, f4, f5, f6⟩ :=
          ih (n + 1) s' (by omega) (by omega) (by rw [e4]; congr 1; omega)
        refine ⟨e, st, s'', m + 1, ?_, ?_, ?_, ?_, f5, ?_⟩
        · simp [e1, hm, f1]
        · rw [f2, e5, List.range_succ_eq_map]
          simp only [List.map_cons, List.map_map, List.append_assoc, List.singleton_append,
            Nat.add_zero]
          congr 2
          apply List.map_congr_left
          intro a _
          simp only [Function.comp]
          congr 1
          omega
        · intro h2m
          by_cases hm1 : m = 1
          · subst hm1
            have : 15 + n + (1 + 1) = 17 + n := by omega
            rw [this]; exact hlt
          · have := f3 (by omega)
            have e : 15 + (n + 1) + m = 15 + n + (m + 1) := by omega
            rw [← e]; exact this
        · omega
        · intro h; obtain ⟨g1, g2, g3⟩ := f6 h
          exact ⟨g1, g2, g3.trans e2⟩
      · refine ⟨Exit.done, k.ntQuerySystemInformation n (2 ^ (17 + n)), s', 1,
          ?_, ?_, ?_, ?_, ?_, ?_⟩
        · simp [e1, hm]
        · simp [e5, List.range_succ]
        · omega
        · omega
        · intro h; cases h
        · intro _; exact ⟨hm, e3, e2⟩
theorem snapshotSteps_append (a b : List Event) :
    snapshotSteps (a ++ b) = snapshotSteps a ++ snapshotSteps b := by
  simp [snapshotSteps]

/-- The heap and query events of one round of the snapshot loop. -/
theorem snapshot_round_steps (k : Kernel) (n : Nat) (s : State) :
    (k.heapAllocInfo n ((s.dwInfoSize * 2) % 2 ^ 32) = false →
      snapshotSteps (snapshot_round k n s).2.trace ++ pendingInfo (snapshot_round k n s).2
        = snapshotSteps s.trace ++ pendingInfo s
          ++ [Event.HeapAlloc ((s.dwInfoSize * 2) % 2 ^ 32) none]) ∧
    (k.heapAllocInfo n ((s.dwInfoSize * 2) % 2 ^ 32) = true →
      snapshotSteps (snapshot_round k n s).2.trace ++ pendingInfo (snapshot_round k n s).2
        = snapshotSteps s.trace ++ pendingInfo s
          ++ [Event.HeapAlloc ((s.dwInfoSize * 2) % 2 ^ 32) (some s.nextBlock),
              Event.NtQuerySystemInformation ((s.dwInfoSize * 2) % 2 ^ 32)
                (k.ntQuerySystemInformation n ((s.dwInfoSize * 2) % 2 ^ 32)),
              Event.HeapFree s.nextBlock] ∧
      (snapshot_round k n s).2.nextBlock = s.nextBlock + 1) := by
  constructor
  · intro h
    norm_num at h
    cases hp : s.pHandleInfo <;>
      simp [snapshot_round, hp, h, MALLOC_ZERO, FREE, emit, PyErr_Set, snapshotSteps, pendingInfo]
  · intro h
    norm_num at h
    cases hp : s.pHandleInfo <;>
      simp [snapshot_round, hp, h, MALLOC_ZERO, FREE, emit, PyErr_Set, snapshotSteps, pendingInfo]

theorem snapshotSize_succ (s : State) (n : Nat) (hs : s.dwInfoSize = 0x10000 * 2 ^ n % 2 ^ 32) :
    (s.dwInfoSize * 2) % 2 ^ 32 = snapshotSize n := by
  have e : 65536 * 2 ^ (n + 1) = 65536 * 2 ^ n * 2 := by rw [pow_succ, Nat.mul_assoc]
  have p : (2 : Nat) ^ 32 = 4294967296 := by norm_num
  rw [hs, snapshotSize, e, p]
  generalize 65536 * 2 ^ n = x
  omega

/-- The heap and query events of the snapshot loop from round `n` on: every round
allocates a buffer of its size, queries with it and frees it before the next
round allocates; the free of the last buffer is still due. -/
theorem snapshot_loop_steps (k : Kernel) :
    ∀ (fuel n : Nat) (s : State) (e : Exit) (st : NTSTATUS) (s' : State),
      snapshot_loop k fuel n s = some (e, st, s') →
      s.dwInfoSize = 0x10000 * 2 ^ n % 2 ^ 32 →
      ∃ m, snapshotSteps s'.trace ++ pendingInfo s'
          = snapshotSteps s.trace ++ pendingInfo s
            ++ (List.range m).flatMap (fun a =>
              [Event.HeapAlloc (snapshotSize (n + a)) (some (s.nextBlock + a)),
               Event.NtQuerySystemInformation (snapshotSize (n + a))
                 (k.ntQuerySystemInformation (n + a) (snapshotSize (n + a))),
               Event.HeapFree (s.nextBlock + a)])
            ++ (if e = Exit.jump then [Event.HeapAlloc (snapshotSize (n + m)) none] else []) ∧
        (snapshotQueries s'.trace).length = (snapshotQueries s.trace).length + m := by
  intro fuel
  induction fuel with
  | zero => intro n s e st s' h; simp [snapshot_loop] at h
  | succ fuel ih =>
    intro n s e st s' h hs
    have hsz := snapshotSize_succ s n hs
    obtain ⟨r1, r2⟩ := snapshot_round_steps k n s
    unfold snapshot_loop at h
    cases hal : k.heapAllocInfo n ((s.dwInfoSize * 2) % 2 ^ 32)
    · obtain ⟨s1, e1, _, _, _, e5⟩ := snapshot_round_nomem k n s hal
      have r1 := r1 hal
      rw [e1] at h r1
      simp only [Option.some.injEq, Prod.mk.injEq] at h
      obtain ⟨rfl, _, rfl⟩ := h
      refine ⟨0, ?_, by simp [e5]⟩
      rw [r1, hsz]
      simp
    · obtain ⟨s1, e1, _, _, e4, e5⟩ := snapshot_round_query k n s hal
      obtain ⟨r2, r3⟩ := r2 hal
      rw [e1] at h r2 r3
      rw [hsz] at e1 e4 e5 r2
      simp only at r2 r3
      by_cases hst : k.ntQuerySystemInformation n ((s.dwInfoSize * 2) % 2 ^ 32)
          = STATUS_INFO_LENGTH_MISMATCH
      · simp only [hst, if_true] at h
        obtain ⟨m, f1, f2⟩ := ih (n + 1) s1 e st s' h (by rw [e4, snapshotSize])
        refine ⟨m + 1, ?_, ?_⟩
        · rw [f1, r2, r3, List.range_succ_eq_map, List.flatMap_cons, List.flatMap_map]
          simp only [Nat.add_zero, Nat.succ_eq_add_one, List.append_assoc]
          have e1 : ∀ a, n + 1 + a = n + (a + 1) := fun a => by omega
          have e2 : ∀ a, s.nextBlock + 1 + a = s.nextBlock + (a + 1) := fun a => by omega
          simp only [e1, e2]
        · rw [f2, e5]
          simp
          omega
      · simp only [hst, if_false, Option.some.injEq, Prod.mk.injEq] at h
        obtain ⟨rfl, _, rfl⟩ := h
        refine ⟨1, ?_, by simp [e5]⟩
        rw [r2]
        simp [List.range_succ]

/-- C9 (amended): snapshot growth ends after logarithmically many queries as long
as the required size fits the doubled 32-bit size.  The size starts at 0x10000
and is doubled modulo `2 ^ 32` before every attempt; for every required size
`N ≤ 2 ^ 31` and every kernel that reports "too small" exactly when the
supplied size is below `N`, the snapshot phase (lines 132-160) returns with any
fuel of at least 15, after `m ≤ max 1 ⌈log2 (N / 0x10000)⌉` queries, the `a`-th
of which (counted from 1) uses `0x10000 * 2 ^ a mod 2 ^ 32` bytes.  The previous
buffer is freed first: the heap and query events of the phase, with the free
that is still due for the buffer it leaves, are those of `Spec.growthSteps` for
the `m` attempts (allocate the attempt's buffer, query with it, free it), after
the free of any buffer held on entry and before at most one failed
allocation.  The phase ends either with a snapshot buffer and no error, or with
the error flag set and a Python exception raised. -/
theorem snapshot_growth_bounded (k : Kernel) (N : Nat) (hN : N ≤ 2 ^ 31)
    (hk : ∀ n size, k.ntQuerySystemInformation n size = STATUS_INFO_LENGTH_MISMATCH ↔ size < N)
    (s : State) (hs : s.dwInfoSize = 0x10000) (fuel : Nat) (hf : 15 ≤ fuel) :
    ∃ e s' m, snapshot k fuel s = some (e, s') ∧
      m ≤ max 1 (Nat.clog 2 N - 16) ∧
      snapshotQueries s'.trace = snapshotQueries s.trace
        ++ (List.range m).map (fun a => 0x10000 * 2 ^ (a + 1) % 2 ^ 32) ∧
      (∃ tail, snapshotSteps s'.trace ++ pendingInfo s'
          = snapshotSteps s.trace ++ pendingInfo s
            ++ (List.range m).flatMap (Spec.growthSteps k s.nextBlock) ++ tail ∧
        (tail = [] ∨ tail = [Event.HeapAlloc (snapshotSize m) none])) ∧
      ((e = Exit.done ∧ s'.pHandleInfo ≠ none ∧ s'.error = s.error) ∨
        (e = Exit.jump ∧ s'.error = true ∧ s'.pyErr ≠ none)) := by
  obtain ⟨e, st, s', m, h1, h2, h3, h4, h5, h6⟩ :=
    snapshot_loop_bounded k N hN hk fuel 0 s (by omega) (by omega) (by rw [hs]; norm_num)
  obtain ⟨m', q1, q2⟩ := snapshot_loop_steps k fuel 0 s e st s' h1 (by rw [hs]; norm_num)
  have hmm : m' = m := by
    have := congrArg List.length h2
    simp only [List.length_append, List.length_map, List.length_range] at this
    omega
  subst hmm
  simp only [Nat.zero_add] at q1
  have q1' : snapshotSteps s'.trace ++ pendingInfo s'
      = snapshotSteps s.trace ++ pendingInfo s
        ++ (List.range m').flatMap (Spec.growthSteps k s.nextBlock)
        ++ (if e = Exit.jump then [Event.HeapAlloc (snapshotSize m') none] else []) := q1
  have hm : m' ≤ max 1 (Nat.clog 2 N - 16) := by
    by_cases h : 2 ≤ m'
    · have := (Nat.pow_lt_iff_lt_clog (by norm_num)).1 (h3 h)
      have : m' ≤ Nat.clog 2 N - 16 := by omega
      exact le_trans this (le_max_right _ _)
    · exact le_trans (by omega) (le_max_left _ _)
  have hq : (List.range m').map (fun a => 2 ^ (17 + 0 + a))
      = (List.range m').map (fun a => 0x10000 * 2 ^ (a + 1) % 2 ^ 32) := by
    apply List.map_congr_left
    intro a ha
    have ha : a ≤ 14 := by have := List.mem_range.1 ha; omega
    have := pow_double_mod a ha
    have e1 : 0x10000 * 2 ^ (a + 1) = 2 ^ (16 + a) * 2 := by
      rw [pow_succ, pow_add]; norm_num; ring
    simp only [Nat.add_zero]
    rw [e1, this]
  rw [hq] at h2
  cases e with
  | jump =>
    refine ⟨Exit.jump, s', m', ?_, hm, h2, ⟨_, q1', Or.inr (by simp)⟩, Or.inr ⟨rfl, (h5 rfl).1, ?_⟩⟩
    · simp [snapshot, h1]
    · rw [(h5 rfl).2]; simp
  | done =>
    obtain ⟨g1, g2, g3⟩ := h6 rfl
    by_cases hsucc : NT_SUCCESS st = true
    · refine ⟨Exit.done, s', m', ?_, hm, h2, ⟨_, q1', Or.inl (by simp)⟩, Or.inl ⟨rfl, g2, g3⟩⟩
      simp [snapshot, h1, hsucc]
    · refine ⟨Exit.jump, { (PyErr_Set (PyErr.ntStatus st) s') with error := true }, m',
        ?_, hm, ?_, ⟨[], ?_, Or.inl rfl⟩, Or.inr ⟨rfl, ?_, ?_⟩⟩
      · simp [snapshot, h1, hsucc]
      · show snapshotQueries (s'.trace ++ [Event.PyErrSet (PyErr.ntStatus st)]) = _
        rw [snapshotQueries_append, h2]
        simp [snapshotQueries]
      · show snapshotSteps (s'.trace ++ [Event.PyErrSet (PyErr.ntStatus st)])
            ++ pendingInfo s' = _
        rw [snapshotSteps_append]
        simp only [if_neg (show ¬ (Exit.done = Exit.jump) from by decide),
          List.append_nil] at q1'
        have e0 : snapshotSteps [Event.PyErrSet (PyErr.ntStatus st)] = [] := rfl
        rw [e0, List.append_nil, q1', List.append_nil]
      · rfl
      · simp [PyErr_Set]

/-- Under `kernelHuge` the size runs through `2 ^ 17, ..., 2 ^ 31` and then stays
`0`, always below the required size: the loop never leaves. -/
theorem snapshot_loop_kernelHuge : ∀ (fuel n : Nat) (s : State),
    (s.dwInfoSize = 0 ∨ ∃ a, a ≤ 15 ∧ s.dwInfoSize = 2 ^ (16 + a)) →
      snapshot_loop kernelHuge fuel n s = none := by
  intro fuel
  induction fuel with
  | zero => intro n s _; rfl
  | succ fuel ih =>
    intro n s hs
    obtain ⟨s', e1, _, _, e4, _⟩ := snapshot_round_query kernelHuge n s rfl
    have key : (s.dwInfoSize * 2) % 2 ^ 32 = 0 ∨
        ∃ a, a ≤ 15 ∧ (s.dwInfoSize * 2) % 2 ^ 32 = 2 ^ (16 + a) := by
      rcases hs with h | ⟨a, ha, h⟩
      · left; rw [h]; norm_num
      · by_cases h15 : a = 15
        · left; subst h15; rw [h]; norm_num
        · right; refine ⟨a + 1, by omega, ?_⟩
          rw [h, pow_double_mod a (by omega)]; congr 1; omega
    have hlt : (s.dwInfoSize * 2) % 2 ^ 32 < 2 ^ 31 + 1 := by
      rcases key with h | ⟨a, ha, h⟩
      · rw [h]; norm_num
      · have : (s.dwInfoSize * 2) % 2 ^ 32 < 2 ^ 32 := Nat.mod_lt _ (by norm_num)
        rw [h] at this ⊢
        have : 16 + a < 32 := (Nat.pow_lt_pow_iff_right (by norm_num)).1 this
        have : (2:Nat) ^ (16 + a) ≤ 2 ^ 31 := Nat.pow_le_pow_right (by norm_num) (by omega)
        omega
    have hst : kernelHuge.ntQuerySystemInformation n ((s.dwInfoSize * 2) % 2 ^ 32)
        = STATUS_INFO_LENGTH_MISMATCH := by
      simp only [kernelHuge]; rw [if_pos hlt]
    unfold snapshot_loop
    rw [e1]
    simp only [hst, if_true]
    exact ih (n + 1) s' (by rw [e4]; exact key)

/-- C9 as stated fails: `kernelHuge` reports "too small" exactly when the supplied
size is below `N = 2 ^ 31 + 1`, and the call never returns, whatever the fuel:
after `2 ^ 31` the doubled 32-bit size wraps to `0` and stays there. -/
theorem snapshot_growth_diverges :
    (∀ n size, kernelHuge.ntQuerySystemInformation n size = STATUS_INFO_LENGTH_MISMATCH
      ↔ size < 2 ^ 31 + 1) ∧
    ∀ fuel, psutil_get_open_files kernelHuge fuel 0 0 State.initial = none := by
  constructor
  · intro n size
    simp only [kernelHuge]
    by_cases h : size < 2 ^ 31 + 1
    · rw [if_pos h]; exact ⟨fun _ => h, fun _ => rfl⟩
    · rw [if_neg h]; exact ⟨fun c => absurd c (by decide), fun c => absurd c h⟩
  · intro fuel
    have a1 : kernelHuge.createEventStart = some 1 := rfl
    have a2 : kernelHuge.createEventFinish = some 2 := rfl
    have a3 : kernelHuge.pyListNew = true := rfl
    simp only [psutil_get_open_files, guarded, snapshot, State.initial,
      psutil_get_open_files_init, py_list_new, emit, a1, a2, a3]
    simp
    rw [snapshot_loop_kernelHuge fuel 0 _ (Or.inr ⟨0, by omega, rfl⟩)]
/-! ## The worker hand-over and one attempt of the name retry loop -/

theorem release_name_buffer_eq (s : State) :
    release_name_buffer s
      = match s.g_pNameBuffer with
        | some p => { s with g_pNameBuffer := none, g_dwSize := 0, heap := s.heap.erase p,
                             faults := if p ∈ s.heap then s.faults else s.faults + 1,
                             trace := s.trace ++ releaseEvents (some p) }
        | none => s := by
  cases h : s.g_pNameBuffer <;>
    simp [release_name_buffer, h, set_g_dwSize, set_g_pNameBuffer, FREE, releaseEvents]

/-- The state in which `psutil_create_thread` is called at line 204 when the
allocation of line 198 succeeded. -/
theorem attempt_state_eq (k : Kernel) (i j : Nat) (s : State)
    (ha : k.heapAllocName i j s.g_dwLength = true) :
    alloc_name k i j (set_g_dwSize s.g_dwLength (release_name_buffer s))
      = { (release_name_buffer s) with
            g_dwSize := s.g_dwLength, g_pNameBuffer := some (release_name_buffer s).nextBlock,
            nameBuffer := UNICODE_STRING.zero,
            heap := (release_name_buffer s).nextBlock :: (release_name_buffer s).heap,
            nextBlock := (release_name_buffer s).nextBlock + 1,
            trace := (release_name_buffer s).trace ++ [Event.write Var.g_dwSize,
              Event.HeapAlloc s.g_dwLength (some (release_name_buffer s).nextBlock),
              Event.write Var.g_pNameBuffer] } := by
  cases h : s.g_pNameBuffer <;>
    simp [release_name_buffer, h, set_g_dwSize, set_g_pNameBuffer, FREE, alloc_name,
      MALLOC_ZERO, ha, emit]

theorem create_thread_failed (k : Kernel) (i j : Nat) (s : State) (err : ErrorCode)
    (ht : s.g_hThread = none) (hc : k.createThread i j = ThreadResult.failed err) :
    psutil_create_thread k i j s
      = (err.code, { s with lastError := err.code,
                            trace := s.trace ++ [Event.CreateThread i j none] }) := by
  simp [psutil_create_thread, ht, hc, emit]

/-- The wait finds `g_hEvtFinish` signalled: it returns at once and the worker has
not run. -/
theorem create_thread_stale (k : Kernel) (i j : Nat) (s : State) (t : HANDLE)
    (hw : workerFor k i j s.g_hThread = some t) (hs : s.finishSignalled = true) :
    psutil_create_thread k i j s
      = (WAIT_OBJECT_0, { s with
          g_hThread := some t, finishSignalled := false,
          trace := s.trace ++ workerEvents i j s.g_hThread t ++ [Event.SetEventStart,
            Event.WaitFinish WAIT_OBJECT_0] }) := by
  cases ht : s.g_hThread <;> cases hc : k.createThread i j <;>
    simp [workerFor, ht, hc] at hw <;>
    simp [psutil_create_thread, ht, hc, hs, hw, emit, WaitForSingleObject_finish,
      WAIT_OBJECT_0, WAIT_TIMEOUT, workerEvents]

theorem create_thread_finished (k : Kernel) (i j : Nat) (s : State) (t : HANDLE)
    (st : NTSTATUS) (len : Nat) (name : UNICODE_STRING)
    (hw : workerFor k i j s.g_hThread = some t) (hs : s.finishSignalled = false)
    (hr : k.ntQueryObject i j s.g_hFile s.g_dwSize = WorkerReply.finished st len name) :
    psutil_create_thread k i j s
      = (WAIT_OBJECT_0, { s with
          g_hThread := some t, g_status := st, g_dwLength := len, nameBuffer := name,
          finishSignalled := false,
          trace := s.trace ++ workerEvents i j s.g_hThread t ++ [Event.SetEventStart,
            Event.NtQueryObject i j s.g_dwSize (WorkerReply.finished st len name),
            Event.write Var.g_dwLength, Event.write Var.g_status,
            Event.SetEventFinish, Event.WaitFinish WAIT_OBJECT_0] }) := by
  cases ht : s.g_hThread <;> cases hc : k.createThread i j <;>
    simp [workerFor, ht, hc] at hw <;>
    simp [psutil_create_thread, ht, hc, hr, hs, hw, emit, psutil_wait_thread, worker_returns,
      set_g_dwLength, set_g_status, WaitForSingleObject_finish, WAIT_OBJECT_0, WAIT_TIMEOUT,
      workerEvents]

theorem create_thread_hung (k : Kernel) (i j : Nat) (s : State) (t : HANDLE)
    (hw : workerFor k i j s.g_hThread = some t) (hs : s.finishSignalled = false)
    (hr : k.ntQueryObject i j s.g_hFile s.g_dwSize = WorkerReply.hung) :
    psutil_create_thread k i j s
      = (WAIT_TIMEOUT, { s with
          g_hThread := none,
          trace := s.trace ++ workerEvents i j s.g_hThread t ++ [Event.SetEventStart,
            Event.NtQueryObject i j s.g_dwSize WorkerReply.hung,
            Event.WaitFinish WAIT_TIMEOUT, Event.SuspendThread t, Event.TerminateThread t,
            Event.WaitThread t, Event.CloseThread t] }) := by
  cases ht : s.g_hThread <;> cases hc : k.createThread i j <;>
    simp [workerFor, ht, hc] at hw <;>
    simp [psutil_create_thread, ht, hc, hr, hs, hw, emit, psutil_wait_thread, worker_returns,
      worker_late, set_g_dwLength, set_g_status, WaitForSingleObject_finish, WAIT_OBJECT_0,
      WAIT_TIMEOUT, workerEvents]

/-- The wait times out and the worker finishes before it is suspended: its results
are stored and `g_hEvtFinish` stays signalled. -/
theorem create_thread_late (k : Kernel) (i j : Nat) (s : State) (t : HANDLE)
    (st : NTSTATUS) (len : Nat) (name : UNICODE_STRING)
    (hw : workerFor k i j s.g_hThread = some t) (hs : s.finishSignalled = false)
    (hr : k.ntQueryObject i j s.g_hFile s.g_dwSize = WorkerReply.late st len name) :
    psutil_create_thread k i j s
      = (WAIT_TIMEOUT, { s with
          g_hThread := none, g_status := st, g_dwLength := len, nameBuffer := name,
          finishSignalled := true,
          trace := s.trace ++ workerEvents i j s.g_hThread t ++ [Event.SetEventStart,
            Event.NtQueryObject i j s.g_dwSize (WorkerReply.late st len name),
            Event.WaitFinish WAIT_TIMEOUT,
            Event.write Var.g_dwLength, Event.write Var.g_status, Event.SetEventFinish,
            Event.SuspendThread t, Event.TerminateThread t,
            Event.WaitThread t, Event.CloseThread t] }) := by
  cases ht : s.g_hThread <;> cases hc : k.createThread i j <;>
    simp [workerFor, ht, hc] at hw <;>
    simp [psutil_create_thread, ht, hc, hr, hs, hw, emit, psutil_wait_thread, worker_returns,
      worker_late, set_g_dwLength, set_g_status, WaitForSingleObject_finish, WAIT_OBJECT_0,
      WAIT_TIMEOUT, workerEvents]

theorem create_thread_waitFailed (k : Kernel) (i j : Nat) (s : State) (t : HANDLE)
    (hw : workerFor k i j s.g_hThread = some t) (hs : s.finishSignalled = false)
    (hr : k.ntQueryObject i j s.g_hFile s.g_dwSize = WorkerReply.waitFailed) :
    psutil_create_thread k i j s
      = (WAIT_FAILED, { s with
          g_hThread := some t,
          trace := s.trace ++ workerEvents i j s.g_hThread t ++ [Event.SetEventStart,
            Event.NtQueryObject i j s.g_dwSize WorkerReply.waitFailed,
            Event.WaitFinish WAIT_FAILED] }) := by
  cases ht : s.g_hThread <;> cases hc : k.createThread i j <;>
    simp [workerFor, ht, hc] at hw <;>
    simp [psutil_create_thread, ht, hc, hr, hs, hw, emit, psutil_wait_thread, worker_returns,
      worker_late, set_g_dwLength, set_g_status, WaitForSingleObject_finish, WAIT_OBJECT_0,
      WAIT_TIMEOUT, WAIT_FAILED, workerEvents]

/-- The fields `release_name_buffer` leaves alone. -/
theorem release_name_buffer_frame (s : State) :
    (release_name_buffer s).g_initialized = s.g_initialized ∧
    (release_name_buffer s).g_status = s.g_status ∧
    (release_name_buffer s).g_hFile = s.g_hFile ∧
    (release_name_buffer s).g_hEvtStart = s.g_hEvtStart ∧
    (release_name_buffer s).g_hEvtFinish = s.g_hEvtFinish ∧
    (release_name_buffer s).g_hThread = s.g_hThread ∧
    (release_name_buffer s).g_dwLength = s.g_dwLength ∧
    (release_name_buffer s).pHandleInfo = s.pHandleInfo ∧
    (release_name_buffer s).dwInfoSize = s.dwInfoSize ∧
    (release_name_buffer s).error = s.error ∧
    (release_name_buffer s).py_retlist = s.py_retlist ∧
    (release_name_buffer s).nameBuffer = s.nameBuffer ∧
    (release_name_buffer s).pyErr = s.pyErr ∧
    (release_name_buffer s).lastError = s.lastError ∧
    (release_name_buffer s).nextBlock = s.nextBlock ∧
    (release_name_buffer s).dupHandles = s.dupHandles ∧
    (release_name_buffer s).g_pNameBuffer = none ∧
    (release_name_buffer s).trace = s.trace ++ releaseEvents s.g_pNameBuffer := by
  cases h : s.g_pNameBuffer <;>
    simp [release_name_buffer, h, set_g_dwSize, set_g_pNameBuffer, FREE, releaseEvents]


theorem release_name_buffer_finish (s : State) :
    (release_name_buffer s).finishSignalled = s.finishSignalled := by
  cases h : s.g_pNameBuffer <;>
    simp [release_name_buffer, h, set_g_dwSize, set_g_pNameBuffer, FREE]

theorem name_round_empty (k : Kernel) (i j : Nat) (s : State) (hL : s.g_dwLength = 0) :
    name_round k i j s = (Exit.jump, release_name_buffer s) := by
  have h := (release_name_buffer_frame s).2.2.2.2.2.2.1
  simp [name_round, h, hL]

theorem name_round_nomem (k : Kernel) (i j : Nat) (s : State) (hL : s.g_dwLength ≠ 0)
    (ha : k.heapAllocName i j s.g_dwLength = false) :
    name_round k i j s
      = (Exit.jump, { (release_name_buffer s) with
          g_dwSize := s.g_dwLength, g_pNameBuffer := none,
          trace := (release_name_buffer s).trace ++ [Event.write Var.g_dwSize,
            Event.HeapAlloc s.g_dwLength none, Event.write Var.g_pNameBuffer] }) := by
  have h := (release_name_buffer_frame s).2.2.2.2.2.2.1
  simp [name_round, h, hL, Nat.pos_of_ne_zero hL, set_g_dwSize, alloc_name, MALLOC_ZERO, ha,
    emit, set_g_pNameBuffer]

theorem name_round_alloc (k : Kernel) (i j : Nat) (s : State) (hL : s.g_dwLength ≠ 0)
    (ha : k.heapAllocName i j s.g_dwLength = true) :
    name_round k i j s
      = (if (psutil_create_thread k i j
              (alloc_name k i j (set_g_dwSize s.g_dwLength (release_name_buffer s)))).1
            ≠ WAIT_OBJECT_0 then Exit.jump else Exit.done,
          (psutil_create_thread k i j
              (alloc_name k i j (set_g_dwSize s.g_dwLength (release_name_buffer s)))).2) := by
  have h := (release_name_buffer_frame s).2.2.2.2.2.2.1
  have e := attempt_state_eq k i j s ha
  simp only [name_round, h]
  rw [if_neg hL]
  have h1 : (set_g_dwSize s.g_dwLength (release_name_buffer s)).g_dwSize = s.g_dwLength := rfl
  simp only [h1, Nat.pos_of_ne_zero hL, if_true, true_and]
  rw [if_neg]
  rw [e]; simp

theorem name_round_nothread (k : Kernel) (i j : Nat) (s : State) (err : ErrorCode)
    (hL : s.g_dwLength ≠ 0) (ha : k.heapAllocName i j s.g_dwLength = true)
    (ht : s.g_hThread = none) (hc : k.createThread i j = ThreadResult.failed err) :
    name_round k i j s
      = (Exit.jump, { (release_name_buffer s) with
          g_dwSize := s.g_dwLength, g_pNameBuffer := some (release_name_buffer s).nextBlock,
          nameBuffer := UNICODE_STRING.zero, lastError := err.code,
          heap := (release_name_buffer s).nextBlock :: (release_name_buffer s).heap,
          nextBlock := (release_name_buffer s).nextBlock + 1,
          trace := (release_name_buffer s).trace ++ [Event.write Var.g_dwSize,
            Event.HeapAlloc s.g_dwLength (some (release_name_buffer s).nextBlock),
            Event.write Var.g_pNameBuffer, Event.CreateThread i j none] }) := by
  have hf := release_name_buffer_frame s
  rw [name_round_alloc k i j s hL ha, attempt_state_eq k i j s ha,
    create_thread_failed k i j _ err (by simp [hf, ht]) hc]
  simp [WAIT_OBJECT_0, err.nonzero]

theorem name_round_stale (k : Kernel) (i j : Nat) (s : State) (t : HANDLE)
    (hL : s.g_dwLength ≠ 0) (ha : k.heapAllocName i j s.g_dwLength = true)
    (hw : workerFor k i j s.g_hThread = some t) (hs : s.finishSignalled = true) :
    name_round k i j s
      = (Exit.done, { (release_name_buffer s) with
          g_dwSize := s.g_dwLength, g_pNameBuffer := some (release_name_buffer s).nextBlock,
          nameBuffer := UNICODE_STRING.zero, g_hThread := some t, finishSignalled := false,
          heap := (release_name_buffer s).nextBlock :: (release_name_buffer s).heap,
          nextBlock := (release_name_buffer s).nextBlock + 1,
          trace := (release_name_buffer s).trace ++ [Event.write Var.g_dwSize,
            Event.HeapAlloc s.g_dwLength (some (release_name_buffer s).nextBlock),
            Event.write Var.g_pNameBuffer] ++ workerEvents i j s.g_hThread t ++
            [Event.SetEventStart, Event.WaitFinish WAIT_OBJECT_0] }) := by
  have hf := release_name_buffer_frame s
  rw [name_round_alloc k i j s hL ha, attempt_state_eq k i j s ha,
    create_thread_stale k i j _ t (by simp [hf, hw])
      (by simp [release_name_buffer_finish, hs])]
  simp [hf]

theorem name_round_finished (k : Kernel) (i j : Nat) (s : State) (t : HANDLE)
    (st : NTSTATUS) (len : Nat) (name : UNICODE_STRING)
    (hL : s.g_dwLength ≠ 0) (ha : k.heapAllocName i j s.g_dwLength = true)
    (hw : workerFor k i j s.g_hThread = some t) (hs : s.finishSignalled = false)
    (hr : k.ntQueryObject i j s.g_hFile s.g_dwLength = WorkerReply.finished st len name) :
    name_round k i j s
      = (Exit.done, { (release_name_buffer s) with
          g_dwSize := s.g_dwLength, g_pNameBuffer := some (release_name_buffer s).nextBlock,
          nameBuffer := name, g_hThread := some t, g_status := st, g_dwLength := len,
          finishSignalled := false,
          heap := (release_name_buffer s).nextBlock :: (release_name_buffer s).heap,
          nextBlock := (release_name_buffer s).nextBlock + 1,
          trace := (release_name_buffer s).trace ++ [Event.write Var.g_dwSize,
            Event.HeapAlloc s.g_dwLength (some (release_name_buffer s).nextBlock),
            Event.write Var.g_pNameBuffer] ++ workerEvents i j s.g_hThread t ++
            [Event.SetEventStart,
             Event.NtQueryObject i j s.g_dwLength (WorkerReply.finished st len name),
             Event.write Var.g_dwLength, Event.write Var.g_status,
             Event.SetEventFinish, Event.WaitFinish WAIT_OBJECT_0] }) := by
  have hf := release_name_buffer_frame s
  rw [name_round_alloc k i j s hL ha, attempt_state_eq k i j s ha,
    create_thread_finished k i j _ t st len name (by simp [hf, hw])
      (by simp [release_name_buffer_finish, hs]) (by simp [hf, hr])]
  simp [hf]

theorem name_round_hung (k : Kernel) (i j : Nat) (s : State) (t : HANDLE)
    (hL : s.g_dwLength ≠ 0) (ha : k.heapAllocName i j s.g_dwLength = true)
    (hw : workerFor k i j s.g_hThread = some t) (hs : s.finishSignalled = false)
    (hr : k.ntQueryObject i j s.g_hFile s.g_dwLength = WorkerReply.hung) :
    name_round k i j s
      = (Exit.jump, { (release_name_buffer s) with
          g_dwSize := s.g_dwLength, g_pNameBuffer := some (release_name_buffer s).nextBlock,
          nameBuffer := UNICODE_STRING.zero, g_hThread := none,
          heap := (release_name_buffer s).nextBlock :: (release_name_buffer s).heap,
          nextBlock := (release_name_buffer s).nextBlock + 1,
          trace := (release_name_buffer s).trace ++ [Event.write Var.g_dwSize,
            Event.HeapAlloc s.g_dwLength (some (release_name_buffer s).nextBlock),
            Event.write Var.g_pNameBuffer] ++ workerEvents i j s.g_hThread t ++
            [Event.SetEventStart, Event.NtQueryObject i j s.g_dwLength WorkerReply.hung,
             Event.WaitFinish WAIT_TIMEOUT, Event.SuspendThread t, Event.TerminateThread t,
             Event.WaitThread t, Event.CloseThread t] }) := by
  have hf := release_name_buffer_frame s
  rw [name_round_alloc k i j s hL ha, attempt_state_eq k i j s ha,
    create_thread_hung k i j _ t (by simp [hf, hw])
      (by simp [release_name_buffer_finish, hs]) (by simp [hf, hr])]
  simp [hf, WAIT_OBJECT_0, WAIT_TIMEOUT]

theorem name_round_late (k : Kernel) (i j : Nat) (s : State) (t : HANDLE)
    (st : NTSTATUS) (len : Nat) (name : UNICODE_STRING)
    (hL : s.g_dwLength ≠ 0) (ha : k.heapAllocName i j s.g_dwLength = true)
    (hw : workerFor k i j s.g_hThread = some t) (hs : s.finishSignalled = false)
    (hr : k.ntQueryObject i j s.g_hFile s.g_dwLength = WorkerReply.late st len name) :
    name_round k i j s
      = (Exit.jump, { (release_name_buffer s) with
          g_dwSize := s.g_dwLength, g_pNameBuffer := some (release_name_buffer s).nextBlock,
          nameBuffer := name, g_hThread := none, g_status := st, g_dwLength := len,
          finishSignalled := true,
          heap := (release_name_buffer s).nextBlock :: (release_name_buffer s).heap,
          nextBlock := (release_name_buffer s).nextBlock + 1,
          trace := (release_name_buffer s).trace ++ [Event.write Var.g_dwSize,
            Event.HeapAlloc s.g_dwLength (some (release_name_buffer s).nextBlock),
            Event.write Var.g_pNameBuffer] ++ workerEvents i j s.g_hThread t ++
            [Event.SetEventStart,
             Event.NtQueryObject i j s.g_dwLength (WorkerReply.late st len name),
             Event.WaitFinish WAIT_TIMEOUT,
             Event.write Var.g_dwLength, Event.write Var.g_status, Event.SetEventFinish,
             Event.SuspendThread t, Event.TerminateThread t,
             Event.WaitThread t, Event.CloseThread t] }) := by
  have hf := release_name_buffer_frame s
  rw [name_round_alloc k i j s hL ha, attempt_state_eq k i j s ha,
    create_thread_late k i j _ t st len name (by simp [hf, hw])
      (by simp [release_name_buffer_finish, hs]) (by simp [hf, hr])]
  simp [hf, WAIT_OBJECT_0, WAIT_TIMEOUT]

theorem name_round_waitFailed (k : Kernel) (i j : Nat) (s : State) (t : HANDLE)
    (hL : s.g_dwLength ≠ 0) (ha : k.heapAllocName i j s.g_dwLength = true)
    (hw : workerFor k i j s.g_hThread = some t) (hs : s.finishSignalled = false)
    (hr : k.ntQueryObject i j s.g_hFile s.g_dwLength = WorkerReply.waitFailed) :
    name_round k i j s
      = (Exit.jump, { (release_name_buffer s) with
          g_dwSize := s.g_dwLength, g_pNameBuffer := some (release_name_buffer s).nextBlock,
          nameBuffer := UNICODE_STRING.zero, g_hThread := some t,
          heap := (release_name_buffer s).nextBlock :: (release_name_buffer s).heap,
          nextBlock := (release_name_buffer s).nextBlock + 1,
          trace := (release_name_buffer s).trace ++ [Event.write Var.g_dwSize,
            Event.HeapAlloc s.g_dwLength (some (release_name_buffer s).nextBlock),
            Event.write Var.g_pNameBuffer] ++ workerEvents i j s.g_hThread t ++
            [Event.SetEventStart, Event.NtQueryObject i j s.g_dwLength WorkerReply.waitFailed,
             Event.WaitFinish WAIT_FAILED] }) := by
  have hf := release_name_buffer_frame s
  rw [name_round_alloc k i j s hL ha, attempt_state_eq k i j s ha,
    create_thread_waitFailed k i j _ t (by simp [hf, hw])
      (by simp [release_name_buffer_finish, hs]) (by simp [hf, hr])]
  simp [hf, WAIT_OBJECT_0, WAIT_FAILED]

theorem workerFor_none (k : Kernel) (i j : Nat) (g : Option HANDLE)
    (h : workerFor k i j g = none) :
    g = none ∧ ∃ err, k.createThread i j = ThreadResult.failed err := by
  cases hg : g <;> cases hc : k.createThread i j <;> simp [workerFor, hg, hc] at h ⊢

/-- Case analysis on one attempt of the name retry loop: the eight ways it can go,
each with the state it leaves. -/
theorem name_round_cases (k : Kernel) (i j : Nat) (s : State) (P : Exit × State → Prop)
    (h_empty : s.g_dwLength = 0 → P (Exit.jump, release_name_buffer s))
    (h_nomem : s.g_dwLength ≠ 0 → k.heapAllocName i j s.g_dwLength = false →
      P (Exit.jump, { (release_name_buffer s) with
          g_dwSize := s.g_dwLength, g_pNameBuffer := none,
          trace := (release_name_buffer s).trace ++ [Event.write Var.g_dwSize,
            Event.HeapAlloc s.g_dwLength none, Event.write Var.g_pNameBuffer] }))
    (h_nothread : ∀ err, s.g_dwLength ≠ 0 → k.heapAllocName i j s.g_dwLength = true →
      s.g_hThread = none → k.createThread i j = ThreadResult.failed err →
      P (Exit.jump, { (release_name_buffer s) with
          g_dwSize := s.g_dwLength, g_pNameBuffer := some (release_name_buffer s).nextBlock,
          nameBuffer := UNICODE_STRING.zero, lastError := err.code,
          heap := (release_name_buffer s).nextBlock :: (release_name_buffer s).heap,
          nextBlock := (release_name_buffer s).nextBlock + 1,
          trace := (release_name_buffer s).trace ++ [Event.write Var.g_dwSize,
            Event.HeapAlloc s.g_dwLength (some (release_name_buffer s).nextBlock),
            Event.write Var.g_pNameBuffer, Event.CreateThread i j none] }))
    (h_stale : ∀ t, s.g_dwLength ≠ 0 → k.heapAllocName i j s.g_dwLength = true →
      workerFor k i j s.g_hThread = some t → s.finishSignalled = true →
      P (Exit.done, { (release_name_buffer s) with
          g_dwSize := s.g_dwLength, g_pNameBuffer := some (release_name_buffer s).nextBlock,
          nameBuffer := UNICODE_STRING.zero, g_hThread := some t, finishSignalled := false,
          heap := (release_name_buffer s).nextBlock :: (release_name_buffer s).heap,
          nextBlock := (release_name_buffer s).nextBlock + 1,
          trace := (release_name_buffer s).trace ++ [Event.write Var.g_dwSize,
            Event.HeapAlloc s.g_dwLength (some (release_name_buffer s).nextBlock),
            Event.write Var.g_pNameBuffer] ++ workerEvents i j s.g_hThread t ++
            [Event.SetEventStart, Event.WaitFinish WAIT_OBJECT_0] }))
    (h_finished : ∀ t st len name, s.g_dwLength ≠ 0 → k.heapAllocName i j s.g_dwLength = true →
      workerFor k i j s.g_hThread = some t → s.finishSignalled = false →
      k.ntQueryObject i j s.g_hFile s.g_dwLength = WorkerReply.finished st len name →
      P (Exit.done, { (release_name_buffer s) with
          g_dwSize := s.g_dwLength, g_pNameBuffer := some (release_name_buffer s).nextBlock,
          nameBuffer := name, g_hThread := some t, g_status := st, g_dwLength := len,
          finishSignalled := false,
          heap := (release_name_buffer s).nextBlock :: (release_name_buffer s).heap,
          nextBlock := (release_name_buffer s).nextBlock + 1,
          trace := (release_name_buffer s).trace ++ [Event.write Var.g_dwSize,
            Event.HeapAlloc s.g_dwLength (some (release_name_buffer s).nextBlock),
            Event.write Var.g_pNameBuffer] ++ workerEvents i j s.g_hThread t ++
            [Event.SetEventStart,
             Event.NtQueryObject i j s.g_dwLength (WorkerReply.finished st len name),
             Event.write Var.g_dwLength, Event.write Var.g_status,
             Event.SetEventFinish, Event.WaitFinish WAIT_OBJECT_0] }))
    (h_hung : ∀ t, s.g_dwLength ≠ 0 → k.heapAllocName i j s.g_dwLength = true →
      workerFor k i j s.g_hThread = some t → s.finishSignalled = false →
      k.ntQueryObject i j s.g_hFile s.g_dwLength = WorkerReply.hung →
      P (Exit.jump, { (release_name_buffer s) with
          g_dwSize := s.g_dwLength, g_pNameBuffer := some (release_name_buffer s).nextBlock,
          nameBuffer := UNICODE_STRING.zero, g_hThread := none,
          heap := (release_name_buffer s).nextBlock :: (release_name_buffer s).heap,
          nextBlock := (release_name_buffer s).nextBlock + 1,
          trace := (release_name_buffer s).trace ++ [Event.write Var.g_dwSize,
            Event.HeapAlloc s.g_dwLength (some (release_name_buffer s).nextBlock),
            Event.write Var.g_pNameBuffer] ++ workerEvents i j s.g_hThread t ++
            [Event.SetEventStart, Event.NtQueryObject i j s.g_dwLength WorkerReply.hung,
             Event.WaitFinish WAIT_TIMEOUT, Event.SuspendThread t, Event.TerminateThread t,
             Event.WaitThread t, Event.CloseThread t] }))
    (h_late : ∀ t st len name, s.g_dwLength ≠ 0 → k.heapAllocName i j s.g_dwLength = true →
      workerFor k i j s.g_hThread = some t → s.finishSignalled = false →
      k.ntQueryObject i j s.g_hFile s.g_dwLength = WorkerReply.late st len name →
      P (Exit.jump, { (release_name_buffer s) with
          g_dwSize := s.g_dwLength, g_pNameBuffer := some (release_name_buffer s).nextBlock,
          nameBuffer := name, g_hThread := none, g_status := st, g_dwLength := len,
          finishSignalled := true,
          heap := (release_name_buffer s).nextBlock :: (release_name_buffer s).heap,
          nextBlock := (release_name_buffer s).nextBlock + 1,
          trace := (release_name_buffer s).trace ++ [Event.write Var.g_dwSize,
            Event.HeapAlloc s.g_dwLength (some (release_name_buffer s).nextBlock),
            Event.write Var.g_pNameBuffer] ++ workerEvents i j s.g_hThread t ++
            [Event.SetEventStart,
             Event.NtQueryObject i j s.g_dwLength (WorkerReply.late st len name),
             Event.WaitFinish WAIT_TIMEOUT,
             Event.write Var.g_dwLength, Event.write Var.g_status, Event.SetEventFinish,
             Event.SuspendThread t, Event.TerminateThread t,
             Event.WaitThread t, Event.CloseThread t] }))
    (h_waitFailed : ∀ t, s.g_dwLength ≠ 0 → k.heapAllocName i j s.g_dwLength = true →
      workerFor k i j s.g_hThread = some t → s.finishSignalled = false →
      k.ntQueryObject i j s.g_hFile s.g_dwLength = WorkerReply.waitFailed →
      P (Exit.jump, { (release_name_buffer s) with
          g_dwSize := s.g_dwLength, g_pNameBuffer := some (release_name_buffer s).nextBlock,
          nameBuffer := UNICODE_STRING.zero, g_hThread := some t,
          heap := (release_name_buffer s).nextBlock :: (release_name_buffer s).heap,
          nextBlock := (release_name_buffer s).nextBlock + 1,
          trace := (release_name_buffer s).trace ++ [Event.write Var.g_dwSize,
            Event.HeapAlloc s.g_dwLength (some (release_name_buffer s).nextBlock),
            Event.write Var.g_pNameBuffer] ++ workerEvents i j s.g_hThread t ++
            [Event.SetEventStart, Event.NtQueryObject i j s.g_dwLength WorkerReply.waitFailed,
             Event.WaitFinish WAIT_FAILED] })) :
    P (name_round k i j s) := by
  by_cases hL : s.g_dwLength = 0
  · rw [name_round_empty k i j s hL]; exact h_empty hL
  cases ha : k.heapAllocName i j s.g_dwLength
  · rw [name_round_nomem k i j s hL ha]; exact h_nomem hL ha
  cases hw : workerFor k i j s.g_hThread with
  | none =>
    obtain ⟨ht, err, hc⟩ := workerFor_none k i j _ hw
    rw [name_round_nothread k i j s err hL ha ht hc]; exact h_nothread err hL ha ht hc
  | some t =>
    cases hs : s.finishSignalled with
    | true => rw [name_round_stale k i j s t hL ha hw hs]; exact h_stale t hL ha hw hs
    | false =>
      cases hr : k.ntQueryObject i j s.g_hFile s.g_dwLength with
      | finished st len name =>
        rw [name_round_finished k i j s t st len name hL ha hw hs hr]
        exact h_finished t st len name hL ha hw hs hr
      | hung => rw [name_round_hung k i j s t hL ha hw hs hr]; exact h_hung t hL ha hw hs hr
      | late st len name =>
        rw [name_round_late k i j s t st len name hL ha hw hs hr]
        exact h_late t st len name hL ha hw hs hr
      | waitFailed =>
        rw [name_round_waitFailed k i j s t hL ha hw hs hr]
        exact h_waitFailed t hL ha hw hs hr

theorem nameQueries_append (a b : List Event) :
    nameQueries (a ++ b) = nameQueries a ++ nameQueries b := by
  simp [nameQueries]

theorem threadCreations_append (a b : List Event) :
    threadCreations (a ++ b) = threadCreations a ++ threadCreations b := by
  simp [threadCreations]

theorem nameSteps_append (a b : List Event) :
    nameSteps (a ++ b) = nameSteps a ++ nameSteps b := by
  simp [nameSteps]

theorem nameQueries_releaseEvents (p : Option Nat) : nameQueries (releaseEvents p) = [] := by
  cases p <;> simp [nameQueries, releaseEvents]

theorem threadCreations_releaseEvents (p : Option Nat) :
    threadCreations (releaseEvents p) = [] := by
  cases p <;> simp [threadCreations, releaseEvents]

theorem nameQueries_workerEvents (i j : Nat) (g : Option HANDLE) (t : HANDLE) :
    nameQueries (workerEvents i j g t) = [] := by
  cases g <;> simp [nameQueries, workerEvents]

theorem threadCreations_workerEvents (i j : Nat) (g : Option HANDLE) (t : HANDLE) :
    threadCreations (workerEvents i j g t) = if g = none then [(i, j)] else [] := by
  cases g <;> simp [threadCreations, workerEvents]

/-- What one attempt adds to the trace: at most one name query, and a `CreateThread`
call only when no worker exists; after a completed attempt a worker exists, the
event `g_hEvtFinish` is reset and, unless the attempt found the event signalled,
the reply is the one recorded in `g_status`. -/
theorem name_round_delta (k : Kernel) (i j : Nat) (s : State) :
    ∃ d, (name_round k i j s).2.trace = s.trace ++ d ∧
      (nameQueries d).length ≤ 1 ∧
      (threadCreations d = [] ∨ (s.g_hThread = none ∧ threadCreations d = [(i, j)])) ∧
      ((name_round k i j s).1 = Exit.done →
        (name_round k i j s).2.g_hThread ≠ none ∧
        (name_round k i j s).2.finishSignalled = false ∧
        (s.finishSignalled = false →
          ∃ len name, k.ntQueryObject i j s.g_hFile s.g_dwLength
            = WorkerReply.finished (name_round k i j s).2.g_status len name)) := by
  have hf := release_name_buffer_frame s
  have hRt : (release_name_buffer s).trace = s.trace ++ releaseEvents s.g_pNameBuffer := by
    simp [hf]
  have htc : ∀ t, threadCreations (workerEvents i j s.g_hThread t) = [] ∨
      (s.g_hThread = none ∧ threadCreations (workerEvents i j s.g_hThread t) = [(i, j)]) := by
    intro t
    rw [threadCreations_workerEvents]
    by_cases hg : s.g_hThread = none
    · right; simp [hg]
    · left; simp [hg]
  refine name_round_cases k i j s (fun r => ∃ d, r.2.trace = s.trace ++ d ∧
      (nameQueries d).length ≤ 1 ∧
      (threadCreations d = [] ∨ (s.g_hThread = none ∧ threadCreations d = [(i, j)])) ∧
      (r.1 = Exit.done → r.2.g_hThread ≠ none ∧ r.2.finishSignalled = false ∧
        (s.finishSignalled = false →
          ∃ len name, k.ntQueryObject i j s.g_hFile s.g_dwLength
            = WorkerReply.finished r.2.g_status len name))) ?_ ?_ ?_ ?_ ?_ ?_ ?_ ?_
  · intro _
    exact ⟨_, hRt, by simp [nameQueries_releaseEvents],
      Or.inl (threadCreations_releaseEvents _), by simp⟩
  · intro _ _
    refine ⟨releaseEvents s.g_pNameBuffer ++ [Event.write Var.g_dwSize,
            Event.HeapAlloc s.g_dwLength none, Event.write Var.g_pNameBuffer], ?_, ?_, Or.inl ?_, by simp⟩
    · simp only [hRt, List.append_assoc]
    · simp only [nameQueries_append, nameQueries_releaseEvents]
      simp [nameQueries]
    · simp only [threadCreations_append, threadCreations_releaseEvents]
      simp [threadCreations]
  · intro err _ _ ht _
    refine ⟨releaseEvents s.g_pNameBuffer ++ [Event.write Var.g_dwSize,
            Event.HeapAlloc s.g_dwLength (some (release_name_buffer s).nextBlock),
            Event.write Var.g_pNameBuffer, Event.CreateThread i j none], ?_, ?_,
            Or.inr ⟨ht, ?_⟩, by simp⟩
    · simp only [hRt, List.append_assoc]
    · simp only [nameQueries_append, nameQueries_releaseEvents]
      simp [nameQueries]
    · simp only [threadCreations_append, threadCreations_releaseEvents]
      simp [threadCreations]
  · intro t _ _ _ hs
    refine ⟨releaseEvents s.g_pNameBuffer ++ ([Event.write Var.g_dwSize,
            Event.HeapAlloc s.g_dwLength (some (release_name_buffer s).nextBlock),
            Event.write Var.g_pNameBuffer] ++ workerEvents i j s.g_hThread t ++
            [Event.SetEventStart, Event.WaitFinish WAIT_OBJECT_0]), ?_, ?_, ?_, ?_⟩
    · simp only [hRt, List.append_assoc]
    · simp only [nameQueries_append, nameQueries_releaseEvents, nameQueries_workerEvents]
      simp [nameQueries]
    · simp only [threadCreations_append, threadCreations_releaseEvents]
      simpa [threadCreations] using htc t
    · intro _; exact ⟨by simp, rfl, fun h => by rw [hs] at h; cases h⟩
  · intro t st len name _ _ _ _ hr
    refine ⟨releaseEvents s.g_pNameBuffer ++ ([Event.write Var.g_dwSize,
            Event.HeapAlloc s.g_dwLength (some (release_name_buffer s).nextBlock),
            Event.write Var.g_pNameBuffer] ++ workerEvents i j s.g_hThread t ++
            [Event.SetEventStart,
             Event.NtQueryObject i j s.g_dwLength (WorkerReply.finished st len name),
             Event.write Var.g_dwLength, Event.write Var.g_status,
             Event.SetEventFinish, Event.WaitFinish WAIT_OBJECT_0]), ?_, ?_, ?_, ?_⟩
    · simp only [hRt, List.append_assoc]
    · simp only [nameQueries_append, nameQueries_releaseEvents, nameQueries_workerEvents]
      simp [nameQueries]
    · simp only [threadCreations_append, threadCreations_releaseEvents]
      simpa [threadCreations] using htc t
    · intro _; exact ⟨by simp, rfl, fun _ => ⟨len, name, hr⟩⟩
  · intro t _ _ _ _ _
    refine ⟨releaseEvents s.g_pNameBuffer ++ ([Event.write Var.g_dwSize,
            Event.HeapAlloc s.g_dwLength (some (release_name_buffer s).nextBlock),
            Event.write Var.g_pNameBuffer] ++ workerEvents i j s.g_hThread t ++
            [Event.SetEventStart, Event.NtQueryObject i j s.g_dwLength WorkerReply.hung,
             Event.WaitFinish WAIT_TIMEOUT, Event.SuspendThread t, Event.TerminateThread t,
             Event.WaitThread t, Event.CloseThread t]), ?_, ?_, ?_, by simp⟩
    · simp only [hRt, List.append_assoc]
    · simp only [nameQueries_append, nameQueries_releaseEvents, nameQueries_workerEvents]
      simp [nameQueries]
    · simp only [threadCreations_append, threadCreations_releaseEvents]
      simpa [threadCreations] using htc t
  · intro t st len name _ _ _ _ _
    refine ⟨releaseEvents s.g_pNameBuffer ++ ([Event.write Var.g_dwSize,
            Event.HeapAlloc s.g_dwLength (some (release_name_buffer s).nextBlock),
            Event.write Var.g_pNameBuffer] ++ workerEvents i j s.g_hThread t ++
            [Event.SetEventStart,
             Event.NtQueryObject i j s.g_dwLength (WorkerReply.late st len name),
             Event.WaitFinish WAIT_TIMEOUT,
             Event.write Var.g_dwLength, Event.write Var.g_status, Event.SetEventFinish,
             Event.SuspendThread t, Event.TerminateThread t,
             Event.WaitThread t, Event.CloseThread t]), ?_, ?_, ?_, by simp⟩
    · simp only [hRt, List.append_assoc]
    · simp only [nameQueries_append, nameQueries_releaseEvents, nameQueries_workerEvents]
      simp [nameQueries]
    · simp only [threadCreations_append, threadCreations_releaseEvents]
      simpa [threadCreations] using htc t
  · intro t _ _ _ _ _
    refine ⟨releaseEvents s.g_pNameBuffer ++ ([Event.write Var.g_dwSize,
            Event.HeapAlloc s.g_dwLength (some (release_name_buffer s).nextBlock),
            Event.write Var.g_pNameBuffer] ++ workerEvents i j s.g_hThread t ++
            [Event.SetEventStart, Event.NtQueryObject i j s.g_dwLength WorkerReply.waitFailed,
             Event.WaitFinish WAIT_FAILED]), ?_, ?_, ?_, by simp⟩
    · simp only [hRt, List.append_assoc]
    · simp only [nameQueries_append, nameQueries_releaseEvents, nameQueries_workerEvents]
      simp [nameQueries]
    · simp only [threadCreations_append, threadCreations_releaseEvents]
      simpa [threadCreations] using htc t

/-- The retry loop leaves within `n + 1 - j` attempts when started at attempt
`j ≤ n` and the reply to attempt `n` is not "too small", provided
`g_hEvtFinish` is not signalled on entry or `j < n`: an attempt that finds the
event signalled consumes no reply, and leaves the event not signalled.  Only
the first attempt can call `CreateThread`. -/
theorem name_loop_terminates (k : Kernel) (i n : Nat)
    (hn : ∀ h size L name,
      k.ntQueryObject i n h size ≠ WorkerReply.finished STATUS_INFO_LENGTH_MISMATCH L name) :
    ∀ (fuel j : Nat) (s : State), (s.finishSignalled = false ∨ j < n) → j ≤ n →
      n < j + fuel →
      ∃ e s' d, name_loop k i fuel j s = some (e, s') ∧ s'.trace = s.trace ++ d ∧
        (nameQueries d).length ≤ n + 1 - j ∧
        (threadCreations d = [] ∨ (s.g_hThread = none ∧ threadCreations d = [(i, j)])) := by
  intro fuel
  induction fuel with
  | zero => intro j s _ h1 h2; omega
  | succ fuel ih =>
    intro j s hs h1 h2
    obtain ⟨d, g1, g2, g3, g4⟩ := name_round_delta k i j s
    unfold name_loop
    rcases hr : name_round k i j s with ⟨e1, s1⟩
    rw [hr] at g1 g4
    cases e1 with
    | jump => exact ⟨Exit.jump, s1, d, rfl, g1, by omega, g3⟩
    | done =>
      obtain ⟨ht, hs1, hq⟩ := g4 rfl
      by_cases hst : s1.g_status = STATUS_INFO_LENGTH_MISMATCH
      · have hjn : j ≠ n := by
          rcases hs with hs | hs
          · obtain ⟨len, name, hq⟩ := hq hs
            intro hjn; subst hjn
            rw [hst] at hq
            exact hn _ _ _ _ hq
          · omega
        obtain ⟨e, s', d', f1, f2, f3, f4⟩ := ih (j + 1) s1 (Or.inl hs1) (by omega) (by omega)
        have f4 : threadCreations d' = [] := by
          rcases f4 with f4 | ⟨f4, _⟩
          · exact f4
          · exact absurd f4 ht
        refine ⟨e, s', d ++ d', ?_, ?_, ?_, ?_⟩
        · simp only [hst, if_true]; exact f1
        · rw [f2, g1, List.append_assoc]
        · rw [nameQueries_append, List.length_append]; omega
        · rw [threadCreations_append, f4, List.append_nil]; exact g3
      · refine ⟨Exit.done, s1, d, ?_, g1, by omega, g3⟩
        simp only [hst, if_false]

/-- More fuel does not change the result of the retry loop. -/
theorem name_loop_mono (k : Kernel) (i : Nat) :
    ∀ (fuel j : Nat) (s : State) (r : Exit × State), name_loop k i fuel j s = some r →
      ∀ fuel', fuel ≤ fuel' → name_loop k i fuel' j s = some r := by
  intro fuel
  induction fuel with
  | zero => intro j s r h; simp [name_loop] at h
  | succ fuel ih =>
    intro j s r h fuel' hf
    obtain ⟨f, rfl⟩ : ∃ f, fuel' = f + 1 := ⟨fuel' - 1, by omega⟩
    unfold name_loop at h ⊢
    rcases hr : name_round k i j s with ⟨e1, s1⟩
    rw [hr] at h
    cases e1 with
    | jump => exact h
    | done =>
      by_cases hst : s1.g_status = STATUS_INFO_LENGTH_MISMATCH
      · simp only [hst, if_true] at h ⊢
        exact ih (j + 1) s1 r h f (by omega)
      · simp only [hst, if_false] at h ⊢
        exact h

theorem name_loop_kernelRetryForever : ∀ (fuel j : Nat) (s : State), s.g_dwLength ≠ 0 →
    s.finishSignalled = false → name_loop kernelRetryForever 0 fuel j s = none := by
  intro fuel
  induction fuel with
  | zero => intro j s _ _; rfl
  | succ fuel ih =>
    intro j s hL hs
    cases hw : workerFor kernelRetryForever 0 j s.g_hThread with
    | none =>
      obtain ⟨_, err, hc⟩ := workerFor_none _ _ _ _ hw
      simp [kernelRetryForever] at hc
    | some t =>
      unfold name_loop
      rw [name_round_finished kernelRetryForever 0 j s t STATUS_INFO_LENGTH_MISMATCH 600
        UNICODE_STRING.zero hL rfl hw hs rfl]
      simp only [if_true]
      exact ih (j + 1) _ (by simp) rfl

theorem kernelRetryForever_never_returns (fuel : Nat) :
    psutil_get_open_files kernelRetryForever fuel 1234 77 State.initial = none := by
  cases fuel with
  | zero => rfl
  | succ fuel =>
    have a1 : kernelRetryForever.createEventStart = some 1 := rfl
    have a2 : kernelRetryForever.createEventFinish = some 2 := rfl
    have a3 : kernelRetryForever.pyListNew = true := rfl
    have a4 : ∀ a b, kernelRetryForever.heapAllocInfo a b = true := fun _ _ => rfl
    have a5 : ∀ a b, kernelRetryForever.ntQuerySystemInformation a b = 0 := fun _ _ => rfl
    have a6 : kernelRetryForever.handles = [⟨1234, 4⟩] := rfl
    have a7 : ∀ a b c, kernelRetryForever.duplicateHandle a b c = some 100 := fun _ _ _ => rfl
    simp only [psutil_get_open_files, guarded, snapshot, snapshot_loop, snapshot_round,
      State.initial, psutil_get_open_files_init, py_list_new, emit, a1, a2, a3, a4, a5, a6, a7,
      MALLOC_ZERO, handle_loop, loop_body, open_handle, set_g_hFile, set_g_dwLength]
    simp [STATUS_INFO_LENGTH_MISMATCH, NT_SUCCESS]
    rw [name_loop_kernelRetryForever]
    · simp [MAX_PATH, sizeof_WCHAR]
    · rfl

theorem nameSteps_releaseEvents (s : State) :
    nameSteps (releaseEvents s.g_pNameBuffer) = pendingFree s := by
  cases h : s.g_pNameBuffer <;> simp [nameSteps, releaseEvents, pendingFree, h]

theorem nameSteps_workerEvents (i j : Nat) (g : Option HANDLE) (t : HANDLE) :
    nameSteps (workerEvents i j g t) = [] := by
  cases g <;> simp [nameSteps, workerEvents]

/-- The name-buffer steps of one attempt in which the allocation succeeds, a worker
is available and `g_hEvtFinish` is not signalled on entry. -/
theorem name_round_steps (k : Kernel) (i j : Nat) (s : State) (hL : s.g_dwLength ≠ 0)
    (ha : k.heapAllocName i j s.g_dwLength = true)
    (hw : workerFor k i j s.g_hThread ≠ none) (hs : s.finishSignalled = false) :
    nameSteps (name_round k i j s).2.trace
        = nameSteps s.trace ++ pendingFree s
          ++ [Step.alloc s.g_dwLength, Step.query s.g_dwLength] ∧
      pendingFree (name_round k i j s).2 = [Step.free] ∧
      (name_round k i j s).2.g_hFile = s.g_hFile ∧
      ((name_round k i j s).1 = Exit.done →
        (name_round k i j s).2.g_hThread ≠ none ∧
        (name_round k i j s).2.finishSignalled = false ∧
        ∃ name, k.ntQueryObject i j s.g_hFile s.g_dwLength
          = WorkerReply.finished (name_round k i j s).2.g_status
              (name_round k i j s).2.g_dwLength name) ∧
      ((name_round k i j s).1 = Exit.jump →
        k.ntQueryObject i j s.g_hFile s.g_dwLength = WorkerReply.hung ∨
        (∃ st len name,
          k.ntQueryObject i j s.g_hFile s.g_dwLength = WorkerReply.late st len name) ∨
        k.ntQueryObject i j s.g_hFile s.g_dwLength = WorkerReply.waitFailed) := by
  have hf := release_name_buffer_frame s
  have hRt : (release_name_buffer s).trace = s.trace ++ releaseEvents s.g_pNameBuffer := by
    simp [hf]
  refine name_round_cases k i j s (fun r =>
    nameSteps r.2.trace = nameSteps s.trace ++ pendingFree s
          ++ [Step.alloc s.g_dwLength, Step.query s.g_dwLength] ∧
      pendingFree r.2 = [Step.free] ∧ r.2.g_hFile = s.g_hFile ∧
      (r.1 = Exit.done → r.2.g_hThread ≠ none ∧ r.2.finishSignalled = false ∧
        ∃ name, k.ntQueryObject i j s.g_hFile s.g_dwLength
          = WorkerReply.finished r.2.g_status r.2.g_dwLength name) ∧
      (r.1 = Exit.jump →
        k.ntQueryObject i j s.g_hFile s.g_dwLength = WorkerReply.hung ∨
        (∃ st len name,
          k.ntQueryObject i j s.g_hFile s.g_dwLength = WorkerReply.late st len name) ∨
        k.ntQueryObject i j s.g_hFile s.g_dwLength = WorkerReply.waitFailed))
    ?_ ?_ ?_ ?_ ?_ ?_ ?_ ?_
  · intro h; exact absurd h hL
  · intro _ h; rw [ha] at h; cases h
  · intro err _ _ ht hc
    simp [workerFor, ht, hc] at hw
  · intro t _ _ _ h; rw [hs] at h; cases h
  · intro t st len name _ _ _ _ hr
    refine ⟨?_, by simp [pendingFree], by simp [hf], fun _ => ⟨by simp, rfl, name, hr⟩,
      by simp⟩
    simp only [hRt, nameSteps_append, nameSteps_releaseEvents, nameSteps_workerEvents]
    simp [nameSteps]
  · intro t _ _ _ _ hr
    refine ⟨?_, by simp [pendingFree], by simp [hf], by simp, fun _ => Or.inl hr⟩
    simp only [hRt, nameSteps_append, nameSteps_releaseEvents, nameSteps_workerEvents]
    simp [nameSteps]
  · intro t st len name _ _ _ _ hr
    refine ⟨?_, by simp [pendingFree], by simp [hf], by simp,
      fun _ => Or.inr (Or.inl ⟨st, len, name, hr⟩)⟩
    simp only [hRt, nameSteps_append, nameSteps_releaseEvents, nameSteps_workerEvents]
    simp [nameSteps]
  · intro t _ _ _ _ hr
    refine ⟨?_, by simp [pendingFree], by simp [hf], by simp, fun _ => Or.inr (Or.inr hr)⟩
    simp only [hRt, nameSteps_append, nameSteps_releaseEvents, nameSteps_workerEvents]
    simp [nameSteps]

/-- The name-buffer steps of the retry loop are those the specification
prescribes, as long as every allocation succeeds, a worker is available and
`g_hEvtFinish` is not signalled on entry. -/
theorem name_loop_steps (k : Kernel) (i : Nat)
    (ha : ∀ j size, k.heapAllocName i j size = true) :
    ∀ (fuel j : Nat) (s : State) (e : Exit) (s' : State),
      workerFor k i j s.g_hThread ≠ none → s.finishSignalled = false →
      name_loop k i fuel j s = some (e, s') →
      nameSteps s'.trace ++ pendingFree s'
        = nameSteps s.trace ++ pendingFree s
          ++ (if s.g_dwLength = 0 then [] else Spec.retrySteps k i s.g_hFile fuel j s.g_dwLength) := by
  intro fuel
  induction fuel with
  | zero => intro j s e s' _ _ h; simp [name_loop] at h
  | succ fuel ih =>
    intro j s e s' hw hs h
    unfold name_loop at h
    by_cases hL : s.g_dwLength = 0
    · rw [name_round_empty k i j s hL] at h
      simp only [Option.some.injEq, Prod.mk.injEq] at h
      obtain ⟨_, rfl⟩ := h
      have hf := release_name_buffer_frame s
      simp [hL, hf, nameSteps_append, nameSteps_releaseEvents, pendingFree]
    · obtain ⟨g1, g2, g3, g4, g5⟩ := name_round_steps k i j s hL (ha _ _) hw hs
      rcases hr : name_round k i j s with ⟨e1, s1⟩
      rw [hr] at h g1 g2 g3 g4 g5
      simp only [hL, if_false]
      cases e1 with
      | jump =>
        simp only [Option.some.injEq, Prod.mk.injEq] at h
        obtain ⟨_, rfl⟩ := h
        rw [g1, g2]
        unfold Spec.retrySteps
        rcases g5 rfl with hq | ⟨st, len, name, hq⟩ | hq <;> simp [hq]
      | done =>
        obtain ⟨ht, hs1, name, hq⟩ := g4 rfl
        by_cases hst : s1.g_status = STATUS_INFO_LENGTH_MISMATCH
        · simp only [hst, if_true] at h
          have hw1 : workerFor k i (j + 1) s1.g_hThread ≠ none := by
            cases h1 : s1.g_hThread
            · exact absurd h1 ht
            · simp [workerFor]
          have := ih (j + 1) s1 e s' hw1 hs1 h
          rw [this, g1, g2, g3]
          conv_rhs => unfold Spec.retrySteps
          rw [hq]
          by_cases hlen : s1.g_dwLength = 0
          · simp [hlen, hst]
          · simp [hlen, hst, Nat.pos_of_ne_zero hlen]
        · simp only [hst, if_false, Option.some.injEq, Prod.mk.injEq] at h
          obtain ⟨_, rfl⟩ := h
          rw [g1, g2]
          unfold Spec.retrySteps
          simp [hq, hst]

/-! ## One round of the handle loop -/

theorem open_handle_eq (i : Nat) (h : HANDLE) (s : State) :
    open_handle i h s
      = { s with g_hFile := some h, g_dwLength := (MAX_PATH + 1) * sizeof_WCHAR,
                 dupHandles := h :: s.dupHandles,
                 trace := s.trace ++ [Event.DuplicateHandle i (some h),
                   Event.write Var.g_hFile, Event.write Var.g_dwLength] } := by
  simp [open_handle, set_g_hFile, set_g_dwLength, emit]

theorem loop_cleanup_eq (s : State) :
    loop_cleanup s
      = { s with
          g_pNameBuffer := none, g_dwSize := 0, g_dwLength := 0, g_hFile := none,
          heap := (match s.g_pNameBuffer with
            | some p => s.heap.erase p
            | none => s.heap),
          dupHandles := (match s.g_hFile with
            | some h => s.dupHandles.erase h
            | none => s.dupHandles),
          faults := s.faults
            + (match s.g_pNameBuffer with
              | some p => if p ∈ s.heap then 0 else 1
              | none => 0)
            + (match s.g_hFile with
              | some h => if h ∈ s.dupHandles then 0 else 1
              | none => 0),
          trace := s.trace ++ cleanupEvents s.g_pNameBuffer s.g_hFile } := by
  cases hb : s.g_pNameBuffer <;> cases hh : s.g_hFile <;>
    simp [loop_cleanup, hb, hh, set_g_hFile, set_g_dwLength, set_g_dwSize, set_g_pNameBuffer,
      FREE, CloseHandle, cleanupEvents] <;>
    (repeat' split) <;> rfl

theorem open_handle_finish (i : Nat) (h : HANDLE) (s : State) :
    (open_handle i h s).finishSignalled = s.finishSignalled := by
  simp [open_handle, set_g_hFile, set_g_dwLength, emit]

theorem loop_cleanup_finish (s : State) :
    (loop_cleanup s).finishSignalled = s.finishSignalled := by
  rw [loop_cleanup_eq]

theorem convert_and_append_finish (k : Kernel) (i : Nat) (s : State) :
    (convert_and_append k i s).finishSignalled = s.finishSignalled := by
  unfold convert_and_append
  by_cases h1 : NT_SUCCESS s.g_status = true <;> by_cases h2 : 0 < s.nameBuffer.Length <;>
    cases h3 : k.pyUnicodeFromWideChar i <;> cases h4 : k.pyListAppend i <;>
    simp [h1, h2, h3, h4, emit]

theorem nameSteps_cleanupEvents (s : State) :
    nameSteps (cleanupEvents s.g_pNameBuffer s.g_hFile) = pendingFree s := by
  cases hb : s.g_pNameBuffer <;> cases hh : s.g_hFile <;>
    simp [nameSteps, cleanupEvents, pendingFree, hb]

/-- What `convert_and_append` leaves alone, and the events it adds. -/
theorem convert_and_append_frame (k : Kernel) (i : Nat) (s : State) :
    (convert_and_append k i s).g_pNameBuffer = s.g_pNameBuffer ∧
    (convert_and_append k i s).g_hFile = s.g_hFile ∧
    (convert_and_append k i s).g_hThread = s.g_hThread ∧
    (convert_and_append k i s).heap = s.heap ∧
    (convert_and_append k i s).dupHandles = s.dupHandles ∧
    (convert_and_append k i s).faults = s.faults ∧
    (convert_and_append k i s).pHandleInfo = s.pHandleInfo ∧
    ∃ d, (convert_and_append k i s).trace = s.trace ++ d ∧
      ∀ e ∈ d, (∃ ok, e = Event.PyUnicodeFromWideChar i ok) ∨
        (∃ ok, e = Event.PyListAppend i ok) := by
  unfold convert_and_append
  by_cases h1 : NT_SUCCESS s.g_status = true <;> by_cases h2 : 0 < s.nameBuffer.Length <;>
    cases h3 : k.pyUnicodeFromWideChar i <;> cases h4 : k.pyListAppend i <;>
    simp [h1, h2, h3, h4, emit]

theorem nameSteps_convert_and_append (k : Kernel) (i : Nat) (s : State) :
    nameSteps (convert_and_append k i s).trace = nameSteps s.trace ∧
    pendingFree (convert_and_append k i s) = pendingFree s := by
  obtain ⟨h1, _, _, _, _, _, _, d, h2, h3⟩ := convert_and_append_frame k i s
  refine ⟨?_, by simp [pendingFree, h1]⟩
  rw [h2, nameSteps_append]
  have : nameSteps d = [] := by
    unfold nameSteps
    rw [List.filterMap_eq_nil_iff]
    intro e he
    rcases h3 e he with ⟨ok, rfl⟩ | ⟨ok, rfl⟩ <;> rfl
  rw [this, List.append_nil]

theorem loop_body_opened (k : Kernel) (fuel : Nat) (dwPid : DWORD) (hProcess : HANDLE)
    (i : Nat) (hHandle : SYSTEM_HANDLE_TABLE_ENTRY_INFO_EX) (s : State) (h : HANDLE)
    (hpid : hHandle.UniqueProcessId = dwPid)
    (hdup : k.duplicateHandle i hProcess hHandle.HandleValue = some h) :
    loop_body k fuel dwPid hProcess i hHandle s
      = match name_loop k i fuel 0 (open_handle i h s) with
        | none => none
        | some (Exit.jump, s1) => some s1
        | some (Exit.done, s1) => some (convert_and_append k i s1) := by
  simp [loop_body, hpid, hdup]

/-- C5 (amended): the name-buffer retry uses exactly the reported size, as long as
the buffers can be allocated.  For a record of the target process whose handle
`h` was duplicated, if every name-buffer allocation for the record succeeds, a
worker is available for the first attempt and `g_hEvtFinish` is not signalled
on entry (no earlier query was completed after its wait had timed out), then
the name-buffer steps of the round and of its `loop_cleanup` are exactly
`Spec.retrySteps`: the first query
uses a zeroed buffer of `(MAX_PATH + 1) * sizeof(WCHAR) = 522` bytes; after each
reply "too small" with reported length `L > 0` the buffer is freed and the next
query uses a zeroed buffer of exactly `L` bytes; the retries end with the first
other reply (a success status, another failure, a timeout or failed wait, a
reported length of 0), the last buffer being freed as well.  The equation holds
for the fuel of the run and for every larger one. -/
theorem retry_uses_reported_size (k : Kernel) (fuel : Nat) (dwPid : DWORD) (hProcess : HANDLE)
    (i : Nat) (hHandle : SYSTEM_HANDLE_TABLE_ENTRY_INFO_EX) (s s1 : State) (h : HANDLE)
    (hpid : hHandle.UniqueProcessId = dwPid)
    (hdup : k.duplicateHandle i hProcess hHandle.HandleValue = some h)
    (hbuf : s.g_pNameBuffer = none)
    (ha : ∀ j size, k.heapAllocName i j size = true)
    (hw : workerFor k i 0 s.g_hThread ≠ none)
    (hs : s.finishSignalled = false)
    (hrun : loop_body k fuel dwPid hProcess i hHandle s = some s1) :
    (MAX_PATH + 1) * sizeof_WCHAR = 522 ∧
    ∀ fuel', fuel ≤ fuel' →
      nameSteps (loop_cleanup s1).trace
        = nameSteps s.trace ++ Spec.retrySteps k i (some h) fuel' 0 522 := by
  refine ⟨rfl, ?_⟩
  intro fuel' hf
  rw [loop_body_opened k fuel dwPid hProcess i hHandle s h hpid hdup] at hrun
  have hopen := open_handle_eq i h s
  have key : ∀ e s3, name_loop k i fuel 0 (open_handle i h s) = some (e, s3) →
      nameSteps s3.trace ++ pendingFree s3
        = nameSteps s.trace ++ Spec.retrySteps k i (some h) fuel' 0 522 := by
    intro e s3 h3
    have h3' := name_loop_mono k i _ _ _ _ h3 fuel' hf
    have := name_loop_steps k i ha fuel' 0 (open_handle i h s) e s3
      (by rw [hopen]; exact hw) (by rw [open_handle_finish]; exact hs) h3'
    rw [this, hopen]
    simp [nameSteps_append, nameSteps, pendingFree, hbuf, MAX_PATH, sizeof_WCHAR]
  have hcl : ∀ x : State, nameSteps (loop_cleanup x).trace = nameSteps x.trace ++ pendingFree x := by
    intro x
    rw [loop_cleanup_eq]
    simp only [nameSteps_append, nameSteps_cleanupEvents]
  rcases hn : name_loop k i fuel 0 (open_handle i h s) with _ | ⟨e, s3⟩
  · rw [hn] at hrun; cases hrun
  · rw [hn] at hrun
    have := key e s3 hn
    cases e with
    | jump =>
      simp only [Option.some.injEq] at hrun
      subst hrun
      rw [hcl, this]
    | done =>
      simp only [Option.some.injEq] at hrun
      subst hrun
      rw [hcl, (nameSteps_convert_and_append k i s3).1, (nameSteps_convert_and_append k i s3).2,
        this]

/-- C5 as stated fails: under `kernelAllocFails` the reply to the first query
(522 bytes) is "too small" with reported length 1000, the heap refuses the
1000-byte buffer, and the call returns the empty list having issued no second
query.  Nor is a first query always made: under `kernelLatePipe` the worker of
the pipe has left `g_hEvtFinish` signalled (`latePipeSecond`), and the first
attempt for the file returns on that signal; the file's 522-byte buffer is
allocated and freed without any query, although every allocation succeeds, a
worker is available and the kernel would answer the query at once. -/
theorem retry_stops_on_failed_allocation :
    kernelAllocFails.ntQueryObject 0 0 (some 100) 522
      = WorkerReply.finished STATUS_INFO_LENGTH_MISMATCH 1000 UNICODE_STRING.zero ∧
    (psutil_get_open_files kernelAllocFails 5 1234 77 State.initial).map
        (fun r => (r.1, nameQueries r.2.trace))
      = some (some [], [(0, 0, 522)]) ∧
    (latePipeSecond.finishSignalled = true ∧ latePipeSecond.g_pNameBuffer = none ∧
      (∀ j size, kernelLatePipe.heapAllocName 1 j size = true) ∧
      workerFor kernelLatePipe 1 0 latePipeSecond.g_hThread = some 51 ∧
      (loop_body kernelLatePipe 5 1234 77 1 ⟨1234, 8⟩ latePipeSecond).map
          (fun s1 => nameSteps ((loop_cleanup s1).trace.drop latePipeSecond.trace.length))
        = some [Step.alloc 522, Step.free] ∧
      Spec.retrySteps kernelLatePipe 1 (some 108) 5 0 522
        = [Step.alloc 522, Step.query 522, Step.free]) := by
  refine ⟨rfl, by decide, rfl, rfl, fun _ _ => rfl, rfl, rfl, rfl⟩

/-- C3 (amended): a failed worker-thread creation skips the handle and is not
fatal.  When `CreateThread` fails in the first attempt for a record of the
target process (no worker exists, the handle was duplicated, the 522-byte
buffer allocated), the round of the handle loop returns with the error flag,
the list and the Python error indicator unchanged; the last-error code, which
differs from `WAIT_OBJECT_0`, is only what `psutil_create_thread` returned; no
name query is issued, and `loop_cleanup` releases the buffer and the duplicated
handle. -/
theorem thread_creation_failure_skips (k : Kernel) (fuel : Nat) (dwPid : DWORD)
    (hProcess : HANDLE) (i : Nat) (hHandle : SYSTEM_HANDLE_TABLE_ENTRY_INFO_EX) (s : State)
    (h : HANDLE) (err : ErrorCode)
    (hpid : hHandle.UniqueProcessId = dwPid)
    (hdup : k.duplicateHandle i hProcess hHandle.HandleValue = some h)
    (hbuf : s.g_pNameBuffer = none)
    (ha : k.heapAllocName i 0 ((MAX_PATH + 1) * sizeof_WCHAR) = true)
    (ht : s.g_hThread = none)
    (hc : k.createThread i 0 = ThreadResult.failed err)
    (hfuel : 0 < fuel) :
    ∃ s1, loop_body k fuel dwPid hProcess i hHandle s = some s1 ∧
      s1.error = s.error ∧ s1.py_retlist = s.py_retlist ∧ s1.pyErr = s.pyErr ∧
      s1.lastError = err.code ∧ err.code ≠ WAIT_OBJECT_0 ∧
      nameQueries s1.trace = nameQueries s.trace ∧
      (loop_cleanup s1).heap = s.heap ∧ (loop_cleanup s1).dupHandles = s.dupHandles ∧
      (loop_cleanup s1).faults = s.faults := by
  obtain ⟨f, rfl⟩ : ∃ f, fuel = f + 1 := ⟨fuel - 1, by omega⟩
  have hopen := open_handle_eq i h s
  have hL : (open_handle i h s).g_dwLength ≠ 0 := by
    rw [hopen]; simp [MAX_PATH, sizeof_WCHAR]
  have hr := name_round_nothread k i 0 (open_handle i h s) err hL
    (by rw [hopen]; exact ha) (by rw [hopen]; exact ht) hc
  have hrel : release_name_buffer (open_handle i h s) = open_handle i h s := by
    rw [release_name_buffer_eq, hopen]; simp [hbuf]
  rw [hrel] at hr
  rw [loop_body_opened k _ dwPid hProcess i hHandle s h hpid hdup]
  unfold name_loop
  rw [hr]
  refine ⟨_, rfl, ?_, ?_, ?_, ?_, ?_, ?_, ?_, ?_, ?_⟩
  · simp [hopen]
  · simp [hopen]
  · simp [hopen]
  · simp
  · exact err.nonzero
  · simp [hopen, nameQueries]
  · rw [loop_cleanup_eq]; simp [hopen]
  · rw [loop_cleanup_eq]; simp [hopen]
  · rw [loop_cleanup_eq]; simp [hopen]

/-- C3 as stated fails: under `kernelThreadFails` the call to `CreateThread` fails
with `ERROR_NOT_ENOUGH_MEMORY` for the only handle, and the call returns the
empty list, not NULL, with no Python error raised and the error flag clear. -/
theorem thread_creation_failure_not_fatal :
    kernelThreadFails.createThread 0 0 = ThreadResult.failed ERROR_NOT_ENOUGH_MEMORY ∧
    (psutil_get_open_files kernelThreadFails 5 1234 77 State.initial).map
        (fun r => (r.1, r.2.pyErr, r.2.error, threadCreations r.2.trace))
      = some (some [], none, false, [(0, 0)]) := by
  constructor
  · rfl
  · decide

theorem nt_success_ne_mismatch (st : NTSTATUS) (h : NT_SUCCESS st = true) :
    st ≠ STATUS_INFO_LENGTH_MISMATCH := by
  intro e
  rw [e] at h
  simp [NT_SUCCESS, STATUS_INFO_LENGTH_MISMATCH] at h

/-- The fields `open_handle` leaves alone, and those it sets. -/
theorem open_handle_frame (i : Nat) (h : HANDLE) (s : State) :
    (open_handle i h s).g_initialized = s.g_initialized ∧
    (open_handle i h s).g_status = s.g_status ∧
    (open_handle i h s).g_hEvtStart = s.g_hEvtStart ∧
    (open_handle i h s).g_hEvtFinish = s.g_hEvtFinish ∧
    (open_handle i h s).g_hThread = s.g_hThread ∧
    (open_handle i h s).g_pNameBuffer = s.g_pNameBuffer ∧
    (open_handle i h s).g_dwSize = s.g_dwSize ∧
    (open_handle i h s).pHandleInfo = s.pHandleInfo ∧
    (open_handle i h s).dwInfoSize = s.dwInfoSize ∧
    (open_handle i h s).error = s.error ∧
    (open_handle i h s).py_retlist = s.py_retlist ∧
    (open_handle i h s).nameBuffer = s.nameBuffer ∧
    (open_handle i h s).pyErr = s.pyErr ∧
    (open_handle i h s).lastError = s.lastError ∧
    (open_handle i h s).heap = s.heap ∧
    (open_handle i h s).nextBlock = s.nextBlock ∧
    (open_handle i h s).faults = s.faults ∧
    (open_handle i h s).g_hFile = some h ∧
    (open_handle i h s).g_dwLength = (MAX_PATH + 1) * sizeof_WCHAR ∧
    (open_handle i h s).dupHandles = h :: s.dupHandles ∧
    (open_handle i h s).trace = s.trace ++ [Event.DuplicateHandle i (some h),
      Event.write Var.g_hFile, Event.write Var.g_dwLength] := by
  simp [open_handle, set_g_hFile, set_g_dwLength, emit]

/-- A handle whose first name query succeeds with a non-empty name is appended. -/
theorem loop_body_resolves (k : Kernel) (fuel : Nat) (dwPid : DWORD) (hProcess : HANDLE)
    (i : Nat) (hHandle : SYSTEM_HANDLE_TABLE_ENTRY_INFO_EX) (s : State) (h t : HANDLE)
    (st : NTSTATUS) (len : Nat) (name : UNICODE_STRING) (l : List PyStr)
    (hpid : hHandle.UniqueProcessId = dwPid)
    (hdup : k.duplicateHandle i hProcess hHandle.HandleValue = some h)
    (ha : k.heapAllocName i 0 ((MAX_PATH + 1) * sizeof_WCHAR) = true)
    (hw : workerFor k i 0 s.g_hThread = some t) (hs : s.finishSignalled = false)
    (hr : k.ntQueryObject i 0 (some h) ((MAX_PATH + 1) * sizeof_WCHAR)
      = WorkerReply.finished st len name)
    (hst : NT_SUCCESS st = true) (hlen : 0 < name.Length)
    (hconv : k.pyUnicodeFromWideChar i = true) (happ : k.pyListAppend i = true)
    (hl : s.py_retlist = some l) (hfuel : 0 < fuel) :
    ∃ s1, loop_body k fuel dwPid hProcess i hHandle s = some s1 ∧
      s1.py_retlist = some (l ++ [PyUnicode_FromWideChar name]) ∧ s1.error = s.error ∧
      s1.g_hThread = some t ∧
      ∃ d, s1.trace = s.trace ++ d ∧
        threadCreations d = (if s.g_hThread = none then [(i, 0)] else []) ∧
        nameQueries d = [(i, 0, (MAX_PATH + 1) * sizeof_WCHAR)] := by
  obtain ⟨f, rfl⟩ : ∃ f, fuel = f + 1 := ⟨fuel - 1, by omega⟩
  have hopen := open_handle_frame i h s
  have hL : (open_handle i h s).g_dwLength ≠ 0 := by
    simp [hopen, MAX_PATH, sizeof_WCHAR]
  have hrd := name_round_finished k i 0 (open_handle i h s) t st len name hL
    (by simp only [hopen]; exact ha) (by simp only [hopen]; exact hw)
    (by rw [open_handle_finish]; exact hs) (by simp only [hopen]; exact hr)
  have hf := release_name_buffer_frame (open_handle i h s)
  rw [loop_body_opened k _ dwPid hProcess i hHandle s h hpid hdup]
  unfold name_loop
  rw [hrd]
  simp only [nt_success_ne_mismatch st hst, if_false]
  refine ⟨_, rfl, ?_, ?_, ?_, ?_⟩
  · simp [convert_and_append, hst, hlen, hconv, happ, emit, hf, hopen, hl]
  · simp [convert_and_append, hst, hlen, hconv, happ, emit, hf, hopen]
  · simp [convert_and_append, hst, hlen, hconv, happ, emit, hf, hopen]
  · refine ⟨[Event.DuplicateHandle i (some h), Event.write Var.g_hFile,
        Event.write Var.g_dwLength] ++ releaseEvents s.g_pNameBuffer ++
        [Event.write Var.g_dwSize,
          Event.HeapAlloc ((MAX_PATH + 1) * sizeof_WCHAR) (some s.nextBlock),
          Event.write Var.g_pNameBuffer] ++ workerEvents i 0 s.g_hThread t ++
        [Event.SetEventStart,
          Event.NtQueryObject i 0 ((MAX_PATH + 1) * sizeof_WCHAR)
            (WorkerReply.finished st len name),
          Event.write Var.g_dwLength, Event.write Var.g_status,
          Event.SetEventFinish, Event.WaitFinish WAIT_OBJECT_0,
          Event.PyUnicodeFromWideChar i true, Event.PyListAppend i true], ?_, ?_, ?_⟩
    · simp [convert_and_append, hst, hlen, hconv, happ, emit, hf, hopen]
    · simp only [threadCreations_append, threadCreations_releaseEvents,
        threadCreations_workerEvents]
      simp [threadCreations]
    · simp only [nameQueries_append, nameQueries_releaseEvents, nameQueries_workerEvents]
      simp [nameQueries]

theorem create_thread_creations (k : Kernel) (i j : Nat) (s : State) :
    ∃ d, (psutil_create_thread k i j s).2.trace = s.trace ++ d ∧
      threadCreations d = if s.g_hThread = none then [(i, j)] else [] := by
  cases hw : workerFor k i j s.g_hThread with
  | none =>
    obtain ⟨ht, err, hc⟩ := workerFor_none k i j _ hw
    rw [create_thread_failed k i j s err ht hc]
    exact ⟨[Event.CreateThread i j none], rfl, by simp [threadCreations, ht]⟩
  | some t =>
    cases hs : s.finishSignalled with
    | true =>
      rw [create_thread_stale k i j s t hw hs]
      refine ⟨_, List.append_assoc _ _ _, ?_⟩
      simp only [threadCreations_append, threadCreations_workerEvents]
      simp [threadCreations]
    | false =>
      cases hr : k.ntQueryObject i j s.g_hFile s.g_dwSize with
      | finished st len name =>
        rw [create_thread_finished k i j s t st len name hw hs hr]
        refine ⟨_, List.append_assoc _ _ _, ?_⟩
        simp only [threadCreations_append, threadCreations_workerEvents]
        simp [threadCreations]
      | hung =>
        rw [create_thread_hung k i j s t hw hs hr]
        refine ⟨_, List.append_assoc _ _ _, ?_⟩
        simp only [threadCreations_append, threadCreations_workerEvents]
        simp [threadCreations]
      | late st len name =>
        rw [create_thread_late k i j s t st len name hw hs hr]
        refine ⟨_, List.append_assoc _ _ _, ?_⟩
        simp only [threadCreations_append, threadCreations_workerEvents]
        simp [threadCreations]
      | waitFailed =>
        rw [create_thread_waitFailed k i j s t hw hs hr]
        refine ⟨_, List.append_assoc _ _ _, ?_⟩
        simp only [threadCreations_append, threadCreations_workerEvents]
        simp [threadCreations]

theorem wait_not_mem_releaseEvents (w : DWORD) (p : Option Nat) :
    Event.WaitFinish w ∉ releaseEvents p := by
  cases p <;> simp [releaseEvents]

theorem wait_not_mem_workerEvents (w : DWORD) (i j : Nat) (g : Option HANDLE) (t : HANDLE) :
    Event.WaitFinish w ∉ workerEvents i j g t := by
  cases g <;> simp [workerEvents]

/-- When the wait of line 83 returns `WAIT_TIMEOUT`, `psutil_create_thread` tears the
worker down: it returns `WAIT_TIMEOUT` with `g_hThread = NULL`, its last four
steps being `SuspendThread`, `TerminateThread`, the wait for the thread and the
close of its handle. -/
theorem create_thread_timeout (k : Kernel) (i j : Nat) (s : State) (d : List Event)
    (hd : (psutil_create_thread k i j s).2.trace = s.trace ++ d)
    (hto : Event.WaitFinish WAIT_TIMEOUT ∈ d) :
    (psutil_create_thread k i j s).1 = WAIT_TIMEOUT ∧
    (psutil_create_thread k i j s).2.g_hThread = none ∧
    ∃ t d', workerFor k i j s.g_hThread = some t ∧
      d = d' ++ [Event.SuspendThread t, Event.TerminateThread t, Event.WaitThread t,
        Event.CloseThread t] := by
  cases hw : workerFor k i j s.g_hThread with
  | none =>
    obtain ⟨ht, err, hc⟩ := workerFor_none k i j _ hw
    rw [create_thread_failed k i j s err ht hc] at hd
    have := List.append_cancel_left hd
    subst this
    simp at hto
  | some t =>
    cases hs : s.finishSignalled with
    | true =>
      rw [create_thread_stale k i j s t hw hs] at hd
      simp only [List.append_assoc] at hd
      have := List.append_cancel_left hd
      subst this
      have h1 := wait_not_mem_workerEvents 258 i j s.g_hThread t
      simp [h1, WAIT_TIMEOUT, WAIT_OBJECT_0] at hto
    | false =>
      cases hr : k.ntQueryObject i j s.g_hFile s.g_dwSize with
      | finished st len name =>
        rw [create_thread_finished k i j s t st len name hw hs hr] at hd
        simp only [List.append_assoc] at hd
        have := List.append_cancel_left hd
        subst this
        have h1 := wait_not_mem_workerEvents 258 i j s.g_hThread t
        simp [h1, WAIT_TIMEOUT, WAIT_OBJECT_0] at hto
      | hung =>
        rw [create_thread_hung k i j s t hw hs hr] at hd ⊢
        simp only [List.append_assoc] at hd
        have := List.append_cancel_left hd
        subst this
        exact ⟨rfl, rfl, t, workerEvents i j s.g_hThread t ++ [Event.SetEventStart,
          Event.NtQueryObject i j s.g_dwSize WorkerReply.hung,
          Event.WaitFinish WAIT_TIMEOUT], rfl, by simp⟩
      | late st len name =>
        rw [create_thread_late k i j s t st len name hw hs hr] at hd ⊢
        simp only [List.append_assoc] at hd
        have := List.append_cancel_left hd
        subst this
        exact ⟨rfl, rfl, t, workerEvents i j s.g_hThread t ++ [Event.SetEventStart,
          Event.NtQueryObject i j s.g_dwSize (WorkerReply.late st len name),
          Event.WaitFinish WAIT_TIMEOUT, Event.write Var.g_dwLength,
          Event.write Var.g_status, Event.SetEventFinish], rfl, by simp⟩
      | waitFailed =>
        rw [create_thread_waitFailed k i j s t hw hs hr] at hd
        simp only [List.append_assoc] at hd
        have := List.append_cancel_left hd
        subst this
        have h1 := wait_not_mem_workerEvents 258 i j s.g_hThread t
        simp [h1, WAIT_TIMEOUT, WAIT_FAILED] at hto

/-- An attempt whose wait times out leaves the retry loop at once. -/
theorem name_round_timeout (k : Kernel) (i j : Nat) (s : State) (d : List Event)
    (hd : (name_round k i j s).2.trace = s.trace ++ d)
    (hto : Event.WaitFinish WAIT_TIMEOUT ∈ d) :
    (name_round k i j s).1 = Exit.jump ∧ (name_round k i j s).2.g_hThread = none ∧
      (name_round k i j s).2.py_retlist = s.py_retlist ∧
      (name_round k i j s).2.error = s.error ∧
      nameQueries d = [(i, j, s.g_dwLength)] := by
  have hf := release_name_buffer_frame s
  have hRt : (release_name_buffer s).trace = s.trace ++ releaseEvents s.g_pNameBuffer := by
    simp [hf]
  have h1 := wait_not_mem_releaseEvents 258 s.g_pNameBuffer
  revert hd
  refine name_round_cases k i j s (fun r => r.2.trace = s.trace ++ d →
    r.1 = Exit.jump ∧ r.2.g_hThread = none ∧ r.2.py_retlist = s.py_retlist ∧
      r.2.error = s.error ∧ nameQueries d = [(i, j, s.g_dwLength)]) ?_ ?_ ?_ ?_ ?_ ?_ ?_ ?_
  · intro _ hd
    simp only [hRt] at hd
    have := List.append_cancel_left hd
    subst this
    simp [h1, WAIT_TIMEOUT] at hto
  · intro _ _ hd
    simp only [hRt, List.append_assoc] at hd
    have := List.append_cancel_left hd
    subst this
    simp [h1, WAIT_TIMEOUT] at hto
  · intro err _ _ _ _ hd
    simp only [hRt, List.append_assoc] at hd
    have := List.append_cancel_left hd
    subst this
    simp [h1, WAIT_TIMEOUT] at hto
  · intro t _ _ _ _ hd
    simp only [hRt, List.append_assoc] at hd
    have := List.append_cancel_left hd
    subst this
    have h2 := wait_not_mem_workerEvents 258 i j s.g_hThread t
    simp [h1, h2, WAIT_TIMEOUT, WAIT_OBJECT_0] at hto
  · intro t st len name _ _ _ _ _ hd
    simp only [hRt, List.append_assoc] at hd
    have := List.append_cancel_left hd
    subst this
    have h2 := wait_not_mem_workerEvents 258 i j s.g_hThread t
    simp [h1, h2, WAIT_TIMEOUT, WAIT_OBJECT_0] at hto
  · intro t _ _ _ _ _ hd
    simp only [hRt, List.append_assoc] at hd
    have := List.append_cancel_left hd
    subst this
    refine ⟨rfl, rfl, by simp [hf], by simp [hf], ?_⟩
    simp only [nameQueries_append, nameQueries_releaseEvents, nameQueries_workerEvents]
    simp [nameQueries]
  · intro t st len name _ _ _ _ _ hd
    simp only [hRt, List.append_assoc] at hd
    have := List.append_cancel_left hd
    subst this
    refine ⟨rfl, rfl, by simp [hf], by simp [hf], ?_⟩
    simp only [nameQueries_append, nameQueries_releaseEvents, nameQueries_workerEvents]
    simp [nameQueries]
  · intro t _ _ _ _ _ hd
    simp only [hRt, List.append_assoc] at hd
    have := List.append_cancel_left hd
    subst this
    have h2 := wait_not_mem_workerEvents 258 i j s.g_hThread t
    simp [h1, h2, WAIT_TIMEOUT, WAIT_FAILED] at hto

theorem loop_cleanup_hThread (s : State) : (loop_cleanup s).g_hThread = s.g_hThread := by
  rw [loop_cleanup_eq]

theorem cleanup_hThread (s : State) : (cleanup s).2.g_hThread = s.g_hThread := by
  cases hb : s.g_pNameBuffer <;> cases hh : s.g_hFile <;> cases hp : s.pHandleInfo <;>
    cases he : s.error <;>
    simp [cleanup, hb, hh, hp, he, set_g_hFile, set_g_dwLength, set_g_dwSize, set_g_pNameBuffer,
      FREE, CloseHandle, emit]

/-- C4 (amended): the worker is absent after a timeout and is created afresh for
the next attempt, which resolves a well-behaved handle as long as the hung
worker left no signal on `g_hEvtFinish`.
(1) Whenever the wait of `psutil_create_thread` returns `WAIT_TIMEOUT`, the
function returns that value with `g_hThread = NULL`, its last steps being
`SuspendThread`, `TerminateThread`, the wait for the thread and the close of
its handle.
(2) The attempt then leaves the retry loop at once through `goto loop_cleanup`:
one query for this attempt and no further one, the list and the error flag
untouched.
(3) `psutil_create_thread` calls `CreateThread` exactly when `g_hThread` is NULL on
entry.
(4) `loop_cleanup` and `cleanup` leave `g_hThread` alone, so it is still NULL at
the next attempt, in this call or in a later one.
(5) A well-behaved handle met with `g_hThread = NULL` and with `g_hEvtFinish` not
signalled (its duplication, its allocation, its `CreateThread`, its query and
its conversion succeed and the name is not empty) is resolved on a worker
created for it, and its name is appended. -/
theorem worker_absent_after_timeout :
    (∀ (k : Kernel) (i j : Nat) (s : State) (d : List Event),
      (psutil_create_thread k i j s).2.trace = s.trace ++ d →
      Event.WaitFinish WAIT_TIMEOUT ∈ d →
      (psutil_create_thread k i j s).1 = WAIT_TIMEOUT ∧
      (psutil_create_thread k i j s).2.g_hThread = none ∧
      ∃ t d', workerFor k i j s.g_hThread = some t ∧
        d = d' ++ [Event.SuspendThread t, Event.TerminateThread t, Event.WaitThread t,
          Event.CloseThread t]) ∧
    (∀ (k : Kernel) (i fuel j : Nat) (s : State) (d : List Event),
      (name_round k i j s).2.trace = s.trace ++ d →
      Event.WaitFinish WAIT_TIMEOUT ∈ d →
      name_loop k i (fuel + 1) j s = some (Exit.jump, (name_round k i j s).2) ∧
        (name_round k i j s).2.g_hThread = none ∧
        (name_round k i j s).2.py_retlist = s.py_retlist ∧
        (name_round k i j s).2.error = s.error ∧
        nameQueries d = [(i, j, s.g_dwLength)]) ∧
    (∀ (k : Kernel) (i j : Nat) (s : State),
      ∃ d, (psutil_create_thread k i j s).2.trace = s.trace ++ d ∧
        threadCreations d = if s.g_hThread = none then [(i, j)] else []) ∧
    (∀ s : State, (loop_cleanup s).g_hThread = s.g_hThread ∧
      (cleanup s).2.g_hThread = s.g_hThread) ∧
    (∀ (k : Kernel) (fuel : Nat) (dwPid : DWORD) (hProcess : HANDLE) (i : Nat)
      (hHandle : SYSTEM_HANDLE_TABLE_ENTRY_INFO_EX) (s : State) (h t : HANDLE)
      (st : NTSTATUS) (len : Nat) (name : UNICODE_STRING) (l : List PyStr),
      s.g_hThread = none → s.finishSignalled = false →
      hHandle.UniqueProcessId = dwPid →
      k.duplicateHandle i hProcess hHandle.HandleValue = some h →
      k.heapAllocName i 0 ((MAX_PATH + 1) * sizeof_WCHAR) = true →
      k.createThread i 0 = ThreadResult.created t →
      k.ntQueryObject i 0 (some h) ((MAX_PATH + 1) * sizeof_WCHAR)
        = WorkerReply.finished st len name →
      NT_SUCCESS st = true → 0 < name.Length →
      k.pyUnicodeFromWideChar i = true → k.pyListAppend i = true →
      s.py_retlist = some l → 0 < fuel →
      ∃ s1, loop_body k fuel dwPid hProcess i hHandle s = some s1 ∧
        s1.py_retlist = some (l ++ [PyUnicode_FromWideChar name]) ∧
        s1.g_hThread = some t ∧
        ∃ d, s1.trace = s.trace ++ d ∧ threadCreations d = [(i, 0)]) := by
  refine ⟨?_, ?_, ?_, ?_, ?_⟩
  · intro k i j s d hd hto
    exact create_thread_timeout k i j s d hd hto
  · intro k i fuel j s d hd hto
    obtain ⟨g1, g2, g3, g4, g5⟩ := name_round_timeout k i j s d hd hto
    refine ⟨?_, g2, g3, g4, g5⟩
    unfold name_loop
    rcases hr : name_round k i j s with ⟨e1, s1⟩
    rw [hr] at g1
    simp only at g1
    subst g1
    rfl
  · intro k i j s
    exact create_thread_creations k i j s
  · intro s
    exact ⟨loop_cleanup_hThread s, cleanup_hThread s⟩
  · intro k fuel dwPid hProcess i hHandle s h t st len name l ht hs hpid hdup ha hc hr hst hlen
      hconv happ hl hfuel
    obtain ⟨s1, g1, g2, _, g4, d, g5, g6, _⟩ :=
      loop_body_resolves k fuel dwPid hProcess i hHandle s h t st len name l hpid hdup ha
        (by simp [workerFor, ht, hc]) hs hr hst hlen hconv happ hl hfuel
    exact ⟨s1, g1, g2, g4, d, g5, by simpa [ht] using g6⟩

/-! ## The critical section -/

theorem Quiet_nil : Quiet [] := by simp [Quiet]

theorem Quiet_append (a b : List Event) (ha : Quiet a) (hb : Quiet b) : Quiet (a ++ b) := by
  intro e he
  rcases List.mem_append.1 he with h | h
  · exact ha e h
  · exact hb e h

theorem Quiet_releaseEvents (p : Option Nat) : Quiet (releaseEvents p) := by
  cases p <;> simp [Quiet, releaseEvents]

theorem Quiet_workerEvents (i j : Nat) (g : Option HANDLE) (t : HANDLE) :
    Quiet (workerEvents i j g t) := by
  cases g <;> simp [Quiet, workerEvents]

theorem Quiet_cleanupEvents (p : Option Nat) (h : Option HANDLE) :
    Quiet (cleanupEvents p h) := by
  cases p <;> cases h <;> simp [Quiet, cleanupEvents]

theorem Inside_refl (s : State) : Inside s s := ⟨[], by simp, Quiet_nil⟩

theorem Inside_trans {a b c : State} (h1 : Inside a b) (h2 : Inside b c) : Inside a c := by
  obtain ⟨d1, e1, q1⟩ := h1
  obtain ⟨d2, e2, q2⟩ := h2
  exact ⟨d1 ++ d2, by rw [e2, e1, List.append_assoc], Quiet_append _ _ q1 q2⟩

theorem Inside_of_trace {s s' : State} (d : List Event) (h : s'.trace = s.trace ++ d)
    (q : Quiet d) : Inside s s' := ⟨d, h, q⟩

theorem Inside_of_three {s s' : State} (a b c : List Event)
    (h : s'.trace = s.trace ++ a ++ b ++ c) (qa : Quiet a) (qb : Quiet b) (qc : Quiet c) :
    Inside s s' :=
  ⟨a ++ (b ++ c), by rw [h]; simp, Quiet_append _ _ qa (Quiet_append _ _ qb qc)⟩

theorem release_name_buffer_inside (s : State) : Inside s (release_name_buffer s) :=
  ⟨_, (release_name_buffer_frame s).2.2.2.2.2.2.2.2.2.2.2.2.2.2.2.2.2, Quiet_releaseEvents _⟩

theorem name_round_inside (k : Kernel) (i j : Nat) (s : State) :
    Inside s (name_round k i j s).2 := by
  refine Inside_trans (release_name_buffer_inside s) ?_
  refine name_round_cases k i j s (fun r => Inside (release_name_buffer s) r.2)
    ?_ ?_ ?_ ?_ ?_ ?_ ?_ ?_
  · intro _; exact Inside_refl _
  · intro _ _; exact ⟨_, rfl, by simp [Quiet]⟩
  · intro err _ _ _ _; exact ⟨_, rfl, by simp [Quiet]⟩
  · intro t _ _ _ _
    exact Inside_of_three _ _ _ rfl (by simp [Quiet]) (Quiet_workerEvents _ _ _ _)
      (by simp [Quiet])
  · intro t st len name _ _ _ _ _
    exact Inside_of_three _ _ _ rfl (by simp [Quiet]) (Quiet_workerEvents _ _ _ _)
      (by simp [Quiet])
  · intro t _ _ _ _ _
    exact Inside_of_three _ _ _ rfl (by simp [Quiet]) (Quiet_workerEvents _ _ _ _)
      (by simp [Quiet])
  · intro t st len name _ _ _ _ _
    exact Inside_of_three _ _ _ rfl (by simp [Quiet]) (Quiet_workerEvents _ _ _ _)
      (by simp [Quiet])
  · intro t _ _ _ _ _
    exact Inside_of_three _ _ _ rfl (by simp [Quiet]) (Quiet_workerEvents _ _ _ _)
      (by simp [Quiet])

theorem name_loop_inside (k : Kernel) (i : Nat) :
    ∀ (fuel j : Nat) (s : State) (e : Exit) (s' : State),
      name_loop k i fuel j s = some (e, s') → Inside s s' := by
  intro fuel
  induction fuel with
  | zero => intro j s e s' h; simp [name_loop] at h
  | succ fuel ih =>
    intro j s e s' h
    unfold name_loop at h
    have hr := name_round_inside k i j s
    rcases hn : name_round k i j s with ⟨e1, s1⟩
    rw [hn] at h hr
    cases e1 with
    | jump =>
      simp only [Option.some.injEq, Prod.mk.injEq] at h
      obtain ⟨_, rfl⟩ := h
      exact hr
    | done =>
      by_cases hst : s1.g_status = STATUS_INFO_LENGTH_MISMATCH
      · simp only [hst, if_true] at h
        exact Inside_trans hr (ih _ _ _ _ h)
      · simp only [hst, if_false, Option.some.injEq, Prod.mk.injEq] at h
        obtain ⟨_, rfl⟩ := h
        exact hr

theorem convert_and_append_inside (k : Kernel) (i : Nat) (s : State) :
    Inside s (convert_and_append k i s) := by
  obtain ⟨_, _, _, _, _, _, _, d, h2, h3⟩ := convert_and_append_frame k i s
  refine ⟨d, h2, ?_⟩
  intro e he
  rcases h3 e he with ⟨ok, rfl⟩ | ⟨ok, rfl⟩ <;> simp

theorem loop_cleanup_inside (s : State) : Inside s (loop_cleanup s) := by
  rw [loop_cleanup_eq]
  exact ⟨_, rfl, Quiet_cleanupEvents _ _⟩

/-- Case analysis on one round of the handle loop. -/
theorem loop_body_cases (k : Kernel) (fuel : Nat) (dwPid : DWORD) (hProcess : HANDLE)
    (i : Nat) (hHandle : SYSTEM_HANDLE_TABLE_ENTRY_INFO_EX) (s : State)
    (P : Option State → Prop)
    (h_other : hHandle.UniqueProcessId ≠ dwPid → P (some s))
    (h_nodup : hHandle.UniqueProcessId = dwPid →
      k.duplicateHandle i hProcess hHandle.HandleValue = none →
      P (some (emit (Event.DuplicateHandle i none) s)))
    (h_diverge : ∀ hd, hHandle.UniqueProcessId = dwPid →
      k.duplicateHandle i hProcess hHandle.HandleValue = some hd →
      name_loop k i fuel 0 (open_handle i hd s) = none → P none)
    (h_jump : ∀ hd s3, hHandle.UniqueProcessId = dwPid →
      k.duplicateHandle i hProcess hHandle.HandleValue = some hd →
      name_loop k i fuel 0 (open_handle i hd s) = some (Exit.jump, s3) → P (some s3))
    (h_done : ∀ hd s3, hHandle.UniqueProcessId = dwPid →
      k.duplicateHandle i hProcess hHandle.HandleValue = some hd →
      name_loop k i fuel 0 (open_handle i hd s) = some (Exit.done, s3) →
      P (some (convert_and_append k i s3))) :
    P (loop_body k fuel dwPid hProcess i hHandle s) := by
  by_cases hpid : hHandle.UniqueProcessId = dwPid
  · cases hdup : k.duplicateHandle i hProcess hHandle.HandleValue with
    | none =>
      have : loop_body k fuel dwPid hProcess i hHandle s
          = some (emit (Event.DuplicateHandle i none) s) := by
        simp [loop_body, hpid, hdup]
      rw [this]; exact h_nodup hpid hdup
    | some hd =>
      rw [loop_body_opened k fuel dwPid hProcess i hHandle s hd hpid hdup]
      rcases hn : name_loop k i fuel 0 (open_handle i hd s) with _ | ⟨e, s3⟩
      · exact h_diverge hd hpid hdup hn
      · cases e with
        | jump => exact h_jump hd s3 hpid hdup hn
        | done => exact h_done hd s3 hpid hdup hn
  · have : loop_body k fuel dwPid hProcess i hHandle s = some s := by
      simp [loop_body, hpid]
    rw [this]; exact h_other hpid

theorem open_handle_inside (i : Nat) (hd : HANDLE) (s : State) :
    Inside s (open_handle i hd s) :=
  ⟨_, (open_handle_frame i hd s).2.2.2.2.2.2.2.2.2.2.2.2.2.2.2.2.2.2.2.2, by simp [Quiet]⟩

theorem loop_body_inside (k : Kernel) (fuel : Nat) (dwPid : DWORD) (hProcess : HANDLE)
    (i : Nat) (hHandle : SYSTEM_HANDLE_TABLE_ENTRY_INFO_EX) (s s1 : State)
    (h : loop_body k fuel dwPid hProcess i hHandle s = some s1) : Inside s s1 := by
  revert h
  refine loop_body_cases k fuel dwPid hProcess i hHandle s
    (fun r => r = some s1 → Inside s s1) ?_ ?_ ?_ ?_ ?_
  · intro _ h
    simp only [Option.some.injEq] at h
    subst h; exact Inside_refl _
  · intro _ _ h
    simp only [Option.some.injEq] at h
    subst h; exact ⟨_, rfl, by simp [Quiet]⟩
  · intro _ _ _ _ h; cases h
  · intro hd s3 _ _ hn h
    simp only [Option.some.injEq] at h
    subst h
    exact Inside_trans (open_handle_inside i hd s) (name_loop_inside k i _ _ _ _ _ hn)
  · intro hd s3 _ _ hn h
    simp only [Option.some.injEq] at h
    subst h
    exact Inside_trans (open_handle_inside i hd s)
      (Inside_trans (name_loop_inside k i _ _ _ _ _ hn) (convert_and_append_inside k i s3))

theorem handle_loop_inside (k : Kernel) (fuel : Nat) (dwPid : DWORD) (hProcess : HANDLE) :
    ∀ (recs : List SYSTEM_HANDLE_TABLE_ENTRY_INFO_EX) (i : Nat) (s s' : State),
      handle_loop k fuel dwPid hProcess i recs s = some s' → Inside s s' := by
  intro recs
  induction recs with
  | nil =>
    intro i s s' h
    simp only [handle_loop, Option.some.injEq] at h
    subst h
    exact Inside_refl _
  | cons r rest ih =>
    intro i s s' h
    unfold handle_loop at h
    rcases hb : loop_body k fuel dwPid hProcess i r s with _ | s1
    · rw [hb] at h; cases h
    · rw [hb] at h
      exact Inside_trans (loop_body_inside k fuel dwPid hProcess i r s s1 hb)
        (Inside_trans (loop_cleanup_inside s1) (ih _ _ _ h))

theorem snapshot_round_inside (k : Kernel) (n : Nat) (s : State) :
    Inside s (snapshot_round k n s).2 := by
  cases hp : s.pHandleInfo <;> cases ha : k.heapAllocInfo n (s.dwInfoSize * 2 % 4294967296) <;>
    simp [Inside, Quiet, snapshot_round, hp, ha, MALLOC_ZERO, FREE, emit, PyErr_Set]

theorem snapshot_loop_inside (k : Kernel) :
    ∀ (fuel n : Nat) (s : State) (e : Exit) (st : NTSTATUS) (s' : State),
      snapshot_loop k fuel n s = some (e, st, s') → Inside s s' := by
  intro fuel
  induction fuel with
  | zero => intro n s e st s' h; simp [snapshot_loop] at h
  | succ fuel ih =>
    intro n s e st s' h
    unfold snapshot_loop at h
    have hr := snapshot_round_inside k n s
    rcases hn : snapshot_round k n s with ⟨_ | status, s1⟩
    · rw [hn] at h hr
      simp only [Option.some.injEq, Prod.mk.injEq] at h
      obtain ⟨_, _, rfl⟩ := h
      exact hr
    · rw [hn] at h hr
      by_cases hst : status = STATUS_INFO_LENGTH_MISMATCH
      · simp only [hst, if_true] at h
        exact Inside_trans hr (ih _ _ _ _ _ h)
      · simp only [hst, if_false, Option.some.injEq, Prod.mk.injEq] at h
        obtain ⟨_, _, rfl⟩ := h
        exact hr

/-- Case analysis on the snapshot phase. -/
theorem snapshot_cases (k : Kernel) (fuel : Nat) (s : State)
    (P : Option (Exit × State) → Prop)
    (h_diverge : snapshot_loop k fuel 0 s = none → P none)
    (h_nomem : ∀ st s1, snapshot_loop k fuel 0 s = some (Exit.jump, st, s1) →
      P (some (Exit.jump, s1)))
    (h_failed : ∀ st s1, snapshot_loop k fuel 0 s = some (Exit.done, st, s1) →
      NT_SUCCESS st = false →
      P (some (Exit.jump, { (PyErr_Set (PyErr.ntStatus st) s1) with error := true })))
    (h_ok : ∀ st s1, snapshot_loop k fuel 0 s = some (Exit.done, st, s1) →
      NT_SUCCESS st = true → P (some (Exit.done, s1))) :
    P (snapshot k fuel s) := by
  unfold snapshot
  rcases hn : snapshot_loop k fuel 0 s with _ | ⟨e1, st, s1⟩
  · exact h_diverge hn
  · cases e1 with
    | jump => exact h_nomem st s1 hn
    | done =>
      cases hs : NT_SUCCESS st
      · simpa [hs] using h_failed st s1 hn hs
      · simpa [hs] using h_ok st s1 hn hs

theorem snapshot_inside (k : Kernel) (fuel : Nat) (s : State) (e : Exit) (s' : State)
    (h : snapshot k fuel s = some (e, s')) : Inside s s' := by
  revert h
  refine snapshot_cases k fuel s (fun r => r = some (e, s') → Inside s s') ?_ ?_ ?_ ?_
  · intro _ h; cases h
  · intro st s1 hn h
    simp only [Option.some.injEq, Prod.mk.injEq] at h
    obtain ⟨_, rfl⟩ := h
    exact snapshot_loop_inside k _ _ _ _ _ _ hn
  · intro st s1 hn _ h
    simp only [Option.some.injEq, Prod.mk.injEq] at h
    obtain ⟨_, rfl⟩ := h
    exact Inside_trans (snapshot_loop_inside k _ _ _ _ _ _ hn)
      ⟨[Event.PyErrSet (PyErr.ntStatus st)], rfl, by simp [Quiet]⟩
  · intro st s1 hn _ h
    simp only [Option.some.injEq, Prod.mk.injEq] at h
    obtain ⟨_, rfl⟩ := h
    exact snapshot_loop_inside k _ _ _ _ _ _ hn

/-- Case analysis on the guarded region. -/
theorem guarded_cases (k : Kernel) (fuel : Nat) (dwPid : DWORD) (hProcess : HANDLE)
    (s : State) (P : Option State → Prop)
    (h_noevent : (s.g_hEvtStart = none ∨ s.g_hEvtFinish = none) →
      P (some { (PyErr_Set (PyErr.windowsErr 0) s) with error := true }))
    (h_nolist : ¬(s.g_hEvtStart = none ∨ s.g_hEvtFinish = none) → k.pyListNew = false →
      P (some { (py_list_new k s) with error := true, pyErr := some PyErr.raisedByPython }))
    (h_diverge : ¬(s.g_hEvtStart = none ∨ s.g_hEvtFinish = none) → k.pyListNew = true →
      snapshot k fuel (py_list_new k s) = none → P none)
    (h_nosnap : ∀ s2, ¬(s.g_hEvtStart = none ∨ s.g_hEvtFinish = none) → k.pyListNew = true →
      snapshot k fuel (py_list_new k s) = some (Exit.jump, s2) → P (some s2))
    (h_loop : ∀ s2, ¬(s.g_hEvtStart = none ∨ s.g_hEvtFinish = none) → k.pyListNew = true →
      snapshot k fuel (py_list_new k s) = some (Exit.done, s2) →
      P (handle_loop k fuel dwPid hProcess 0 k.handles s2)) :
    P (guarded k fuel dwPid hProcess s) := by
  unfold guarded
  by_cases hev : s.g_hEvtStart = none ∨ s.g_hEvtFinish = none
  · simp only [hev, if_true]; exact h_noevent hev
  · simp only [hev, if_false]
    cases hl : k.pyListNew
    · have : (py_list_new k s).py_retlist = none := by simp [py_list_new, emit, hl]
      rw [if_pos this]
      exact h_nolist hev hl
    · have : (py_list_new k s).py_retlist ≠ none := by simp [py_list_new, emit, hl]
      rw [if_neg this]
      rcases hs : snapshot k fuel (py_list_new k s) with _ | ⟨e, s2⟩
      · exact h_diverge hev hl hs
      · cases e with
        | jump => exact h_nosnap s2 hev hl hs
        | done => exact h_loop s2 hev hl hs

theorem py_list_new_inside (k : Kernel) (s : State) : Inside s (py_list_new k s) :=
  ⟨[Event.PyListNew k.pyListNew], rfl, by simp [Quiet]⟩

theorem guarded_inside (k : Kernel) (fuel : Nat) (dwPid : DWORD) (hProcess : HANDLE)
    (s s' : State) (h : guarded k fuel dwPid hProcess s = some s') : Inside s s' := by
  revert h
  refine guarded_cases k fuel dwPid hProcess s (fun r => r = some s' → Inside s s')
    ?_ ?_ ?_ ?_ ?_
  · intro _ h
    simp only [Option.some.injEq] at h
    subst h
    exact ⟨[Event.PyErrSet (PyErr.windowsErr 0)], rfl, by simp [Quiet]⟩
  · intro _ _ h
    simp only [Option.some.injEq] at h
    subst h
    exact ⟨[Event.PyListNew k.pyListNew], rfl, by simp [Quiet]⟩
  · intro _ _ _ h; cases h
  · intro s2 _ _ hs h
    simp only [Option.some.injEq] at h
    subst h
    exact Inside_trans (py_list_new_inside k s) (snapshot_inside k fuel _ _ _ hs)
  · intro s2 _ _ hs h
    exact Inside_trans (py_list_new_inside k s) (Inside_trans (snapshot_inside k fuel _ _ _ hs)
      (handle_loop_inside k fuel dwPid hProcess _ _ _ _ h))

theorem cleanup_eq (s : State) :
    cleanup s
      = (if s.error then none else s.py_retlist,
         { s with
          g_pNameBuffer := none, g_dwSize := 0, g_dwLength := 0, g_hFile := none,
          pHandleInfo := none,
          py_retlist := if s.error then none else s.py_retlist,
          heap := (match s.pHandleInfo with
            | some q => (loop_cleanup s).heap.erase q
            | none => (loop_cleanup s).heap),
          dupHandles := (loop_cleanup s).dupHandles,
          faults := (loop_cleanup s).faults
            + (match s.pHandleInfo with
              | some q => if q ∈ (loop_cleanup s).heap then 0 else 1
              | none => 0),
          trace := s.trace ++ cleanupEvents s.g_pNameBuffer s.g_hFile
            ++ (match s.pHandleInfo with
              | some q => [Event.HeapFree q]
              | none => [])
            ++ [Event.LeaveCriticalSection] }) := by
  rw [loop_cleanup_eq]
  cases hb : s.g_pNameBuffer <;> cases hh : s.g_hFile <;> cases hp : s.pHandleInfo <;>
    cases he : s.error <;>
    simp [cleanup, hb, hh, hp, he, set_g_hFile, set_g_dwLength, set_g_dwSize, set_g_pNameBuffer,
      FREE, CloseHandle, emit, cleanupEvents] <;>
    (repeat' split) <;> rfl

theorem cleanup_trace (s : State) :
    ∃ d, (cleanup s).2.trace = s.trace ++ d ++ [Event.LeaveCriticalSection] ∧ Quiet d := by
  rw [cleanup_eq]
  refine ⟨cleanupEvents s.g_pNameBuffer s.g_hFile ++ (match s.pHandleInfo with
              | some q => [Event.HeapFree q]
              | none => []), by simp, Quiet_append _ _ (Quiet_cleanupEvents _ _) ?_⟩
  cases s.pHandleInfo <;> simp [Quiet]

/-- The trace of a call that returns: the entry trace followed by `pre`,
`EnterCriticalSection`, `mid` and `LeaveCriticalSection`, where neither `pre`
nor `mid` enters or leaves the critical section and `pre`, the lazy
initialisation, contains no guarded event. -/
theorem call_trace (k : Kernel) (fuel : Nat) (dwPid : DWORD) (hProcess : HANDLE)
    (s : State) (r : Option (List PyStr) × State)
    (h : psutil_get_open_files k fuel dwPid hProcess s = some r) :
    ∃ pre mid, r.2.trace
        = s.trace ++ pre ++ [Event.EnterCriticalSection] ++ mid ++ [Event.LeaveCriticalSection] ∧
      (∀ e ∈ pre, e.guarded = false) ∧ Quiet pre ∧ Quiet mid := by
  unfold psutil_get_open_files at h
  simp only at h
  split at h
  · cases h
  · rename_i s3 hg
    simp only [Option.some.injEq] at h
    subst h
    obtain ⟨d1, e1, q1⟩ := guarded_inside k fuel dwPid hProcess _ _ hg
    obtain ⟨d2, e2, q2⟩ := cleanup_trace s3
    by_cases hi : s.g_initialized = true
    · refine ⟨[], d1 ++ d2, ?_, by simp, Quiet_nil, Quiet_append _ _ q1 q2⟩
      rw [e2, e1]
      simp [hi, emit]
    · refine ⟨[Event.CreateEvent k.createEventStart, Event.CreateEvent k.createEventFinish,
        Event.InitCriticalSection], d1 ++ d2, ?_, by simp [Event.guarded], by simp [Quiet],
        Quiet_append _ _ q1 q2⟩
      rw [e2, e1]
      simp [hi, emit, psutil_get_open_files_init]

/-! ## Resources -/

theorem release_name_buffer_resources (s : State) (Hb : List Nat)
    (h : s.heap = (match s.g_pNameBuffer with
      | some b => b :: Hb
      | none => Hb)) :
    (release_name_buffer s).heap = Hb ∧ (release_name_buffer s).faults = s.faults := by
  rw [release_name_buffer_eq]
  cases hb : s.g_pNameBuffer <;> simp [hb] at h ⊢ <;> simp [h]

theorem name_round_holding (k : Kernel) (i j : Nat) (s : State) (Hb : List Nat)
    (D : List HANDLE) (F : Nat) (h : HANDLE) (hs : Holding Hb D F h s) :
    Holding Hb D F h (name_round k i j s).2 ∧
      (name_round k i j s).2.pHandleInfo = s.pHandleInfo := by
  obtain ⟨h1, h2, h3, h4⟩ := hs
  obtain ⟨r1, r2⟩ := release_name_buffer_resources s Hb h4
  have hf := release_name_buffer_frame s
  refine name_round_cases k i j s (fun r => Holding Hb D F h r.2 ∧
    r.2.pHandleInfo = s.pHandleInfo) ?_ ?_ ?_ ?_ ?_ ?_ ?_ ?_
  · intro _; simp [Holding, hf, h1, h2, h3, r1, r2]
  · intro _ _; simp [Holding, hf, h1, h2, h3, r1, r2]
  · intro err _ _ _ _; simp [Holding, hf, h1, h2, h3, r1, r2]
  · intro t _ _ _ _; simp [Holding, hf, h1, h2, h3, r1, r2]
  · intro t st len name _ _ _ _ _; simp [Holding, hf, h1, h2, h3, r1, r2]
  · intro t _ _ _ _ _; simp [Holding, hf, h1, h2, h3, r1, r2]
  · intro t st len name _ _ _ _ _; simp [Holding, hf, h1, h2, h3, r1, r2]
  · intro t _ _ _ _ _; simp [Holding, hf, h1, h2, h3, r1, r2]

theorem name_loop_holding (k : Kernel) (i : Nat) (Hb : List Nat) (D : List HANDLE) (F : Nat)
    (h : HANDLE) :
    ∀ (fuel j : Nat) (s : State) (e : Exit) (s' : State),
      name_loop k i fuel j s = some (e, s') → Holding Hb D F h s →
      Holding Hb D F h s' ∧ s'.pHandleInfo = s.pHandleInfo := by
  intro fuel
  induction fuel with
  | zero => intro j s e s' hn; simp [name_loop] at hn
  | succ fuel ih =>
    intro j s e s' hn hs
    unfold name_loop at hn
    have hr := name_round_holding k i j s Hb D F h hs
    rcases hrd : name_round k i j s with ⟨e1, s1⟩
    rw [hrd] at hn hr
    cases e1 with
    | jump =>
      simp only [Option.some.injEq, Prod.mk.injEq] at hn
      obtain ⟨_, rfl⟩ := hn
      exact hr
    | done =>
      by_cases hst : s1.g_status = STATUS_INFO_LENGTH_MISMATCH
      · simp only [hst, if_true] at hn
        obtain ⟨g1, g2⟩ := ih _ _ _ _ hn hr.1
        exact ⟨g1, g2.trans hr.2⟩
      · simp only [hst, if_false, Option.some.injEq, Prod.mk.injEq] at hn
        obtain ⟨_, rfl⟩ := hn
        exact hr

/-- One round of the handle loop, with its `loop_cleanup`, gives back what it took:
the duplicated handle is closed and the name buffer freed, once each. -/
theorem iteration_resources (k : Kernel) (fuel : Nat) (dwPid : DWORD) (hProcess : HANDLE)
    (i : Nat) (hHandle : SYSTEM_HANDLE_TABLE_ENTRY_INFO_EX) (s s1 : State)
    (c1 : s.g_hFile = none) (c2 : s.g_pNameBuffer = none)
    (hb : loop_body k fuel dwPid hProcess i hHandle s = some s1) :
    (loop_cleanup s1).g_hFile = none ∧ (loop_cleanup s1).g_pNameBuffer = none ∧
      (loop_cleanup s1).dupHandles = s.dupHandles ∧ (loop_cleanup s1).heap = s.heap ∧
      (loop_cleanup s1).faults = s.faults ∧
      (loop_cleanup s1).pHandleInfo = s.pHandleInfo ∧
      (loop_cleanup s1).g_dwSize = 0 ∧ (loop_cleanup s1).g_dwLength = 0 := by
  revert hb
  refine loop_body_cases k fuel dwPid hProcess i hHandle s
    (fun r => r = some s1 → (loop_cleanup s1).g_hFile = none ∧
      (loop_cleanup s1).g_pNameBuffer = none ∧
      (loop_cleanup s1).dupHandles = s.dupHandles ∧ (loop_cleanup s1).heap = s.heap ∧
      (loop_cleanup s1).faults = s.faults ∧
      (loop_cleanup s1).pHandleInfo = s.pHandleInfo ∧
      (loop_cleanup s1).g_dwSize = 0 ∧ (loop_cleanup s1).g_dwLength = 0) ?_ ?_ ?_ ?_ ?_
  · intro _ hb
    simp only [Option.some.injEq] at hb
    subst hb
    rw [loop_cleanup_eq]
    simp [c1, c2]
  · intro _ _ hb
    simp only [Option.some.injEq] at hb
    subst hb
    rw [loop_cleanup_eq]
    simp [emit, c1, c2]
  · intro _ _ _ _ hb; cases hb
  · intro hd s3 _ _ hn hb
    simp only [Option.some.injEq] at hb
    subst hb
    have ho := open_handle_frame i hd s
    have hold : Holding s.heap s.dupHandles s.faults hd (open_handle i hd s) := by
      simp [Holding, ho, c2]
    obtain ⟨⟨g1, g2, g3, g4⟩, g5⟩ := name_loop_holding k i _ _ _ hd _ _ _ _ _ hn hold
    rw [loop_cleanup_eq]
    cases hbuf : s3.g_pNameBuffer <;> simp [hbuf] at g4 <;>
      simp [g1, g2, g3, g4, g5, ho, hbuf]
  · intro hd s3 _ _ hn hb
    simp only [Option.some.injEq] at hb
    subst hb
    have ho := open_handle_frame i hd s
    have hold : Holding s.heap s.dupHandles s.faults hd (open_handle i hd s) := by
      simp [Holding, ho, c2]
    obtain ⟨⟨g1, g2, g3, g4⟩, g5⟩ := name_loop_holding k i _ _ _ hd _ _ _ _ _ hn hold
    obtain ⟨f1, f2, _, f4, f5, f6, f7, _⟩ := convert_and_append_frame k i s3
    rw [loop_cleanup_eq]
    cases hbuf : s3.g_pNameBuffer <;> simp [hbuf] at g4 <;>
      simp [g1, g2, g3, g4, g5, ho, hbuf, f1, f2, f4, f5, f6, f7]

theorem iteration_clean (k : Kernel) (fuel : Nat) (dwPid : DWORD) (hProcess : HANDLE)
    (i : Nat) (hHandle : SYSTEM_HANDLE_TABLE_ENTRY_INFO_EX) (s s1 : State)
    (H : List Nat) (D : List HANDLE) (F : Nat) (hs : Clean H D F s)
    (hb : loop_body k fuel dwPid hProcess i hHandle s = some s1) :
    Clean H D F (loop_cleanup s1) ∧ (loop_cleanup s1).pHandleInfo = s.pHandleInfo ∧
      (loop_cleanup s1).g_dwSize = 0 ∧ (loop_cleanup s1).g_dwLength = 0 := by
  obtain ⟨c1, c2, c3, c4, c5⟩ := hs
  obtain ⟨g1, g2, g3, g4, g5, g6, g7, g8⟩ :=
    iteration_resources k fuel dwPid hProcess i hHandle s s1 c1 c2 hb
  exact ⟨⟨g1, g2, g3.trans c3, g5.trans c4, by rw [g4, g6]; exact c5⟩, g6, g7, g8⟩

theorem handle_loop_clean (k : Kernel) (fuel : Nat) (dwPid : DWORD) (hProcess : HANDLE)
    (H : List Nat) (D : List HANDLE) (F : Nat) :
    ∀ (recs : List SYSTEM_HANDLE_TABLE_ENTRY_INFO_EX) (i : Nat) (s s' : State),
      handle_loop k fuel dwPid hProcess i recs s = some s' → Clean H D F s →
      Clean H D F s' ∧ s'.pHandleInfo = s.pHandleInfo := by
  intro recs
  induction recs with
  | nil =>
    intro i s s' h hs
    simp only [handle_loop, Option.some.injEq] at h
    subst h
    exact ⟨hs, rfl⟩
  | cons r rest ih =>
    intro i s s' h hs
    unfold handle_loop at h
    rcases hb : loop_body k fuel dwPid hProcess i r s with _ | s1
    · rw [hb] at h; cases h
    · rw [hb] at h
      obtain ⟨g1, g2, _, _⟩ := iteration_clean k fuel dwPid hProcess i r s s1 H D F hs hb
      obtain ⟨f1, f2⟩ := ih _ _ _ h g1
      exact ⟨f1, f2.trans g2⟩

theorem snapshot_round_clean (k : Kernel) (n : Nat) (s : State) (H : List Nat)
    (D : List HANDLE) (F : Nat) (hs : Clean H D F s) :
    Clean H D F (snapshot_round k n s).2 ∧
      (snapshot_round k n s).2.g_dwSize = s.g_dwSize ∧
      (snapshot_round k n s).2.g_dwLength = s.g_dwLength := by
  obtain ⟨c1, c2, c3, c4, c5⟩ := hs
  cases hp : s.pHandleInfo <;> cases ha : k.heapAllocInfo n (s.dwInfoSize * 2 % 4294967296) <;>
    simp [hp] at c5 <;>
    simp [Clean, snapshot_round, hp, ha, MALLOC_ZERO, FREE, emit, PyErr_Set, c1, c2, c3, c4, c5]

theorem snapshot_loop_clean (k : Kernel) (H : List Nat) (D : List HANDLE) (F : Nat) :
    ∀ (fuel n : Nat) (s : State) (e : Exit) (st : NTSTATUS) (s' : State),
      snapshot_loop k fuel n s = some (e, st, s') → Clean H D F s →
      Clean H D F s' ∧ s'.g_dwSize = s.g_dwSize ∧ s'.g_dwLength = s.g_dwLength := by
  intro fuel
  induction fuel with
  | zero => intro n s e st s' h; simp [snapshot_loop] at h
  | succ fuel ih =>
    intro n s e st s' h hs
    unfold snapshot_loop at h
    have hr := snapshot_round_clean k n s H D F hs
    rcases hn : snapshot_round k n s with ⟨_ | status, s1⟩
    · rw [hn] at h hr
      simp only [Option.some.injEq, Prod.mk.injEq] at h
      obtain ⟨_, _, rfl⟩ := h
      exact hr
    · rw [hn] at h hr
      by_cases hst : status = STATUS_INFO_LENGTH_MISMATCH
      · simp only [hst, if_true] at h
        obtain ⟨g1, g2, g3⟩ := ih _ _ _ _ _ h hr.1
        exact ⟨g1, g2.trans hr.2.1, g3.trans hr.2.2⟩
      · simp only [hst, if_false, Option.some.injEq, Prod.mk.injEq] at h
        obtain ⟨_, _, rfl⟩ := h
        exact hr

theorem snapshot_clean (k : Kernel) (fuel : Nat) (s : State) (e : Exit) (s' : State)
    (H : List Nat) (D : List HANDLE) (F : Nat) (hs : Clean H D F s)
    (h : snapshot k fuel s = some (e, s')) : Clean H D F s' := by
  revert h
  refine snapshot_cases k fuel s (fun r => r = some (e, s') → Clean H D F s') ?_ ?_ ?_ ?_
  · intro _ h; cases h
  · intro st s1 hn h
    simp only [Option.some.injEq, Prod.mk.injEq] at h
    obtain ⟨_, rfl⟩ := h
    exact (snapshot_loop_clean k H D F _ _ _ _ _ _ hn hs).1
  · intro st s1 hn _ h
    simp only [Option.some.injEq, Prod.mk.injEq] at h
    obtain ⟨_, rfl⟩ := h
    have := (snapshot_loop_clean k H D F _ _ _ _ _ _ hn hs).1
    simpa [Clean, PyErr_Set] using this
  · intro st s1 hn _ h
    simp only [Option.some.injEq, Prod.mk.injEq] at h
    obtain ⟨_, rfl⟩ := h
    exact (snapshot_loop_clean k H D F _ _ _ _ _ _ hn hs).1

theorem guarded_clean (k : Kernel) (fuel : Nat) (dwPid : DWORD) (hProcess : HANDLE)
    (s s' : State) (H : List Nat) (D : List HANDLE) (F : Nat) (hs : Clean H D F s)
    (h : guarded k fuel dwPid hProcess s = some s') : Clean H D F s' := by
  have hl : Clean H D F (py_list_new k s) := by
    simpa [Clean, py_list_new, emit] using hs
  revert h
  refine guarded_cases k fuel dwPid hProcess s (fun r => r = some s' → Clean H D F s')
    ?_ ?_ ?_ ?_ ?_
  · intro _ h
    simp only [Option.some.injEq] at h
    subst h
    simpa [Clean, PyErr_Set] using hs
  · intro _ _ h
    simp only [Option.some.injEq] at h
    subst h
    simpa [Clean] using hl
  · intro _ _ _ h; cases h
  · intro s2 _ _ hsn h
    simp only [Option.some.injEq] at h
    subst h
    exact snapshot_clean k fuel _ _ _ H D F hl hsn
  · intro s2 _ _ hsn h
    exact (handle_loop_clean k fuel dwPid hProcess H D F _ _ _ _ h
      (snapshot_clean k fuel _ _ _ H D F hl hsn)).1

theorem cleanup_clean (s : State) (H : List Nat) (D : List HANDLE) (F : Nat)
    (hs : Clean H D F s) :
    (cleanup s).2.g_hFile = none ∧ (cleanup s).2.g_pNameBuffer = none ∧
    (cleanup s).2.g_dwSize = 0 ∧ (cleanup s).2.g_dwLength = 0 ∧
    (cleanup s).2.pHandleInfo = none ∧ (cleanup s).2.heap = H ∧
    (cleanup s).2.dupHandles = D ∧ (cleanup s).2.faults = F := by
  obtain ⟨c1, c2, c3, c4, c5⟩ := hs
  rw [cleanup_eq, loop_cleanup_eq]
  cases hp : s.pHandleInfo <;> simp [hp] at c5 <;> simp [c1, c2, c3, c4, c5, hp]

/-- One call gives back every resource it took. -/
theorem call_clean (k : Kernel) (fuel : Nat) (dwPid : DWORD) (hProcess : HANDLE)
    (s : State) (r : Option (List PyStr) × State)
    (hfile : s.g_hFile = none) (hbuf : s.g_pNameBuffer = none)
    (h : psutil_get_open_files k fuel dwPid hProcess s = some r) :
    r.2.g_hFile = none ∧ r.2.g_pNameBuffer = none ∧ r.2.g_dwSize = 0 ∧ r.2.g_dwLength = 0 ∧
    r.2.pHandleInfo = none ∧ r.2.heap = s.heap ∧ r.2.dupHandles = s.dupHandles ∧
    r.2.faults = s.faults := by
  unfold psutil_get_open_files at h
  simp only at h
  split at h
  · cases h
  · rename_i s3 hg
    simp only [Option.some.injEq] at h
    subst h
    refine cleanup_clean s3 s.heap s.dupHandles s.faults
      (guarded_clean k fuel dwPid hProcess _ _ _ _ _ ?_ hg)
    by_cases hi : s.g_initialized = true
    · simp [Clean, emit, hi, hfile, hbuf]
    · simp [Clean, emit, hi, hfile, hbuf, psutil_get_open_files_init]

theorem calls_clean : ∀ (cs : List Call) (s s' : State), calls cs s = some s' →
    s.g_hFile = none → s.g_pNameBuffer = none →
    s'.g_hFile = none ∧ s'.g_pNameBuffer = none ∧ s'.heap = s.heap ∧
    s'.dupHandles = s.dupHandles ∧ s'.faults = s.faults := by
  intro cs
  induction cs with
  | nil =>
    intro s s' h h1 h2
    simp only [calls, Option.some.injEq] at h
    subst h
    exact ⟨h1, h2, rfl, rfl, rfl⟩
  | cons c rest ih =>
    intro s s' h h1 h2
    unfold calls at h
    rcases hc : psutil_get_open_files c.kernel c.fuel c.dwPid c.hProcess s with _ | r
    · rw [hc] at h; cases h
    · rw [hc] at h
      obtain ⟨g1, g2, _, _, _, g6, g7, g8⟩ :=
        call_clean c.kernel c.fuel c.dwPid c.hProcess s r h1 h2 hc
      obtain ⟨f1, f2, f3, f4, f5⟩ := ih _ _ h g1 g2
      exact ⟨f1, f2, f3.trans g6, f4.trans g7, f5.trans g8⟩

/-- C6: no per-call resource survives a call.
(1) A call entered with `g_hFile` and `g_pNameBuffer` NULL returns, on every exit
path, with `g_hFile = NULL`, `g_pNameBuffer = NULL`, `g_dwSize = 0`,
`g_dwLength = 0`, the snapshot buffer freed, the heap and the open duplicated
handles as on entry and no fault counted: nothing was freed or closed twice, or
without being live.
(2) Every round of the handle loop gives back, by the end of its `loop_cleanup`,
the handle it duplicated and the name buffers it allocated.
(3) After any sequence of calls from the initial state nothing is held: the heap
and the set of duplicated handles are empty and no fault was counted. -/
theorem no_resource_survives :
    (∀ (k : Kernel) (fuel : Nat) (dwPid : DWORD) (hProcess : HANDLE) (s : State)
      (r : Option (List PyStr) × State),
      s.g_hFile = none → s.g_pNameBuffer = none →
      psutil_get_open_files k fuel dwPid hProcess s = some r →
      r.2.g_hFile = none ∧ r.2.g_pNameBuffer = none ∧ r.2.g_dwSize = 0 ∧
      r.2.g_dwLength = 0 ∧ r.2.pHandleInfo = none ∧ r.2.heap = s.heap ∧
      r.2.dupHandles = s.dupHandles ∧ r.2.faults = s.faults) ∧
    (∀ (k : Kernel) (fuel : Nat) (dwPid : DWORD) (hProcess : HANDLE) (i : Nat)
      (hHandle : SYSTEM_HANDLE_TABLE_ENTRY_INFO_EX) (s s1 : State),
      s.g_hFile = none → s.g_pNameBuffer = none →
      loop_body k fuel dwPid hProcess i hHandle s = some s1 →
      (loop_cleanup s1).g_hFile = none ∧ (loop_cleanup s1).g_pNameBuffer = none ∧
      (loop_cleanup s1).dupHandles = s.dupHandles ∧ (loop_cleanup s1).heap = s.heap ∧
      (loop_cleanup s1).faults = s.faults) ∧
    (∀ (cs : List Call) (s' : State), calls cs State.initial = some s' →
      s'.g_hFile = none ∧ s'.g_pNameBuffer = none ∧ s'.heap = [] ∧ s'.dupHandles = [] ∧
      s'.faults = 0) := by
  refine ⟨?_, ?_, ?_⟩
  · intro k fuel dwPid hProcess s r h1 h2 h
    exact call_clean k fuel dwPid hProcess s r h1 h2 h
  · intro k fuel dwPid hProcess i hHandle s s1 h1 h2 h
    obtain ⟨g1, g2, g3, g4, g5, _⟩ :=
      iteration_resources k fuel dwPid hProcess i hHandle s s1 h1 h2 h
    exact ⟨g1, g2, g3, g4, g5⟩
  · intro cs s' h
    exact calls_clean cs State.initial s' h rfl rfl

/-! ## The returned list -/

theorem workerFor_isSome (k : Kernel) (i j : Nat) (g : Option HANDLE) :
    (workerFor k i j g).isSome = Spec.workerAvailable k i j g.isSome := by
  cases g <;> cases hc : k.createThread i j <;> simp [workerFor, Spec.workerAvailable, hc]

/-- One attempt of the retry loop, entered with `g_hEvtFinish` not signalled,
against one step of `Spec.resolve`. -/
theorem name_round_spec (k : Kernel) (i j : Nat) (s : State)
    (hs : s.finishSignalled = false) :
    (name_round k i j s).2.py_retlist = s.py_retlist ∧
    (name_round k i j s).2.error = s.error ∧
    (name_round k i j s).2.g_hFile = s.g_hFile ∧
    ((name_round k i j s).1 = Exit.jump → ∀ fuel,
      Spec.resolve k i s.g_hFile (fuel + 1) j s.g_dwLength s.g_hThread.isSome
        = (none, (name_round k i j s).2.g_hThread.isSome)) ∧
    ((name_round k i j s).1 = Exit.done →
      (name_round k i j s).2.g_status ≠ STATUS_INFO_LENGTH_MISMATCH → ∀ fuel,
      Spec.resolve k i s.g_hFile (fuel + 1) j s.g_dwLength s.g_hThread.isSome
        = (if NT_SUCCESS (name_round k i j s).2.g_status
            then some (name_round k i j s).2.nameBuffer else none,
           (name_round k i j s).2.g_hThread.isSome)) ∧
    ((name_round k i j s).1 = Exit.done →
      (name_round k i j s).2.g_status = STATUS_INFO_LENGTH_MISMATCH → ∀ fuel,
      Spec.resolve k i s.g_hFile (fuel + 1) j s.g_dwLength s.g_hThread.isSome
        = Spec.resolve k i s.g_hFile fuel (j + 1) (name_round k i j s).2.g_dwLength
            (name_round k i j s).2.g_hThread.isSome) ∧
    ((∀ st len name,
        k.ntQueryObject i j s.g_hFile s.g_dwLength ≠ WorkerReply.late st len name) →
      (name_round k i j s).2.finishSignalled = false) := by
  have hf := release_name_buffer_frame s
  have hfs := release_name_buffer_finish s
  refine name_round_cases k i j s (fun r =>
    r.2.py_retlist = s.py_retlist ∧ r.2.error = s.error ∧ r.2.g_hFile = s.g_hFile ∧
    (r.1 = Exit.jump → ∀ fuel,
      Spec.resolve k i s.g_hFile (fuel + 1) j s.g_dwLength s.g_hThread.isSome
        = (none, r.2.g_hThread.isSome)) ∧
    (r.1 = Exit.done → r.2.g_status ≠ STATUS_INFO_LENGTH_MISMATCH → ∀ fuel,
      Spec.resolve k i s.g_hFile (fuel + 1) j s.g_dwLength s.g_hThread.isSome
        = (if NT_SUCCESS r.2.g_status then some r.2.nameBuffer else none,
           r.2.g_hThread.isSome)) ∧
    (r.1 = Exit.done → r.2.g_status = STATUS_INFO_LENGTH_MISMATCH → ∀ fuel,
      Spec.resolve k i s.g_hFile (fuel + 1) j s.g_dwLength s.g_hThread.isSome
        = Spec.resolve k i s.g_hFile fuel (j + 1) r.2.g_dwLength r.2.g_hThread.isSome) ∧
    ((∀ st len name,
        k.ntQueryObject i j s.g_hFile s.g_dwLength ≠ WorkerReply.late st len name) →
      r.2.finishSignalled = false))
    ?_ ?_ ?_ ?_ ?_ ?_ ?_ ?_
  · intro hL
    simp [hf, hfs, hs, Spec.resolve, hL]
  · intro hL ha
    simp [hf, hfs, hs, Spec.resolve, hL, ha]
  · intro err hL ha ht hc
    simp [hf, hfs, hs, Spec.resolve, hL, ha, ht, hc, Spec.workerAvailable]
  · intro t _ _ _ h; rw [hs] at h; cases h
  · intro t st len name hL ha hw _ hr
    have hw' : Spec.workerAvailable k i j s.g_hThread.isSome = true := by
      rw [← workerFor_isSome, hw]; rfl
    refine ⟨by simp [hf], by simp [hf], by simp [hf], by simp, ?_, ?_, fun _ => rfl⟩
    · intro _ hst fuel
      simp only at hst
      simp [Spec.resolve, hL, ha, hw', hr, hst]
    · intro _ hst fuel
      simp only at hst
      simp [Spec.resolve, hL, ha, hw', hr, hst]
  · intro t hL ha hw _ hr
    have hw' : Spec.workerAvailable k i j s.g_hThread.isSome = true := by
      rw [← workerFor_isSome, hw]; rfl
    simp [hf, hfs, hs, Spec.resolve, hL, ha, hw', hr]
  · intro t st len name hL ha hw _ hr
    have hw' : Spec.workerAvailable k i j s.g_hThread.isSome = true := by
      rw [← workerFor_isSome, hw]; rfl
    refine ⟨by simp [hf], by simp [hf], by simp [hf], ?_, by simp, by simp,
      fun h => absurd hr (h st len name)⟩
    intro _ fuel
    simp [Spec.resolve, hL, ha, hw', hr]
  · intro t hL ha hw _ hr
    have hw' : Spec.workerAvailable k i j s.g_hThread.isSome = true := by
      rw [← workerFor_isSome, hw]; rfl
    simp [hf, hfs, hs, Spec.resolve, hL, ha, hw', hr]

/-- The retry loop, entered with `g_hEvtFinish` not signalled, against
`Spec.resolve`: when the loop returns, any fuel at least as large gives
`Spec.resolve` the same answer; the event is not signalled afterwards unless a
reply was late. -/
theorem name_loop_spec (k : Kernel) (i : Nat) :
    ∀ (fuel j : Nat) (s : State) (e : Exit) (s' : State),
      s.finishSignalled = false → name_loop k i fuel j s = some (e, s') →
      s'.py_retlist = s.py_retlist ∧ s'.error = s.error ∧
      ((∀ j h size st len name, k.ntQueryObject i j h size ≠ WorkerReply.late st len name) →
        s'.finishSignalled = false) ∧
      ∀ fuel', fuel ≤ fuel' →
        Spec.resolve k i s.g_hFile fuel' j s.g_dwLength s.g_hThread.isSome
          = (if e = Exit.done ∧ NT_SUCCESS s'.g_status = true then some s'.nameBuffer else none,
             s'.g_hThread.isSome) := by
  intro fuel
  induction fuel with
  | zero => intro j s e s' _ h; simp [name_loop] at h
  | succ fuel ih =>
    intro j s e s' hs h
    unfold name_loop at h
    obtain ⟨g1, g2, g3, g4, g5, g6, g7⟩ := name_round_spec k i j s hs
    have g8 := (name_round_delta k i j s).choose_spec.2.2.2
    rcases hr : name_round k i j s with ⟨e1, s1⟩
    rw [hr] at h g1 g2 g3 g4 g5 g6 g7 g8
    cases e1 with
    | jump =>
      simp only [Option.some.injEq, Prod.mk.injEq] at h
      obtain ⟨rfl, rfl⟩ := h
      refine ⟨g1, g2, fun hl => g7 (fun st len name => hl _ _ _ st len name), ?_⟩
      intro fuel' hf
      obtain ⟨f, rfl⟩ : ∃ f, fuel' = f + 1 := ⟨fuel' - 1, by omega⟩
      rw [g4 rfl f]
      simp
    | done =>
      by_cases hst : s1.g_status = STATUS_INFO_LENGTH_MISMATCH
      · simp only [hst, if_true] at h
        obtain ⟨f1, f2, f3, f4⟩ := ih _ _ _ _ (g8 rfl).2.1 h
        refine ⟨f1.trans g1, f2.trans g2, f3, ?_⟩
        intro fuel' hf
        obtain ⟨f, rfl⟩ : ∃ f, fuel' = f + 1 := ⟨fuel' - 1, by omega⟩
        rw [g6 rfl hst f, ← g3]
        exact f4 f (by omega)
      · simp only [hst, if_false, Option.some.injEq, Prod.mk.injEq] at h
        obtain ⟨rfl, rfl⟩ := h
        refine ⟨g1, g2, fun _ => (g8 rfl).2.1, ?_⟩
        intro fuel' hf
        obtain ⟨f, rfl⟩ : ∃ f, fuel' = f + 1 := ⟨fuel' - 1, by omega⟩
        rw [g5 rfl hst f]
        simp

theorem convert_and_append_spec (k : Kernel) (i : Nat) (s : State) (l : List PyStr)
    (hl : s.py_retlist = some l) :
    ∃ l2, (convert_and_append k i s).py_retlist = some l2 ∧
      ((convert_and_append k i s).error = false → s.error = false ∧
        l2 = l ++ (if NT_SUCCESS s.g_status = true ∧ 0 < s.nameBuffer.Length
          then [PyUnicode_FromWideChar s.nameBuffer] else [])) := by
  unfold convert_and_append
  by_cases h1 : NT_SUCCESS s.g_status = true <;> by_cases h2 : 0 < s.nameBuffer.Length <;>
    cases h3 : k.pyUnicodeFromWideChar i <;> cases h4 : k.pyListAppend i <;>
    simp [h1, h2, h3, h4, emit, hl]

/-- One round of the handle loop, entered with `g_hEvtFinish` not signalled,
against `Spec.entry`. -/
theorem iteration_spec (k : Kernel) (fuel : Nat) (dwPid : DWORD) (hProcess : HANDLE)
    (i : Nat) (hHandle : SYSTEM_HANDLE_TABLE_ENTRY_INFO_EX) (s s1 : State) (l : List PyStr)
    (hs : s.finishSignalled = false)
    (hl : s.py_retlist = some l)
    (hb : loop_body k fuel dwPid hProcess i hHandle s = some s1) :
    (∃ l2, s1.py_retlist = some l2 ∧
      (s1.error = false → s.error = false ∧ ∀ fuel', fuel ≤ fuel' →
        l2 = l ++ (Spec.entry k dwPid hProcess fuel' i hHandle s.g_hThread.isSome).1)) ∧
    (punctual k → s1.finishSignalled = false) ∧
    ∀ fuel', fuel ≤ fuel' →
      s1.g_hThread.isSome = (Spec.entry k dwPid hProcess fuel' i hHandle s.g_hThread.isSome).2 := by
  revert hb
  refine loop_body_cases k fuel dwPid hProcess i hHandle s
    (fun r => r = some s1 → (∃ l2, s1.py_retlist = some l2 ∧
      (s1.error = false → s.error = false ∧ ∀ fuel', fuel ≤ fuel' →
        l2 = l ++ (Spec.entry k dwPid hProcess fuel' i hHandle s.g_hThread.isSome).1)) ∧
      (punctual k → s1.finishSignalled = false) ∧
      ∀ fuel', fuel ≤ fuel' →
        s1.g_hThread.isSome
          = (Spec.entry k dwPid hProcess fuel' i hHandle s.g_hThread.isSome).2) ?_ ?_ ?_ ?_ ?_
  · intro hpid hb
    simp only [Option.some.injEq] at hb
    subst hb
    simp [Spec.entry, hpid, hl, hs]
  · intro hpid hdup hb
    simp only [Option.some.injEq] at hb
    subst hb
    simp [Spec.entry, hpid, hdup, hl, emit, hs]
  · intro _ _ _ _ hb; cases hb
  · intro hd s3 hpid hdup hn hb
    simp only [Option.some.injEq] at hb
    subst hb
    have ho := open_handle_frame i hd s
    obtain ⟨g1, g2, g0, g3⟩ := name_loop_spec k i _ _ _ _ _
      (by rw [open_handle_finish]; exact hs) hn
    simp only [ho] at g1 g2 g3
    refine ⟨⟨l, g1.trans hl, fun he => ⟨g2 ▸ he, fun fuel' hf => ?_⟩⟩,
      fun hp => g0 (fun j h size st len name => hp i j h size st len name),
      fun fuel' hf => ?_⟩
    · simp [Spec.entry, hpid, hdup, g3 fuel' hf]
    · simp [Spec.entry, hpid, hdup, g3 fuel' hf]
  · intro hd s3 hpid hdup hn hb
    simp only [Option.some.injEq] at hb
    subst hb
    have ho := open_handle_frame i hd s
    obtain ⟨g1, g2, g0, g3⟩ := name_loop_spec k i _ _ _ _ _
      (by rw [open_handle_finish]; exact hs) hn
    simp only [ho] at g1 g2 g3
    obtain ⟨l2, f1, f2⟩ := convert_and_append_spec k i s3 l (g1.trans hl)
    obtain ⟨_, _, c3, _⟩ := convert_and_append_frame k i s3
    refine ⟨⟨l2, f1, fun he => ?_⟩, fun hp => ?_, fun fuel' hf => ?_⟩
    · obtain ⟨f3, f4⟩ := f2 he
      refine ⟨g2 ▸ f3, fun fuel' hf => ?_⟩
      rw [f4]
      by_cases hs : NT_SUCCESS s3.g_status = true <;>
        by_cases hlen : 0 < s3.nameBuffer.Length <;>
        simp [Spec.entry, hpid, hdup, g3 fuel' hf, hs, hlen]
    · rw [convert_and_append_finish]
      exact g0 (fun j h size st len name => hp i j h size st len name)
    · rw [c3]
      simp [Spec.entry, hpid, hdup, g3 fuel' hf]

theorem loop_cleanup_output (s : State) :
    (loop_cleanup s).py_retlist = s.py_retlist ∧ (loop_cleanup s).error = s.error ∧
      (loop_cleanup s).g_hThread = s.g_hThread := by
  rw [loop_cleanup_eq]; simp

/-- The handle loop, under a punctual kernel and entered with `g_hEvtFinish` not
signalled, against `Spec.names`. -/
theorem handle_loop_spec (k : Kernel) (fuel : Nat) (dwPid : DWORD) (hProcess : HANDLE)
    (hp : punctual k) :
    ∀ (recs : List SYSTEM_HANDLE_TABLE_ENTRY_INFO_EX) (i : Nat) (s s' : State)
      (l : List PyStr),
      s.finishSignalled = false →
      handle_loop k fuel dwPid hProcess i recs s = some s' → s.py_retlist = some l →
      ∃ l', s'.py_retlist = some l' ∧
        (s'.error = false → s.error = false ∧ ∀ fuel', fuel ≤ fuel' →
          l' = l ++ Spec.names k dwPid hProcess fuel' i recs s.g_hThread.isSome) := by
  intro recs
  induction recs with
  | nil =>
    intro i s s' l _ h hl
    simp only [handle_loop, Option.some.injEq] at h
    subst h
    exact ⟨l, hl, fun he => ⟨he, fun _ _ => by simp [Spec.names]⟩⟩
  | cons r rest ih =>
    intro i s s' l hs h hl
    unfold handle_loop at h
    rcases hb : loop_body k fuel dwPid hProcess i r s with _ | s1
    · rw [hb] at h; cases h
    · rw [hb] at h
      obtain ⟨⟨l2, g1, g2⟩, g0, g3⟩ := iteration_spec k fuel dwPid hProcess i r s s1 l hs hl hb
      obtain ⟨c1, c2, c3⟩ := loop_cleanup_output s1
      obtain ⟨l', f1, f2⟩ := ih (i + 1) (loop_cleanup s1) s' l2
        (by rw [loop_cleanup_finish]; exact g0 hp) h (c1.trans g1)
      refine ⟨l', f1, fun he => ?_⟩
      obtain ⟨f3, f4⟩ := f2 he
      rw [c2] at f3
      obtain ⟨g4, g5⟩ := g2 f3
      refine ⟨g4, fun fuel' hf => ?_⟩
      rw [f4 fuel' hf, g5 fuel' hf, c3, g3 fuel' hf]
      simp [Spec.names]

theorem snapshot_round_output (k : Kernel) (n : Nat) (s : State) :
    (snapshot_round k n s).2.py_retlist = s.py_retlist ∧
    (snapshot_round k n s).2.finishSignalled = s.finishSignalled ∧
    (snapshot_round k n s).2.g_hThread = s.g_hThread ∧
    ((snapshot_round k n s).1 = none → (snapshot_round k n s).2.error = true) ∧
    ((snapshot_round k n s).1 ≠ none → (snapshot_round k n s).2.error = s.error) := by
  cases hp : s.pHandleInfo <;> cases ha : k.heapAllocInfo n (s.dwInfoSize * 2 % 4294967296) <;>
    simp [snapshot_round, hp, ha, MALLOC_ZERO, FREE, emit, PyErr_Set]

theorem snapshot_loop_output (k : Kernel) :
    ∀ (fuel n : Nat) (s : State) (e : Exit) (st : NTSTATUS) (s' : State),
      snapshot_loop k fuel n s = some (e, st, s') →
      s'.py_retlist = s.py_retlist ∧ s'.finishSignalled = s.finishSignalled ∧
      s'.g_hThread = s.g_hThread ∧
      (e = Exit.jump → s'.error = true) ∧ (e = Exit.done → s'.error = s.error) := by
  intro fuel
  induction fuel with
  | zero => intro n s e st s' h; simp [snapshot_loop] at h
  | succ fuel ih =>
    intro n s e st s' h
    unfold snapshot_loop at h
    obtain ⟨g1, g0, g2, g3, g4⟩ := snapshot_round_output k n s
    rcases hn : snapshot_round k n s with ⟨_ | status, s1⟩
    · rw [hn] at h g1 g0 g2 g3 g4
      simp only [Option.some.injEq, Prod.mk.injEq] at h
      obtain ⟨rfl, _, rfl⟩ := h
      exact ⟨g1, g0, g2, fun _ => g3 rfl, fun h => by cases h⟩
    · rw [hn] at h g1 g0 g2 g3 g4
      by_cases hst : status = STATUS_INFO_LENGTH_MISMATCH
      · simp only [hst, if_true] at h
        obtain ⟨f1, f0, f2, f3, f4⟩ := ih _ _ _ _ _ h
        exact ⟨f1.trans g1, f0.trans g0, f2.trans g2, f3,
          fun he => (f4 he).trans (g4 (by simp))⟩
      · simp only [hst, if_false, Option.some.injEq, Prod.mk.injEq] at h
        obtain ⟨rfl, _, rfl⟩ := h
        exact ⟨g1, g0, g2, fun h => (by cases h), fun _ => g4 (by simp)⟩

theorem snapshot_output (k : Kernel) (fuel : Nat) (s : State) (e : Exit) (s' : State)
    (h : snapshot k fuel s = some (e, s')) :
    s'.py_retlist = s.py_retlist ∧ s'.g_hThread = s.g_hThread ∧
    (e = Exit.jump → s'.error = true) ∧ (e = Exit.done → s'.error = s.error) := by
  revert h
  refine snapshot_cases k fuel s (fun r => r = some (e, s') →
    s'.py_retlist = s.py_retlist ∧ s'.g_hThread = s.g_hThread ∧
    (e = Exit.jump → s'.error = true) ∧ (e = Exit.done → s'.error = s.error)) ?_ ?_ ?_ ?_
  · intro _ h; cases h
  · intro st s1 hn h
    simp only [Option.some.injEq, Prod.mk.injEq] at h
    obtain ⟨rfl, rfl⟩ := h
    obtain ⟨f1, _, f2, f3, f4⟩ := snapshot_loop_output k _ _ _ _ _ _ hn
    exact ⟨f1, f2, f3, f4⟩
  · intro st s1 hn _ h
    simp only [Option.some.injEq, Prod.mk.injEq] at h
    obtain ⟨rfl, rfl⟩ := h
    obtain ⟨f1, _, f2, _, _⟩ := snapshot_loop_output k _ _ _ _ _ _ hn
    exact ⟨by simpa [PyErr_Set] using f1, by simpa [PyErr_Set] using f2, fun _ => rfl,
      fun h => by cases h⟩
  · intro st s1 hn _ h
    simp only [Option.some.injEq, Prod.mk.injEq] at h
    obtain ⟨rfl, rfl⟩ := h
    obtain ⟨f1, _, f2, f3, f4⟩ := snapshot_loop_output k _ _ _ _ _ _ hn
    exact ⟨f1, f2, f3, f4⟩

theorem snapshot_finish (k : Kernel) (fuel : Nat) (s : State) (e : Exit) (s' : State)
    (h : snapshot k fuel s = some (e, s')) : s'.finishSignalled = s.finishSignalled := by
  revert h
  refine snapshot_cases k fuel s (fun r => r = some (e, s') →
    s'.finishSignalled = s.finishSignalled) ?_ ?_ ?_ ?_
  · intro _ h; cases h
  · intro st s1 hn h
    simp only [Option.some.injEq, Prod.mk.injEq] at h
    obtain ⟨rfl, rfl⟩ := h
    exact (snapshot_loop_output k _ _ _ _ _ _ hn).2.1
  · intro st s1 hn _ h
    simp only [Option.some.injEq, Prod.mk.injEq] at h
    obtain ⟨rfl, rfl⟩ := h
    have := (snapshot_loop_output k _ _ _ _ _ _ hn).2.1
    simpa [PyErr_Set] using this
  · intro st s1 hn _ h
    simp only [Option.some.injEq, Prod.mk.injEq] at h
    obtain ⟨rfl, rfl⟩ := h
    exact (snapshot_loop_output k _ _ _ _ _ _ hn).2.1

theorem guarded_spec (k : Kernel) (fuel : Nat) (dwPid : DWORD) (hProcess : HANDLE)
    (s s' : State) (hp : punctual k) (hstep : s.finishSignalled = false)
    (h : guarded k fuel dwPid hProcess s = some s') (he : s'.error = false) :
    ∃ l, s'.py_retlist = some l ∧ ∀ fuel', fuel ≤ fuel' →
      l = Spec.names k dwPid hProcess fuel' 0 k.handles s.g_hThread.isSome := by
  revert h
  refine guarded_cases k fuel dwPid hProcess s (fun r => r = some s' →
    ∃ l, s'.py_retlist = some l ∧ ∀ fuel', fuel ≤ fuel' →
      l = Spec.names k dwPid hProcess fuel' 0 k.handles s.g_hThread.isSome) ?_ ?_ ?_ ?_ ?_
  · intro _ h
    simp only [Option.some.injEq] at h
    subst h
    simp at he
  · intro _ _ h
    simp only [Option.some.injEq] at h
    subst h
    simp at he
  · intro _ _ _ h; cases h
  · intro s2 _ _ hs h
    simp only [Option.some.injEq] at h
    subst h
    have := (snapshot_output k fuel _ _ _ hs).2.2.1 rfl
    rw [this] at he; cases he
  · intro s2 _ hl hs h
    obtain ⟨f1, f2, _, _⟩ := snapshot_output k fuel _ _ _ hs
    have hl2 : s2.py_retlist = some [] := by
      rw [f1]; simp [py_list_new, emit, hl]
    have hs2 : s2.finishSignalled = false := by
      rw [snapshot_finish k fuel _ _ _ hs]; simpa [py_list_new, emit] using hstep
    obtain ⟨l', g1, g2⟩ := handle_loop_spec k fuel dwPid hProcess hp _ _ _ _ _ hs2 h hl2
    refine ⟨l', g1, fun fuel' hf => ?_⟩
    have := (g2 he).2 fuel' hf
    rw [this, f2]
    simp [py_list_new, emit]

/-- C1 (amended): the returned list is the one the specification prescribes, as
long as no worker completes a query after its wait has timed out.  For any
snapshot, target pid, punctual kernel and entry state in which `g_hEvtFinish`
is not signalled, whenever `psutil_get_open_files` returns a list `l`, `l` is
`Spec.names`: the entries, in snapshot order, of exactly the records that
(a) belong to `dwPid`, (b) are duplicated successfully, (c) have their name
query complete within the timeout with a success status after zero or more
"too small" retries and (d) resolve to a name of `Length > 0`.  Each such
record contributes one entry and every other record, in particular every
record of another process, none.  The equation holds for the fuel of the run
and for every larger one. -/
theorem returned_list_spec (k : Kernel) (fuel : Nat) (dwPid : DWORD) (hProcess : HANDLE)
    (s s' : State) (l : List PyStr)
    (hp : punctual k) (hstep : s.finishSignalled = false)
    (h : psutil_get_open_files k fuel dwPid hProcess s = some (some l, s')) :
    ∀ fuel', fuel ≤ fuel' →
      l = Spec.names k dwPid hProcess fuel' 0 k.handles s.g_hThread.isSome := by
  unfold psutil_get_open_files at h
  simp only at h
  split at h
  · cases h
  · rename_i s3 hg
    simp only [Option.some.injEq] at h
    rw [cleanup_eq] at h
    simp only [Prod.mk.injEq] at h
    obtain ⟨h1, _⟩ := h
    have he : s3.error = false := by
      cases hc : s3.error
      · rfl
      · rw [hc] at h1; simp at h1
    rw [he] at h1
    simp only [Bool.false_eq_true, if_false] at h1
    obtain ⟨l2, g1, g2⟩ := guarded_spec k fuel dwPid hProcess _ _ hp (by
      by_cases hi : s.g_initialized = true
      · simp [hi, emit, hstep]
      · simp [hi, emit, psutil_get_open_files_init, hstep]) hg he
    rw [g1] at h1
    simp only [Option.some.injEq] at h1
    subst h1
    intro fuel' hf
    have := g2 fuel' hf
    rw [this]
    by_cases hi : s.g_initialized = true
    · simp [hi, emit]
    · simp [hi, emit, psutil_get_open_files_init]

/-! ## Per-handle failures are not fatal -/

/-- One round of the handle loop returns, under a punctual kernel and entered with
`g_hEvtFinish` not signalled, when some reply for the record is not "too
small"; the event is not signalled afterwards. -/
theorem loop_body_terminates (k : Kernel) (fuel : Nat) (dwPid : DWORD) (hProcess : HANDLE)
    (i : Nat) (hHandle : SYSTEM_HANDLE_TABLE_ENTRY_INFO_EX) (s : State) (n : Nat)
    (hp : punctual k) (hs : s.finishSignalled = false)
    (hn : ∀ h size L name,
      k.ntQueryObject i n h size ≠ WorkerReply.finished STATUS_INFO_LENGTH_MISMATCH L name)
    (hf : n < fuel) :
    ∃ s1, loop_body k fuel dwPid hProcess i hHandle s = some s1 ∧
      s1.finishSignalled = false := by
  refine loop_body_cases k fuel dwPid hProcess i hHandle s (fun r =>
    ∃ s1, r = some s1 ∧ s1.finishSignalled = false) ?_ ?_ ?_ ?_ ?_
  · intro _; exact ⟨s, rfl, hs⟩
  · intro _ _; exact ⟨_, rfl, by simpa [emit] using hs⟩
  · intro hd _ _ hdiv
    obtain ⟨e, s', d, g1, _⟩ := name_loop_terminates k i n hn fuel 0 (open_handle i hd s)
      (Or.inl (by rw [open_handle_finish]; exact hs)) (by omega) (by omega)
    rw [hdiv] at g1; cases g1
  · intro hd s3 _ _ hl
    obtain ⟨_, _, g0, _⟩ := name_loop_spec k i _ _ _ _ _
      (by rw [open_handle_finish]; exact hs) hl
    exact ⟨s3, rfl, g0 (fun j h size st len name => hp i j h size st len name)⟩
  · intro hd s3 _ _ hl
    obtain ⟨_, _, g0, _⟩ := name_loop_spec k i _ _ _ _ _
      (by rw [open_handle_finish]; exact hs) hl
    refine ⟨_, rfl, ?_⟩
    rw [convert_and_append_finish]
    exact g0 (fun j h size st len name => hp i j h size st len name)

/-- The handle loop returns, under a punctual kernel and entered with
`g_hEvtFinish` not signalled, when every record has a reply that is not "too
small". -/
theorem handle_loop_terminates (k : Kernel) (fuel : Nat) (dwPid : DWORD) (hProcess : HANDLE)
    (hp : punctual k) :
    ∀ (recs : List SYSTEM_HANDLE_TABLE_ENTRY_INFO_EX) (i : Nat) (s : State),
      s.finishSignalled = false →
      (∀ idx, i ≤ idx → idx < i + recs.length → ∃ n, n < fuel ∧ ∀ h size L name,
        k.ntQueryObject idx n h size
          ≠ WorkerReply.finished STATUS_INFO_LENGTH_MISMATCH L name) →
      ∃ s', handle_loop k fuel dwPid hProcess i recs s = some s' := by
  intro recs
  induction recs with
  | nil => intro i s _ _; exact ⟨s, rfl⟩
  | cons r rest ih =>
    intro i s hs hr
    obtain ⟨n, hnf, hn⟩ := hr i (le_refl _) (by simp)
    obtain ⟨s1, g1, g2⟩ := loop_body_terminates k fuel dwPid hProcess i r s n hp hs hn hnf
    obtain ⟨s', f1⟩ := ih (i + 1) (loop_cleanup s1) (by rw [loop_cleanup_finish]; exact g2) (by
      intro idx h1 h2
      exact hr idx (by omega) (by simp only [List.length_cons]; omega))
    refine ⟨s', ?_⟩
    unfold handle_loop; rw [g1]; exact f1

/-- The snapshot loop returns when some round cannot allocate its buffer or gets a
reply that is not "too small". -/
theorem snapshot_loop_ends (k : Kernel) (n : Nat) (hk : snapshotEnds k n) :
    ∀ (fuel m : Nat) (s : State), m ≤ n → n < m + fuel →
      s.dwInfoSize = 0x10000 * 2 ^ m % 2 ^ 32 →
      ∃ r, snapshot_loop k fuel m s = some r := by
  intro fuel
  induction fuel with
  | zero => intro m s h1 h2; omega
  | succ fuel ih =>
    intro m s h1 h2 hs
    have hsz : (s.dwInfoSize * 2) % 2 ^ 32 = snapshotSize m := by
      have e : 65536 * 2 ^ (m + 1) = 65536 * 2 ^ m * 2 := by rw [pow_succ, Nat.mul_assoc]
      have p : (2 : Nat) ^ 32 = 4294967296 := by norm_num
      rw [hs, snapshotSize, e, p]
      generalize 65536 * 2 ^ m = x
      omega
    unfold snapshot_loop
    cases hal : k.heapAllocInfo m ((s.dwInfoSize * 2) % 2 ^ 32)
    · obtain ⟨s', e1, _⟩ := snapshot_round_nomem k m s hal
      rw [e1]
      exact ⟨_, rfl⟩
    · obtain ⟨s', e1, _, _, e4, _⟩ := snapshot_round_query k m s hal
      rw [hsz] at e1 e4 hal
      rw [e1]
      by_cases hst : k.ntQuerySystemInformation m (snapshotSize m) = STATUS_INFO_LENGTH_MISMATCH
      · simp only [hst, if_true]
        have hmn : m ≠ n := by
          intro e
          subst e
          rcases hk with h | h
          · rw [hal] at h; cases h
          · exact h hst
        refine ih (m + 1) s' (by omega) (by omega) ?_
        rw [e4, snapshotSize]
      · simp only [hst, if_false]
        exact ⟨_, rfl⟩

/-- The guarded region returns when its loops end: under a punctual kernel, entered
with `g_hEvtFinish` not signalled. -/
theorem guarded_terminates (k : Kernel) (fuel : Nat) (dwPid : DWORD) (hProcess : HANDLE)
    (s : State) (n B : Nat) (hp : punctual k) (hstep : s.finishSignalled = false)
    (hsz : s.dwInfoSize = 0x10000) (hsnap : snapshotEnds k n)
    (hretry : ∀ i, i < k.handles.length → ∃ m, m < B ∧ ∀ h size L name,
      k.ntQueryObject i m h size ≠ WorkerReply.finished STATUS_INFO_LENGTH_MISMATCH L name)
    (hf1 : n < fuel) (hf2 : B ≤ fuel) :
    ∃ s', guarded k fuel dwPid hProcess s = some s' := by
  obtain ⟨r, hr⟩ := snapshot_loop_ends k n hsnap fuel 0 (py_list_new k s) (by omega) (by omega)
    (by simp [py_list_new, emit, hsz])
  have hsn : snapshot k fuel (py_list_new k s) ≠ none := by
    refine snapshot_cases k fuel (py_list_new k s) (fun x => x ≠ none) ?_ ?_ ?_ ?_
    · intro h; rw [hr] at h; cases h
    · intro _ _ _; simp
    · intro _ _ _ _; simp
    · intro _ _ _ _; simp
  refine guarded_cases k fuel dwPid hProcess s (fun x => ∃ s', x = some s') ?_ ?_ ?_ ?_ ?_
  · intro _; exact ⟨_, rfl⟩
  · intro _ _; exact ⟨_, rfl⟩
  · intro _ _ h; exact absurd h hsn
  · intro s2 _ _ _; exact ⟨_, rfl⟩
  · intro s2 _ _ hs
    have hs2 : s2.finishSignalled = false := by
      rw [snapshot_finish k fuel _ _ _ hs]; simpa [py_list_new, emit] using hstep
    exact handle_loop_terminates k fuel dwPid hProcess hp k.handles 0 s2 hs2 (by
      intro idx _ h2
      obtain ⟨m, hm, hq⟩ := hretry idx (by omega)
      exact ⟨m, by omega, hq⟩)

/-- C7 (amended): the single-flight guard covers the whole pipeline and is released
by every call whose loops end.  Let the kernel be punctual and `g_hEvtFinish`
not signalled on entry, so that the worker runs only while the caller waits
for it; let the snapshot loop end in round `n` (a failed allocation or a reply
that is not "too small") and let every handle have an attempt `m < B` whose
reply is not "too small".  Then with any fuel above `n` and at least `B` the
call returns, on whichever exit path, and its trace is the entry trace followed
by `pre`, `EnterCriticalSection`, `mid` and `LeaveCriticalSection`, where
neither `pre` nor `mid` enters or leaves the critical section and `pre`, the
lazy initialisation, contains no snapshot query, no `DuplicateHandle`, no write
to the shared worker context and no signal to or from the worker: all of these
lie in `mid`, between the one entry and the one exit. -/
theorem single_flight_guard (k : Kernel) (dwPid : DWORD) (hProcess : HANDLE) (s : State)
    (n B fuel : Nat) (hp : punctual k) (hstep : s.finishSignalled = false)
    (hsnap : snapshotEnds k n)
    (hretry : ∀ i, i < k.handles.length → ∃ m, m < B ∧ ∀ h size L name,
      k.ntQueryObject i m h size ≠ WorkerReply.finished STATUS_INFO_LENGTH_MISMATCH L name)
    (hf1 : n < fuel) (hf2 : B ≤ fuel) :
    ∃ r pre mid, psutil_get_open_files k fuel dwPid hProcess s = some r ∧
      r.2.trace
        = s.trace ++ pre ++ [Event.EnterCriticalSection] ++ mid ++ [Event.LeaveCriticalSection] ∧
      (∀ e ∈ pre, e.guarded = false) ∧ Quiet pre ∧ Quiet mid := by
  have hret : ∃ r, psutil_get_open_files k fuel dwPid hProcess s = some r := by
    unfold psutil_get_open_files
    simp only
    generalize hs2 : emit Event.EnterCriticalSection
      (if ({ s with pHandleInfo := none, dwInfoSize := 0x10000, error := false,
                    py_retlist := none } : State).g_initialized = false then
        psutil_get_open_files_init k true
          { s with pHandleInfo := none, dwInfoSize := 0x10000, error := false,
                   py_retlist := none }
      else { s with pHandleInfo := none, dwInfoSize := 0x10000, error := false,
                    py_retlist := none }) = s2
    have hfin : s2.finishSignalled = false := by
      subst hs2
      by_cases hi : s.g_initialized = true
      · simp [hi, emit, hstep]
      · simp [hi, emit, psutil_get_open_files_init, hstep]
    have hsz : s2.dwInfoSize = 0x10000 := by
      subst hs2
      by_cases hi : s.g_initialized = true
      · simp [hi, emit]
      · simp [hi, emit, psutil_get_open_files_init]
    obtain ⟨s3, hg⟩ := guarded_terminates k fuel dwPid hProcess s2 n B hp hfin hsz hsnap hretry
      hf1 hf2
    rw [hg]
    exact ⟨_, rfl⟩
  obtain ⟨r, hr⟩ := hret
  obtain ⟨pre, mid, h1, h2, h3, h4⟩ := call_trace k fuel dwPid hProcess s r hr
  exact ⟨r, pre, mid, hr, h1, h2, h3, h4⟩

/-- What a call does, in terms of the guarded region: it runs from the state in
which the critical section was just entered, and `cleanup`, which leaves the
critical section, runs only when the guarded region has returned. -/
theorem call_eq_guarded (k : Kernel) (fuel : Nat) (dwPid : DWORD) (hProcess : HANDLE) :
    psutil_get_open_files k fuel dwPid hProcess State.initial
      = (guarded k fuel dwPid hProcess (emit Event.EnterCriticalSection
          (psutil_get_open_files_init k true
            { State.initial with dwInfoSize := 0x10000 }))).map cleanup := by
  unfold psutil_get_open_files
  simp only [State.initial, if_true]
  cases guarded k fuel dwPid hProcess _ <;> rfl

/-- C7 as stated fails: the guard is not always released.  A first call under
`kernelRetryForever` enters the critical section (`retryForeverEntered` is the
state right after line 117), and the guarded region started there never
returns, whatever the fuel; `LeaveCriticalSection` (line 264) lies behind it and
is never reached, and the call never returns.
Nor does the guard cover every write to the shared context.  In the call under
`kernelLateFinish` the attempt for the file signals the worker created for it
(line 81) and returns on the signal the pipe's worker left behind, so the
worker has not run its round when the call returns (`lateFinishFinal`); that
round (lines 46-61) then stores `g_dwLength` and `g_status` and signals
`g_hEvtFinish` after `LeaveCriticalSection`. -/
theorem guard_never_released :
    retryForeverEntered.trace = [Event.CreateEvent (some 1), Event.CreateEvent (some 2),
      Event.InitCriticalSection, Event.EnterCriticalSection] ∧
    (∀ fuel, psutil_get_open_files kernelRetryForever fuel 1234 77 State.initial
      = (guarded kernelRetryForever fuel 1234 77 retryForeverEntered).map cleanup) ∧
    (∀ fuel, guarded kernelRetryForever fuel 1234 77 retryForeverEntered = none) ∧
    (∀ fuel, psutil_get_open_files kernelRetryForever fuel 1234 77 State.initial = none) ∧
    ((psutil_get_open_files kernelLateFinish 5 1234 77 State.initial).map Prod.fst
        = some (some []) ∧
      lateFinishFinal.g_hThread = some 51 ∧
      eventsAfter (Event.CreateThread 1 0 (some 51)) lateFinishFinal.trace
        = [Event.SetEventStart, Event.WaitFinish WAIT_OBJECT_0, Event.HeapFree 2,
            Event.write Var.g_pNameBuffer, Event.write Var.g_dwSize,
            Event.write Var.g_dwLength, Event.CloseHandle 108, Event.write Var.g_hFile,
            Event.write Var.g_pNameBuffer, Event.write Var.g_dwSize,
            Event.write Var.g_dwLength, Event.write Var.g_hFile, Event.HeapFree 0,
            Event.LeaveCriticalSection] ∧
      eventsAfter Event.LeaveCriticalSection
          (psutil_wait_thread kernelLateFinish 1 0 lateFinishFinal).trace
        = [Event.NtQueryObject 1 0 0
              (WorkerReply.finished STATUS_INVALID_HANDLE 0 UNICODE_STRING.zero),
            Event.write Var.g_dwLength, Event.write Var.g_status, Event.SetEventFinish]) := by
  have h2 : ∀ fuel, psutil_get_open_files kernelRetryForever fuel 1234 77 State.initial
      = (guarded kernelRetryForever fuel 1234 77 retryForeverEntered).map cleanup :=
    fun fuel => call_eq_guarded kernelRetryForever fuel 1234 77
  refine ⟨rfl, h2, ?_, kernelRetryForever_never_returns, rfl, rfl, rfl, rfl⟩
  intro fuel
  have h := kernelRetryForever_never_returns fuel
  rw [h2 fuel] at h
  cases hg : guarded kernelRetryForever fuel 1234 77 retryForeverEntered with
  | none => rfl
  | some s3 => rw [hg] at h; cases h

/-! ## Witnesses -/

/-- The end-to-end scenario returns the names of the two files. -/
theorem scenario_run :
    psutil_get_open_files kernelScenario 5 1234 77 State.initial
      = some (some [PyUnicode_FromWideChar fileName, PyUnicode_FromWideChar fileName],
          scenarioFinal) := by
  rfl

/-- The first round of the handle loop of the scenario returns. -/
theorem scenario_round_run :
    loop_body kernelScenario 5 1234 77 0 ⟨1234, 4⟩ State.initial = some scenarioRound := by
  rfl

/-- No name query of the scenario is completed after its wait has timed out. -/
theorem kernelScenario_punctual : punctual kernelScenario := by
  intro i j h size st L name hc
  simp only [kernelScenario] at hc
  split_ifs at hc

/-- The snapshot query of the scenario succeeds in round 2. -/
theorem kernelScenario_snapshotEnds : snapshotEnds kernelScenario 2 :=
  Or.inr (by decide)

/-- Witness of C1 (amended): the end-to-end scenario returns the two file names, and
they are the list the specification prescribes. -/
theorem returned_list_spec_witness :
    (punctual kernelScenario ∧ State.initial.finishSignalled = false ∧
      psutil_get_open_files kernelScenario 5 1234 77 State.initial
        = some (some [PyUnicode_FromWideChar fileName, PyUnicode_FromWideChar fileName],
            scenarioFinal)) ∧
    ∀ fuel', 5 ≤ fuel' →
      [PyUnicode_FromWideChar fileName, PyUnicode_FromWideChar fileName]
        = Spec.names kernelScenario 1234 77 fuel' 0 kernelScenario.handles
            State.initial.g_hThread.isSome :=
  ⟨⟨kernelScenario_punctual, rfl, scenario_run⟩,
    returned_list_spec kernelScenario 5 1234 77 State.initial scenarioFinal _
      kernelScenario_punctual rfl scenario_run⟩

/-- C1 as stated fails: under `kernelLateFinish` the file (record 1) belongs to the
target process, is duplicated, and its name query completes at once with a
success status and the 64-byte name `fileName`, so that the specification
prescribes one entry.  But the pipe before it has left `g_hEvtFinish`
signalled: the wait for the file's query returns at once, before the worker has
run, the zeroed buffer holds a name of length 0, and the call returns the
empty list without having queried the file. -/
theorem stale_signal_drops_record :
    kernelLateFinish.ntQueryObject 0 0 (some 104) 522 = WorkerReply.late 0 80 fileName ∧
    (∀ j h size,
      kernelLateFinish.ntQueryObject 1 j (some h) size = WorkerReply.finished 0 80 fileName) ∧
    (∀ fuel, 5 ≤ fuel →
      Spec.names kernelLateFinish 1234 77 fuel 0 kernelLateFinish.handles
          State.initial.g_hThread.isSome
        = [PyUnicode_FromWideChar fileName]) ∧
    (psutil_get_open_files kernelLateFinish 5 1234 77 State.initial).map
        (fun r => (r.1, nameQueries r.2.trace))
      = some (some [], [(0, 0, 522)]) := by
  refine ⟨rfl, fun _ _ _ => rfl, ?_, rfl⟩
  intro f hf
  obtain ⟨g, rfl⟩ : ∃ g, f = g + 1 := ⟨f - 1, by omega⟩
  rfl

theorem kernelScenario_second_reply (i : Nat) (h : Option HANDLE) (size L : Nat)
    (name : UNICODE_STRING) :
    kernelScenario.ntQueryObject i 1 h size
      ≠ WorkerReply.finished STATUS_INFO_LENGTH_MISMATCH L name := by
  intro e
  have : kernelScenario.ntQueryObject i 1 h size = WorkerReply.finished 0 80 fileName := rfl
  rw [this] at e
  simp [STATUS_INFO_LENGTH_MISMATCH] at e

theorem kernelScenario_snapshot (n size : Nat) :
    kernelScenario.ntQuerySystemInformation n size = STATUS_INFO_LENGTH_MISMATCH
      ↔ size < 0x50000 := by
  show (if size < 0x50000 then STATUS_INFO_LENGTH_MISMATCH else 0)
    = STATUS_INFO_LENGTH_MISMATCH ↔ _
  by_cases h : size < 0x50000
  · rw [if_pos h]; exact ⟨fun _ => h, fun _ => rfl⟩
  · rw [if_neg h]; exact ⟨fun c => absurd c (by decide), fun c => absurd c h⟩

/-- Witness of C7 (amended): the end-to-end scenario, in which one handle hangs. -/
theorem single_flight_guard_witness :
    (punctual kernelScenario ∧ State.initial.finishSignalled = false ∧
      snapshotEnds kernelScenario 2 ∧
      (∀ i, i < kernelScenario.handles.length → ∃ m, m < 2 ∧ ∀ h size L name,
        kernelScenario.ntQueryObject i m h size
          ≠ WorkerReply.finished STATUS_INFO_LENGTH_MISMATCH L name) ∧
      2 < 5 ∧ 2 ≤ 5) ∧
    ∃ r pre mid, psutil_get_open_files kernelScenario 5 1234 77 State.initial = some r ∧
      r.2.trace
        = State.initial.trace ++ pre ++ [Event.EnterCriticalSection] ++ mid
          ++ [Event.LeaveCriticalSection] ∧
      (∀ e ∈ pre, e.guarded = false) ∧ Quiet pre ∧ Quiet mid :=
  ⟨⟨kernelScenario_punctual, rfl, kernelScenario_snapshotEnds,
      fun i _ => ⟨1, by decide, kernelScenario_second_reply i⟩, by decide, by decide⟩,
    single_flight_guard kernelScenario 1234 77 State.initial 2 2 5 kernelScenario_punctual rfl
      kernelScenario_snapshotEnds (fun i _ => ⟨1, by decide, kernelScenario_second_reply i⟩)
      (by decide) (by decide)⟩

/-- Witness of C9 (amended): the handle table of the scenario needs `0x50000` bytes. -/
theorem snapshot_growth_bounded_witness :
    (0x50000 ≤ 2 ^ 31 ∧
      (∀ n size, kernelScenario.ntQuerySystemInformation n size = STATUS_INFO_LENGTH_MISMATCH
        ↔ size < 0x50000) ∧
      ({ State.initial with dwInfoSize := 0x10000 } : State).dwInfoSize = 0x10000 ∧ 15 ≤ 15) ∧
    ∃ e s' m, snapshot kernelScenario 15 { State.initial with dwInfoSize := 0x10000 }
        = some (e, s') ∧
      m ≤ max 1 (Nat.clog 2 0x50000 - 16) ∧
      snapshotQueries s'.trace
        = snapshotQueries ({ State.initial with dwInfoSize := 0x10000 } : State).trace
          ++ (List.range m).map (fun a => 0x10000 * 2 ^ (a + 1) % 2 ^ 32) ∧
      (∃ tail, snapshotSteps s'.trace ++ pendingInfo s'
          = snapshotSteps ({ State.initial with dwInfoSize := 0x10000 } : State).trace
            ++ pendingInfo ({ State.initial with dwInfoSize := 0x10000 } : State)
            ++ (List.range m).flatMap (Spec.growthSteps kernelScenario
                ({ State.initial with dwInfoSize := 0x10000 } : State).nextBlock) ++ tail ∧
        (tail = [] ∨ tail = [Event.HeapAlloc (snapshotSize m) none])) ∧
      ((e = Exit.done ∧ s'.pHandleInfo ≠ none
          ∧ s'.error = ({ State.initial with dwInfoSize := 0x10000 } : State).error) ∨
        (e = Exit.jump ∧ s'.error = true ∧ s'.pyErr ≠ none)) :=
  ⟨⟨by norm_num, kernelScenario_snapshot, rfl, le_refl _⟩,
    snapshot_growth_bounded kernelScenario 0x50000 (by norm_num) kernelScenario_snapshot
      { State.initial with dwInfoSize := 0x10000 } rfl 15 (le_refl _)⟩

/-- Witness of C5 (amended): the first handle of the scenario, whose name needs one
retry. -/
theorem retry_uses_reported_size_witness :
    ((⟨1234, 4⟩ : SYSTEM_HANDLE_TABLE_ENTRY_INFO_EX).UniqueProcessId = 1234 ∧
      kernelScenario.duplicateHandle 0 77
        (⟨1234, 4⟩ : SYSTEM_HANDLE_TABLE_ENTRY_INFO_EX).HandleValue = some 104 ∧
      State.initial.g_pNameBuffer = none ∧
      (∀ j size, kernelScenario.heapAllocName 0 j size = true) ∧
      workerFor kernelScenario 0 0 State.initial.g_hThread ≠ none ∧
      State.initial.finishSignalled = false ∧
      loop_body kernelScenario 5 1234 77 0 ⟨1234, 4⟩ State.initial = some scenarioRound) ∧
    ((MAX_PATH + 1) * sizeof_WCHAR = 522 ∧
      ∀ fuel', 5 ≤ fuel' →
        nameSteps (loop_cleanup scenarioRound).trace
          = nameSteps State.initial.trace
            ++ Spec.retrySteps kernelScenario 0 (some 104) fuel' 0 522) :=
  ⟨⟨rfl, rfl, rfl, fun _ _ => rfl, by decide, rfl, scenario_round_run⟩,
    retry_uses_reported_size kernelScenario 5 1234 77 0 ⟨1234, 4⟩ State.initial scenarioRound
      104 rfl rfl rfl (fun _ _ => rfl) (by decide) rfl scenario_round_run⟩

/-- Witness of C3 (amended): the handle of `kernelThreadFails`. -/
theorem thread_creation_failure_skips_witness :
    ((⟨1234, 4⟩ : SYSTEM_HANDLE_TABLE_ENTRY_INFO_EX).UniqueProcessId = 1234 ∧
      kernelThreadFails.duplicateHandle 0 77
        (⟨1234, 4⟩ : SYSTEM_HANDLE_TABLE_ENTRY_INFO_EX).HandleValue = some 100 ∧
      State.initial.g_pNameBuffer = none ∧
      kernelThreadFails.heapAllocName 0 0 ((MAX_PATH + 1) * sizeof_WCHAR) = true ∧
      State.initial.g_hThread = none ∧
      kernelThreadFails.createThread 0 0 = ThreadResult.failed ERROR_NOT_ENOUGH_MEMORY ∧
      0 < 1) ∧
    ∃ s1, loop_body kernelThreadFails 1 1234 77 0 ⟨1234, 4⟩ State.initial = some s1 ∧
      s1.error = State.initial.error ∧ s1.py_retlist = State.initial.py_retlist ∧
      s1.pyErr = State.initial.pyErr ∧
      s1.lastError = ERROR_NOT_ENOUGH_MEMORY.code ∧
      ERROR_NOT_ENOUGH_MEMORY.code ≠ WAIT_OBJECT_0 ∧
      nameQueries s1.trace = nameQueries State.initial.trace ∧
      (loop_cleanup s1).heap = State.initial.heap ∧
      (loop_cleanup s1).dupHandles = State.initial.dupHandles ∧
      (loop_cleanup s1).faults = State.initial.faults :=
  ⟨⟨rfl, rfl, rfl, rfl, rfl, rfl, by decide⟩,
    thread_creation_failure_skips kernelThreadFails 1 1234 77 0 ⟨1234, 4⟩ State.initial 100
      ERROR_NOT_ENOUGH_MEMORY rfl rfl rfl rfl rfl rfl (by decide)⟩

/-- C8, the code at the failing input: under `kernelAppendFails` the call to
`PyList_Append` fails for record 0; the call returns NULL with the error flag
set, but after the failed append record 1 is still duplicated and its name is
still queried. -/
theorem append_failure_keeps_looping :
    kernelAppendFails.pyListAppend 0 = false ∧
    (psutil_get_open_files kernelAppendFails 5 1234 77 State.initial).map
        (fun r => (r.1, r.2.error,
          duplications (eventsAfter (Event.PyListAppend 0 false) r.2.trace),
          nameQueries (eventsAfter (Event.PyListAppend 0 false) r.2.trace)))
      = some (none, true, [(1, some 108)], [(1, 0, 522)]) := by
  constructor
  · rfl
  · rfl

/-- Witness of C4 (amended): in the end-to-end scenario the wait for the hanging
pipe times out and the worker is terminated, and the file after it is resolved
on a worker created for it. -/
theorem worker_absent_after_timeout_witness :
    (psutil_get_open_files kernelScenario 5 1234 77 State.initial
      = some (some [PyUnicode_FromWideChar fileName, PyUnicode_FromWideChar fileName],
          scenarioFinal)) ∧
    (((psutil_create_thread kernelScenario 1 0
          { State.initial with g_hThread := some 50, g_hFile := some 108, g_dwSize := 522 }).2.trace
        = ({ State.initial with g_hThread := some 50, g_hFile := some 108,
                                g_dwSize := 522 } : State).trace
          ++ [Event.SetEventStart, Event.NtQueryObject 1 0 522 WorkerReply.hung,
              Event.WaitFinish WAIT_TIMEOUT, Event.SuspendThread 50, Event.TerminateThread 50,
              Event.WaitThread 50, Event.CloseThread 50] ∧
        Event.WaitFinish WAIT_TIMEOUT ∈
          [Event.SetEventStart, Event.NtQueryObject 1 0 522 WorkerReply.hung,
            Event.WaitFinish WAIT_TIMEOUT, Event.SuspendThread 50, Event.TerminateThread 50,
            Event.WaitThread 50, Event.CloseThread 50]) ∧
      (psutil_create_thread kernelScenario 1 0
        { State.initial with g_hThread := some 50, g_hFile := some 108, g_dwSize := 522 }).1
        = WAIT_TIMEOUT ∧
      (psutil_create_thread kernelScenario 1 0
        { State.initial with g_hThread := some 50, g_hFile := some 108, g_dwSize := 522 }).2.g_hThread
        = none ∧
      ∃ t d', workerFor kernelScenario 1 0
          ({ State.initial with g_hThread := some 50, g_hFile := some 108,
                                g_dwSize := 522 } : State).g_hThread = some t ∧
        [Event.SetEventStart, Event.NtQueryObject 1 0 522 WorkerReply.hung,
            Event.WaitFinish WAIT_TIMEOUT, Event.SuspendThread 50, Event.TerminateThread 50,
            Event.WaitThread 50, Event.CloseThread 50]
          = d' ++ [Event.SuspendThread t, Event.TerminateThread t, Event.WaitThread t,
            Event.CloseThread t]) ∧
    (∃ s1, loop_body kernelScenario 1 1234 77 3 ⟨1234, 12⟩
          { State.initial with py_retlist := some [] } = some s1 ∧
        s1.py_retlist = some ([] ++ [PyUnicode_FromWideChar fileName]) ∧
        s1.g_hThread = some 53 ∧
        ∃ d, s1.trace = ({ State.initial with py_retlist := some [] } : State).trace ++ d ∧
          threadCreations d = [(3, 0)]) :=
  ⟨scenario_run,
    ⟨⟨rfl, by simp⟩,
      worker_absent_after_timeout.1 kernelScenario 1 0
        { State.initial with g_hThread := some 50, g_hFile := some 108, g_dwSize := 522 }
        [Event.SetEventStart, Event.NtQueryObject 1 0 522 WorkerReply.hung,
          Event.WaitFinish WAIT_TIMEOUT, Event.SuspendThread 50, Event.TerminateThread 50,
          Event.WaitThread 50, Event.CloseThread 50] rfl (by simp)⟩,
    worker_absent_after_timeout.2.2.2.2 kernelScenario 1 1234 77 3 ⟨1234, 12⟩
      { State.initial with py_retlist := some [] } 112 53 0 80 fileName [] rfl rfl rfl rfl rfl
      rfl rfl (by decide) (by decide) rfl rfl rfl (by decide)⟩

/-- C4 as stated fails: a well-behaved handle that follows a hung one need not be
resolved.  Under `kernelLatePipe` the wait for the pipe times out and the worker
is torn down, as claimed (`latePipeSecond` has `g_hThread = NULL`), but the
worker had completed its query just before it was suspended and left
`g_hEvtFinish` signalled.  The file that follows is well-behaved: it belongs to
the target process, its duplication, its allocation, its `CreateThread` and its
conversion succeed, and its query answers at once with a success status and a
name of 64 bytes.  A worker is created for it, yet its wait returns at once on
the left-over signal: no query is made for it, the status the pipe left behind
sends it to `loop_cleanup`, and the call returns the empty list. -/
theorem fresh_worker_does_not_resolve :
    (latePipeSecond.g_hThread = none ∧ latePipeSecond.finishSignalled = true ∧
      latePipeSecond.g_status = STATUS_INVALID_HANDLE ∧
      latePipeSecond.py_retlist = some [] ∧
      nameQueries latePipeSecond.trace = [(0, 0, 522)]) ∧
    ((⟨1234, 8⟩ : SYSTEM_HANDLE_TABLE_ENTRY_INFO_EX).UniqueProcessId = 1234 ∧
      kernelLatePipe.duplicateHandle 1 77 8 = some 108 ∧
      kernelLatePipe.heapAllocName 1 0 ((MAX_PATH + 1) * sizeof_WCHAR) = true ∧
      kernelLatePipe.createThread 1 0 = ThreadResult.created 51 ∧
      kernelLatePipe.ntQueryObject 1 0 (some 108) ((MAX_PATH + 1) * sizeof_WCHAR)
        = WorkerReply.finished 0 80 fileName ∧
      NT_SUCCESS 0 = true ∧ 0 < fileName.Length ∧
      kernelLatePipe.pyUnicodeFromWideChar 1 = true ∧ kernelLatePipe.pyListAppend 1 = true) ∧
    (loop_body kernelLatePipe 5 1234 77 1 ⟨1234, 8⟩ latePipeSecond).map
        (fun s1 => (s1.py_retlist, s1.g_hThread,
          threadCreations (s1.trace.drop latePipeSecond.trace.length),
          nameQueries (s1.trace.drop latePipeSecond.trace.length)))
      = some (some [], some 51, [(1, 0)], []) ∧
    (psutil_get_open_files kernelLatePipe 5 1234 77 State.initial).map Prod.fst
      = some (some []) := by
  refine ⟨⟨rfl, rfl, rfl, rfl, rfl⟩, ⟨rfl, rfl, rfl, rfl, rfl, rfl, by decide, rfl, rfl⟩,
    rfl, rfl⟩

/-- Witness of C6: the end-to-end scenario and its first round. -/
theorem no_resource_survives_witness :
    (psutil_get_open_files kernelScenario 5 1234 77 State.initial
      = some (some [PyUnicode_FromWideChar fileName, PyUnicode_FromWideChar fileName],
          scenarioFinal)) ∧
    (scenarioFinal.g_hFile = none ∧ scenarioFinal.g_pNameBuffer = none ∧
      scenarioFinal.g_dwSize = 0 ∧ scenarioFinal.g_dwLength = 0 ∧
      scenarioFinal.pHandleInfo = none ∧ scenarioFinal.heap = State.initial.heap ∧
      scenarioFinal.dupHandles = State.initial.dupHandles ∧
      scenarioFinal.faults = State.initial.faults) ∧
    ((loop_cleanup scenarioRound).g_hFile = none ∧
      (loop_cleanup scenarioRound).g_pNameBuffer = none ∧
      (loop_cleanup scenarioRound).dupHandles = State.initial.dupHandles ∧
      (loop_cleanup scenarioRound).heap = State.initial.heap ∧
      (loop_cleanup scenarioRound).faults = State.initial.faults) :=
  ⟨scenario_run,
    no_resource_survives.1 kernelScenario 5 1234 77 State.initial _ rfl rfl scenario_run,
    no_resource_survives.2.1 kernelScenario 5 1234 77 0 ⟨1234, 4⟩ State.initial scenarioRound
      rfl rfl scenario_round_run⟩

end ProcessHandles
